import Mathlib

/-!
# Zrythm plugin hosting: port wiring and plugin lifecycle

A shallow embedding of routines of `src/plugins/plugin.c`: the port wiring
(`plugin_connect_to_plugin`, `plugin_disconnect_from_plugin`,
`plugin_connect_to_prefader`, `plugin_disconnect_from_prefader`) and the plugin
lifecycle (`plugin_init`, `plugin_new_from_descr`, `plugin_new_dummy`,
`plugin_add_in_port`, `plugin_add_out_port`, `plugin_set_ui_refresh_rate`,
`plugin_instantiate`, `plugin_process`, `plugin_clone`,
`plugin_set_channel_and_slot`, `plugin_generate_automation_tracks`,
`plugin_get_track`, `plugin_init_loaded`, `plugin_update_latency`,
`plugin_remove_ats_from_automation_tracklist`, `plugin_move_automation`,
`plugin_disconnect`, `plugin_free`).

Conventions of the embedding:

* a C array together with its element count (`out_ports`, `num_out_ports`) is a
  `List`; a `for` loop over the array is a structural recursion over the list;
* C `int` fields are `Int`; C `float` values are rationals;
* a `Port *` is a `Port` value; two array slots hold the same port exactly when
  the values are equal; a pointer into a port array (`plugin->enabled`) is the
  index of the element; a pointer that may be `NULL` is an `Option`;
* the wiring routines only call `port_connect`, `port_disconnect` and
  `ports_connected` on pairs of ports.  Each of them is written once, as state
  passing over an arbitrary state `σ`, with the callees as parameters.
  Instantiating the callee with `record_call` yields the sequence of issued
  calls; instantiating it with the graph operation yields the effect on the
  port graph;
* `port_connect`, `port_disconnect` and `ports_connected` live in the port code,
  which is not among the sources; they are modelled from the spec;
* a lifecycle routine that changes the plugin gives the plugin afterwards; the
  backends, the build configuration and the settings it depends on are the
  parameter `Env`;
* a routine that writes to the automation lanes of a track gives the tracks of
  the project afterwards; a `Track *` is the position of the track among them,
  and a pointer to a lane is the position of the lane in its list;
* `g_return_if_fail` and `g_return_val_if_fail` return when their condition
  does not hold; logging (`g_message`, `g_warning`, `g_warn_if_reached`) has no
  effect on the state.
-/

namespace Zrythm

/-! ## Data model

The structures and enumerations are declared in headers (`port.h`, `plugin.h`,
`channel.h`, `track.h`) that are not among the sources.  They are modelled from
the data model of the spec, with the field and constant names `plugin.c`
uses. -/

/-- Modelled from the spec: signal type of a port, one of audio, event/MIDI,
control and control voltage (`plugin.c` names `TYPE_CONTROL`, `TYPE_AUDIO` and
`TYPE_EVENT`). -/
inductive PortType where
  | TYPE_CONTROL
  | TYPE_AUDIO
  | TYPE_EVENT
  | TYPE_CV
  deriving DecidableEq, Repr

/-- Modelled from the spec: direction of a port, input or output (`plugin.c`
names `FLOW_INPUT` and `FLOW_OUTPUT`). -/
inductive PortFlow where
  | FLOW_INPUT
  | FLOW_OUTPUT
  deriving DecidableEq, Repr

/-- Modelled from the spec: kind of the owner of a port, a plugin or a channel
stage (`plugin.c` names `PORT_OWNER_TYPE_PLUGIN`). -/
inductive PortOwnerType where
  | PORT_OWNER_TYPE_PLUGIN
  | PORT_OWNER_TYPE_CHANNEL_STAGE
  deriving DecidableEq, Repr

/-- Modelled from the spec: the flag set of a port (`port->id.flags`).
`plugin.c` names the bits `PORT_FLAG_PLUGIN_ENABLED` (the enabled gate),
`PORT_FLAG_TOGGLE`, `PORT_FLAG_TRIGGER` and `PORT_FLAG_PLUGIN_CONTROL`; the
statement `flags |= F` sets the field `F`, the test `flags & F` reads it.  No
bit is set in memory handed out by `calloc`. -/
structure PortFlags where
  PORT_FLAG_PLUGIN_ENABLED : Bool := false
  PORT_FLAG_TOGGLE : Bool := false
  PORT_FLAG_TRIGGER : Bool := false
  PORT_FLAG_PLUGIN_CONTROL : Bool := false
  deriving DecidableEq, Repr

/-- Modelled from the spec: the identifier of a port (`port->id`): owner kind,
signal type, direction, owner position (`track_pos`, `plugin_slot`), index
within the owner, flag set and label. -/
structure PortIdentifier where
  owner_type : PortOwnerType
  type : PortType
  flow : PortFlow
  track_pos : Int
  plugin_slot : Int
  port_index : Int
  flags : PortFlags := {}
  label : String := ""
  deriving DecidableEq, Repr

/-- Modelled from the spec: a port.  A control port carries its range
(`minf`, `maxf`), its zero and default values (`zerof`, `deff`) and its current
value (`control`).  The C `float` values are rationals here: `plugin.c` only
stores the constants 0, 0.1 and 1 in them, copies them and compares them with
0. -/
structure Port where
  id : PortIdentifier
  minf : Rat := 0
  maxf : Rat := 0
  zerof : Rat := 0
  deff : Rat := 0
  control : Rat := 0
  deriving DecidableEq, Repr

/-- Modelled from the spec: the binary protocol backing a plugin
(`descr->protocol`).  `plugin.c` names `PROT_LV2` and `PROT_VST`; `PROT_DUMMY`
stands for a protocol without backend (the `default:` branches) and is the
value of a descriptor that was only zero-initialised. -/
inductive PluginProtocol where
  | PROT_DUMMY
  | PROT_LV2
  | PROT_VST
  deriving DecidableEq, Repr

/-- Modelled from the spec: a plugin descriptor, with the fields `plugin.c`
reads or writes.  `category` is the numeric value of the `PluginCategory`
enumeration; `open_with_carla` tells whether the plugin requires the external
isolation layer. -/
structure PluginDescriptor where
  num_audio_ins : Int := 0
  num_audio_outs : Int := 0
  num_midi_ins : Int := 0
  protocol : PluginProtocol := PluginProtocol.PROT_DUMMY
  open_with_carla : Bool := false
  author : String := ""
  name : String := ""
  category : Int := 0
  category_str : String := ""
  uri : String := ""
  deriving DecidableEq, Repr

/-- Modelled from the spec: position of a plugin (`plugin->id`). -/
structure PluginIdentifier where
  track_pos : Int := 0
  slot : Int := 0
  deriving DecidableEq, Repr

/-- Modelled from the spec: the state private to the LV2 backend
(`plugin->lv2`).  `plugin.c` reads and writes its `state_file`; the rest is
opaque to it. -/
structure Lv2Plugin where
  state_file : Option String := none
  opaque_state : Nat := 0
  deriving DecidableEq, Repr

/-- Modelled from the spec: the state private to the VST backend
(`plugin->vst`), opaque to `plugin.c`. -/
structure VstPlugin where
  opaque_state : Nat := 0
  deriving DecidableEq, Repr

/-- Modelled from the spec: the state private to the Carla backend
(`plugin->carla`), opaque to `plugin.c`. -/
structure CarlaNativePlugin where
  opaque_state : Nat := 0
  deriving DecidableEq, Repr

/-- Modelled from the spec: a plugin instance, with its descriptor, its
position and its two port arrays (`in_ports[0 .. num_in_ports-1]`,
`out_ports[0 .. num_out_ports-1]`) with their capacities (`in_ports_size`,
`out_ports_size`).

The pointer `enabled` points to a port that is also an element of `in_ports`;
it is kept as the index of that element, so that a write through either path
is seen through the other.  A `NULL` pointer is `none`.  The default of every
field is the value it has in memory handed out by `calloc`. -/
structure Plugin where
  id : PluginIdentifier := {}
  descr : PluginDescriptor := {}
  in_ports : List Port := []
  out_ports : List Port := []
  in_ports_size : Nat := 0
  out_ports_size : Nat := 0
  magic : Int := 0
  enabled : Option Nat := none
  lv2 : Option Lv2Plugin := none
  vst : Option VstPlugin := none
  carla : Option CarlaNativePlugin := none
  ui_update_hz : Rat := 0
  visible : Bool := false
  latency : Int := 0
  deleting : Bool := false
  deriving DecidableEq, Repr

/-- Modelled from the spec: a stereo pair of ports (`stereo_in->l`,
`stereo_in->r`). -/
structure StereoPorts where
  l : Port
  r : Port
  deriving DecidableEq, Repr

/-- Modelled from the spec: the prefader stage of a channel (`ch->prefader`),
with its stereo input pair and its MIDI input. -/
structure PassthroughProcessor where
  stereo_in : StereoPorts
  midi_in : Port
  deriving DecidableEq, Repr

/-- Modelled from the spec: an automation lane, bound to a port by the
identifier of the port (`at->port_id`). -/
structure AutomationTrack where
  port_id : PortIdentifier
  deriving DecidableEq, Repr

/-- Modelled from the spec: the automation-lane list of a track
(`atl->ats[0 .. num_ats-1]`). -/
structure AutomationTracklist where
  ats : List AutomationTrack := []
  deriving DecidableEq, Repr

/-- Modelled from the spec: a track, with its position, the signal type it
outputs (`track->out_signal_type`) and its automation-lane list. -/
structure Track where
  out_signal_type : PortType
  pos : Int := 0
  automation_tracklist : AutomationTracklist := {}
  deriving DecidableEq, Repr

/-- Modelled from the spec: a channel, with the position of its track, its
track, its own MIDI output port (`ch->midi_out`) and its prefader. -/
structure Channel where
  track : Track
  midi_out : Port
  prefader : PassthroughProcessor
  track_pos : Int := 0
  deriving DecidableEq, Repr

/-- Modelled from the spec: `channel_get_track` is not part of the given
sources; the track of a channel is kept as a field of the channel. -/
def channel_get_track (ch : Channel) : Track := ch.track

/-! ## `plugin_connect_to_plugin` -/

section Wiring

variable {σ : Type}

/-- Branch `num_audio_outs == 1 && num_audio_ins == 1`, inner loop over
`dest->in_ports`: the first audio input is connected and control jumps to
`done1` (the flag is `true`); without an audio input the loop runs out. -/
def connect_mono_mono_inner (conn : Port → Port → σ → σ) (out_port : Port) :
    List Port → σ → σ × Bool
  | [], s => (s, false)
  | in_port :: rest, s =>
    if in_port.id.type = PortType.TYPE_AUDIO then
      (conn out_port in_port s, true)
    else
      connect_mono_mono_inner conn out_port rest s

/-- Branch `num_audio_outs == 1 && num_audio_ins == 1`, outer loop over
`src->out_ports`. -/
def connect_mono_mono (conn : Port → Port → σ → σ) (in_ports : List Port) :
    List Port → σ → σ
  | [], s => s
  | out_port :: rest, s =>
    if out_port.id.type = PortType.TYPE_AUDIO then
      let r := connect_mono_mono_inner conn out_port in_ports s
      if r.2 then r.1 else connect_mono_mono conn in_ports rest r.1
    else
      connect_mono_mono conn in_ports rest s

/-- Inner loop of the fan-out loops: every port of `dest->in_ports` of type
`t` is connected to `out_port`. -/
def connect_fan_out_inner (conn : Port → Port → σ → σ) (t : PortType)
    (out_port : Port) : List Port → σ → σ
  | [], s => s
  | in_port :: rest, s =>
    if in_port.id.type = t then
      connect_fan_out_inner conn t out_port rest (conn out_port in_port s)
    else
      connect_fan_out_inner conn t out_port rest s

/-- Outer loop of the fan-out loops (branch `num_audio_outs == 1 &&
num_audio_ins > 1` with `t = TYPE_AUDIO`, the MIDI loop with
`t = TYPE_EVENT`): the first port of `src->out_ports` of type `t` is
connected to every input of type `t`, then `break`. -/
def connect_fan_out (conn : Port → Port → σ → σ) (t : PortType)
    (in_ports : List Port) : List Port → σ → σ
  | [], s => s
  | out_port :: rest, s =>
    if out_port.id.type = t then
      connect_fan_out_inner conn t out_port in_ports s
    else
      connect_fan_out conn t in_ports rest s

/-- Branch `num_audio_outs > 1 && num_audio_ins == 1`, inner loop over
`src->out_ports`: the first audio output is connected to `in_port`
(`goto done2`). -/
def connect_multi_mono_inner (conn : Port → Port → σ → σ) (in_port : Port) :
    List Port → σ → σ
  | [], s => s
  | out_port :: rest, s =>
    if out_port.id.type = PortType.TYPE_AUDIO then
      conn out_port in_port s
    else
      connect_multi_mono_inner conn in_port rest s

/-- Branch `num_audio_outs > 1 && num_audio_ins == 1`, outer loop over
`dest->in_ports`: the inner loop runs for the first audio input only (`goto
done2` on a connection, `break` otherwise). -/
def connect_multi_mono (conn : Port → Port → σ → σ) (out_ports : List Port) :
    List Port → σ → σ
  | [], s => s
  | in_port :: rest, s =>
    if in_port.id.type = PortType.TYPE_AUDIO then
      connect_multi_mono_inner conn in_port out_ports s
    else
      connect_multi_mono conn out_ports rest s

/-- Branch `num_audio_outs > 1 && num_audio_ins > 1`, inner loop
`for (; last_index < dest->num_in_ports; last_index++)`.  The argument list is
`dest->in_ports` from index `last_index` on.  Returns the state, the inputs
from the new `last_index` on, and whether a connection was made (in which case
the caller's `ports_connected` was incremented). -/
def connect_multi_multi_inner (conn : Port → Port → σ → σ) (out_port : Port) :
    List Port → σ → σ × List Port × Bool
  | [], s => (s, [], false)
  | in_port :: rest, s =>
    if in_port.id.type = PortType.TYPE_AUDIO then
      (conn out_port in_port s, rest, true)
    else
      connect_multi_multi_inner conn out_port rest s

/-- Branch `num_audio_outs > 1 && num_audio_ins > 1`, outer loop over
`src->out_ports`, carrying `dest->in_ports` from `last_index` on and the
counter `ports_connected`. -/
def connect_multi_multi (conn : Port → Port → σ → σ)
    (num_ports_to_connect : Int) :
    List Port → List Port → Int → σ → σ
  | [], _, _, s => s
  | out_port :: rest, ins, ports_connected, s =>
    if out_port.id.type = PortType.TYPE_AUDIO then
      let r := connect_multi_multi_inner conn out_port ins s
      let ports_connected1 :=
        if r.2.2 then ports_connected + 1 else ports_connected
      if ports_connected1 = num_ports_to_connect then r.1
      else
        connect_multi_multi conn num_ports_to_connect rest r.2.1
          ports_connected1 r.1
    else
      connect_multi_multi conn num_ports_to_connect rest ins
        ports_connected s

/-- The `if / else if` chain of `plugin_connect_to_plugin` that wires the audio
ports. -/
def plugin_connect_to_plugin_audio (conn : Port → Port → σ → σ)
    (src dest : Plugin) (s : σ) : σ :=
  if src.descr.num_audio_outs = 1 ∧ dest.descr.num_audio_ins = 1 then
    connect_mono_mono conn dest.in_ports src.out_ports s
  else if src.descr.num_audio_outs = 1 ∧ dest.descr.num_audio_ins > 1 then
    connect_fan_out conn PortType.TYPE_AUDIO dest.in_ports src.out_ports s
  else if src.descr.num_audio_outs > 1 ∧ dest.descr.num_audio_ins = 1 then
    connect_multi_mono conn src.out_ports dest.in_ports s
  else if src.descr.num_audio_outs > 1 ∧ dest.descr.num_audio_ins > 1 then
    connect_multi_multi conn
      (min src.descr.num_audio_outs dest.descr.num_audio_ins)
      src.out_ports dest.in_ports 0 s
  else
    s

/-- The routine `plugin_connect_to_plugin (src, dest)`: the audio wiring
followed by the MIDI loop.  `conn out_port in_port` stands for the call
`port_connect (out_port, in_port, 1)`. -/
def plugin_connect_to_plugin (conn : Port → Port → σ → σ)
    (src dest : Plugin) (s : σ) : σ :=
  connect_fan_out conn PortType.TYPE_EVENT dest.in_ports src.out_ports
    (plugin_connect_to_plugin_audio conn src dest s)

/-! ## `plugin_disconnect_from_plugin` -/

/-- Branch `num_audio_outs == 1 && num_audio_ins == 1` of the disconnection,
inner loop over `dest->in_ports`: the first audio input is disconnected and
control jumps to `done1` (the flag is `true`). -/
def disconnect_mono_mono_inner (disc : Port → Port → σ → σ) (out_port : Port) :
    List Port → σ → σ × Bool
  | [], s => (s, false)
  | in_port :: rest, s =>
    if in_port.id.type = PortType.TYPE_AUDIO then
      (disc out_port in_port s, true)
    else
      disconnect_mono_mono_inner disc out_port rest s

/-- Branch `num_audio_outs == 1 && num_audio_ins == 1` of the disconnection,
outer loop over `src->out_ports`. -/
def disconnect_mono_mono (disc : Port → Port → σ → σ) (in_ports : List Port) :
    List Port → σ → σ
  | [], s => s
  | out_port :: rest, s =>
    if out_port.id.type = PortType.TYPE_AUDIO then
      let r := disconnect_mono_mono_inner disc out_port in_ports s
      if r.2 then r.1 else disconnect_mono_mono disc in_ports rest r.1
    else
      disconnect_mono_mono disc in_ports rest s

/-- Inner loop over `dest->in_ports` shared by the mono-to-multi branch and
the MIDI loop of the disconnection: every input of type `t` is disconnected
from `out_port`. -/
def disconnect_all_inner (disc : Port → Port → σ → σ) (t : PortType)
    (out_port : Port) : List Port → σ → σ
  | [], s => s
  | in_port :: rest, s =>
    if in_port.id.type = t then
      disconnect_all_inner disc t out_port rest (disc out_port in_port s)
    else
      disconnect_all_inner disc t out_port rest s

/-- Branch `num_audio_outs == 1 && num_audio_ins > 1` of the disconnection:
the first audio output is disconnected from every audio input, then
`break`. -/
def disconnect_mono_multi (disc : Port → Port → σ → σ)
    (in_ports : List Port) : List Port → σ → σ
  | [], s => s
  | out_port :: rest, s =>
    if out_port.id.type = PortType.TYPE_AUDIO then
      disconnect_all_inner disc PortType.TYPE_AUDIO out_port in_ports s
    else
      disconnect_mono_multi disc in_ports rest s

/-- Branch `num_audio_outs > 1 && num_audio_ins == 1` of the disconnection,
inner loop over `src->out_ports` (`goto done2` at the first audio output). -/
def disconnect_multi_mono_inner (disc : Port → Port → σ → σ) (in_port : Port) :
    List Port → σ → σ
  | [], s => s
  | out_port :: rest, s =>
    if out_port.id.type = PortType.TYPE_AUDIO then
      disc out_port in_port s
    else
      disconnect_multi_mono_inner disc in_port rest s

/-- Branch `num_audio_outs > 1 && num_audio_ins == 1` of the disconnection,
outer loop over `dest->in_ports`. -/
def disconnect_multi_mono (disc : Port → Port → σ → σ)
    (out_ports : List Port) : List Port → σ → σ
  | [], s => s
  | in_port :: rest, s =>
    if in_port.id.type = PortType.TYPE_AUDIO then
      disconnect_multi_mono_inner disc in_port out_ports s
    else
      disconnect_multi_mono disc out_ports rest s

/-- Branch `num_audio_outs > 1 && num_audio_ins > 1` of the disconnection,
inner loop `for (; last_index < dest->num_in_ports; last_index++)`; same
conventions as `connect_multi_multi_inner`. -/
def disconnect_multi_multi_inner (disc : Port → Port → σ → σ)
    (out_port : Port) : List Port → σ → σ × List Port × Bool
  | [], s => (s, [], false)
  | in_port :: rest, s =>
    if in_port.id.type = PortType.TYPE_AUDIO then
      (disc out_port in_port s, rest, true)
    else
      disconnect_multi_multi_inner disc out_port rest s

/-- Branch `num_audio_outs > 1 && num_audio_ins > 1` of the disconnection,
outer loop, carrying the inputs from `last_index` on and the counter
`ports_disconnected`. -/
def disconnect_multi_multi (disc : Port → Port → σ → σ)
    (num_ports_to_connect : Int) :
    List Port → List Port → Int → σ → σ
  | [], _, _, s => s
  | out_port :: rest, ins, ports_disconnected, s =>
    if out_port.id.type = PortType.TYPE_AUDIO then
      let r := disconnect_multi_multi_inner disc out_port ins s
      let ports_disconnected1 :=
        if r.2.2 then ports_disconnected + 1 else ports_disconnected
      if ports_disconnected1 = num_ports_to_connect then r.1
      else
        disconnect_multi_multi disc num_ports_to_connect rest r.2.1
          ports_disconnected1 r.1
    else
      disconnect_multi_multi disc num_ports_to_connect rest ins
        ports_disconnected s

/-- The MIDI loop of `plugin_disconnect_from_plugin`: every event output is
disconnected from every event input (the outer loop has no `break`). -/
def disconnect_midi (disc : Port → Port → σ → σ) (in_ports : List Port) :
    List Port → σ → σ
  | [], s => s
  | out_port :: rest, s =>
    if out_port.id.type = PortType.TYPE_EVENT then
      disconnect_midi disc in_ports rest
        (disconnect_all_inner disc PortType.TYPE_EVENT out_port in_ports s)
    else
      disconnect_midi disc in_ports rest s

/-- The `if / else if` chain of `plugin_disconnect_from_plugin` that walks the
audio ports. -/
def plugin_disconnect_from_plugin_audio (disc : Port → Port → σ → σ)
    (src dest : Plugin) (s : σ) : σ :=
  if src.descr.num_audio_outs = 1 ∧ dest.descr.num_audio_ins = 1 then
    disconnect_mono_mono disc dest.in_ports src.out_ports s
  else if src.descr.num_audio_outs = 1 ∧ dest.descr.num_audio_ins > 1 then
    disconnect_mono_multi disc dest.in_ports src.out_ports s
  else if src.descr.num_audio_outs > 1 ∧ dest.descr.num_audio_ins = 1 then
    disconnect_multi_mono disc src.out_ports dest.in_ports s
  else if src.descr.num_audio_outs > 1 ∧ dest.descr.num_audio_ins > 1 then
    disconnect_multi_multi disc
      (min src.descr.num_audio_outs dest.descr.num_audio_ins)
      src.out_ports dest.in_ports 0 s
  else
    s

/-- The routine `plugin_disconnect_from_plugin (src, dest)`.
`disc out_port in_port` stands for the call
`port_disconnect (out_port, in_port)`. -/
def plugin_disconnect_from_plugin (disc : Port → Port → σ → σ)
    (src dest : Plugin) (s : σ) : σ :=
  disconnect_midi disc dest.in_ports src.out_ports
    (plugin_disconnect_from_plugin_audio disc src dest s)

/-! ## `plugin_connect_to_prefader` -/

/-- Event track: loop over `pl->out_ports`; every port of type `TYPE_EVENT`
and flow `FLOW_OUTPUT` is connected to `target` (the code passes
`ch->midi_out`). -/
def connect_to_prefader_event (conn : Port → Port → σ → σ) (target : Port) :
    List Port → σ → σ
  | [], s => s
  | out_port :: rest, s =>
    if out_port.id.type = PortType.TYPE_EVENT ∧
        out_port.id.flow = PortFlow.FLOW_OUTPUT then
      connect_to_prefader_event conn target rest (conn out_port target s)
    else
      connect_to_prefader_event conn target rest s

/-- Audio track, `num_audio_outs == 1`: the first audio output is connected to
`stereo_in->l` and to `stereo_in->r`, then `break`. -/
def connect_to_prefader_mono (conn : Port → Port → σ → σ)
    (stereo_in : StereoPorts) : List Port → σ → σ
  | [], s => s
  | out_port :: rest, s =>
    if out_port.id.type = PortType.TYPE_AUDIO then
      conn out_port stereo_in.r (conn out_port stereo_in.l s)
    else
      connect_to_prefader_mono conn stereo_in rest s

/-- Audio track, `num_audio_outs > 1`: loop over `pl->out_ports` carrying
`last_index`; non-audio ports are skipped, the audio port met with
`last_index == 0` goes to `stereo_in->l`, the one met with `last_index == 1`
goes to `stereo_in->r` and ends the loop. -/
def connect_to_prefader_stereo (conn : Port → Port → σ → σ)
    (stereo_in : StereoPorts) : List Port → Int → σ → σ
  | [], _, s => s
  | out_port :: rest, last_index, s =>
    if out_port.id.type ≠ PortType.TYPE_AUDIO then
      connect_to_prefader_stereo conn stereo_in rest last_index s
    else if last_index = 0 then
      connect_to_prefader_stereo conn stereo_in rest (last_index + 1)
        (conn out_port stereo_in.l s)
    else if last_index = 1 then
      conn out_port stereo_in.r s
    else
      connect_to_prefader_stereo conn stereo_in rest last_index s

/-- The routine `plugin_connect_to_prefader (pl, ch)`. -/
def plugin_connect_to_prefader (conn : Port → Port → σ → σ)
    (pl : Plugin) (ch : Channel) (s : σ) : σ :=
  let track := channel_get_track ch
  let type := track.out_signal_type
  if type = PortType.TYPE_EVENT then
    connect_to_prefader_event conn ch.midi_out pl.out_ports s
  else if type = PortType.TYPE_AUDIO then
    if pl.descr.num_audio_outs = 1 then
      connect_to_prefader_mono conn ch.prefader.stereo_in pl.out_ports s
    else if pl.descr.num_audio_outs > 1 then
      connect_to_prefader_stereo conn ch.prefader.stereo_in pl.out_ports 0 s
    else
      s
  else
    s

/-! ## `plugin_disconnect_from_prefader` -/

/-- The statement `if (ports_connected (a, b)) port_disconnect (a, b);`.
`connected a b` stands for the query `ports_connected (a, b)`. -/
def disconnect_if_connected (connected : Port → Port → σ → Bool)
    (disc : Port → Port → σ → σ) (a b : Port) (s : σ) : σ :=
  if connected a b s then disc a b s else s

/-- The loop of `plugin_disconnect_from_prefader` over `pl->out_ports`: on an
audio track every audio output is disconnected from `stereo_in->l` and from
`stereo_in->r`, on an event track every event output is disconnected from
`ch->prefader.midi_in`, each time only if the two ports are connected. -/
def disconnect_from_prefader_loop (connected : Port → Port → σ → Bool)
    (disc : Port → Port → σ → σ) (type : PortType) (ch : Channel) :
    List Port → σ → σ
  | [], s => s
  | out_port :: rest, s =>
    if type = PortType.TYPE_AUDIO ∧ out_port.id.type = PortType.TYPE_AUDIO then
      disconnect_from_prefader_loop connected disc type ch rest
        (disconnect_if_connected connected disc out_port
          ch.prefader.stereo_in.r
          (disconnect_if_connected connected disc out_port
            ch.prefader.stereo_in.l s))
    else if type = PortType.TYPE_EVENT ∧
        out_port.id.type = PortType.TYPE_EVENT then
      disconnect_from_prefader_loop connected disc type ch rest
        (disconnect_if_connected connected disc out_port ch.prefader.midi_in s)
    else
      disconnect_from_prefader_loop connected disc type ch rest s

/-- The routine `plugin_disconnect_from_prefader (pl, ch)`. -/
def plugin_disconnect_from_prefader (connected : Port → Port → σ → Bool)
    (disc : Port → Port → σ → σ) (pl : Plugin) (ch : Channel) (s : σ) : σ :=
  let track := channel_get_track ch
  let type := track.out_signal_type
  disconnect_from_prefader_loop connected disc type ch pl.out_ports s

end Wiring

/-- A recorded call: the output port and the input port it was issued on. -/
abbrev Call := Port × Port

/-- Callee that appends the call to the list of calls issued so far. -/
def record_call (out_port in_port : Port) (calls : List Call) : List Call :=
  calls ++ [(out_port, in_port)]

/-- The calls `port_connect (out_port, in_port, 1)` issued by
`plugin_connect_to_plugin (src, dest)`, in order. -/
def plugin_connect_to_plugin_calls (src dest : Plugin) : List Call :=
  plugin_connect_to_plugin record_call src dest []

/-- The calls `port_disconnect (out_port, in_port)` issued by
`plugin_disconnect_from_plugin (src, dest)`, in order. -/
def plugin_disconnect_from_plugin_calls (src dest : Plugin) : List Call :=
  plugin_disconnect_from_plugin record_call src dest []

/-- The calls `port_connect (out_port, target, 1)` issued by
`plugin_connect_to_prefader (pl, ch)`, in order. -/
def plugin_connect_to_prefader_calls (pl : Plugin) (ch : Channel) : List Call :=
  plugin_connect_to_prefader record_call pl ch []

/-! ## Closed forms of the loops -/

/-- The ports of signal type `t` in an array, in array order. -/
def ports_of_type (t : PortType) (ports : List Port) : List Port :=
  ports.filter (fun p => decide (p.id.type = t))

/-- Runs a callee over a list of calls, in order. -/
def run_calls {σ : Type} (f : Port → Port → σ → σ) (calls : List Call)
    (s : σ) : σ :=
  calls.foldl (fun acc c => f c.1 c.2 acc) s

/-- A call touches a port of signal type `t`. -/
def call_has_type (t : PortType) (c : Call) : Bool :=
  decide (c.1.id.type = t) || decide (c.2.id.type = t)

/-- The calls of a call list that touch an audio port. -/
def audio_calls (calls : List Call) : List Call :=
  calls.filter (call_has_type PortType.TYPE_AUDIO)

/-- The calls of a call list that touch an event port. -/
def event_calls (calls : List Call) : List Call :=
  calls.filter (call_has_type PortType.TYPE_EVENT)

/-- One output fanned out to every input of type `t`: the pairs made of the
first port of type `t` in `outs` and each port of type `t` in `ins`. -/
def fan_out_pairs (t : PortType) (outs ins : List Port) : List Call :=
  match ports_of_type t outs with
  | [] => []
  | o :: _ => (ports_of_type t ins).map (fun i => (o, i))

/-- The single pair made of the first audio port of `outs` and the first
audio port of `ins`, when both exist. -/
def first_audio_pair (outs ins : List Port) : List Call :=
  match ports_of_type PortType.TYPE_AUDIO outs,
      ports_of_type PortType.TYPE_AUDIO ins with
  | o :: _, i :: _ => [(o, i)]
  | _, _ => []

/-- The first `n` pairs (k-th audio port of `outs`, k-th audio port of
`ins`). -/
def pairwise_audio_pairs (n : Nat) (outs ins : List Port) : List Call :=
  ((ports_of_type PortType.TYPE_AUDIO outs).zip
    (ports_of_type PortType.TYPE_AUDIO ins)).take n

/-- Every event output paired with every event input. -/
def all_event_pairs (outs ins : List Port) : List Call :=
  (ports_of_type PortType.TYPE_EVENT outs).flatMap
    (fun o => (ports_of_type PortType.TYPE_EVENT ins).map (fun i => (o, i)))

/-- The audio calls of `plugin_connect_to_plugin` in closed form, by declared
counts. -/
def audio_pairs (src dest : Plugin) : List Call :=
  if src.descr.num_audio_outs = 1 ∧ dest.descr.num_audio_ins = 1 then
    first_audio_pair src.out_ports dest.in_ports
  else if src.descr.num_audio_outs = 1 ∧ dest.descr.num_audio_ins > 1 then
    fan_out_pairs PortType.TYPE_AUDIO src.out_ports dest.in_ports
  else if src.descr.num_audio_outs > 1 ∧ dest.descr.num_audio_ins = 1 then
    first_audio_pair src.out_ports dest.in_ports
  else if src.descr.num_audio_outs > 1 ∧ dest.descr.num_audio_ins > 1 then
    pairwise_audio_pairs
      (min src.descr.num_audio_outs dest.descr.num_audio_ins).toNat
      src.out_ports dest.in_ports
  else
    []

/-! ## Port graph -/

/-- A connection of the port graph: an ordered pair (source port, destination
port) with its locked flag. -/
structure Connection where
  src : Port
  dest : Port
  locked : Bool
  deriving DecidableEq, Repr

/-- The port graph: the connections, in the order they were made. -/
abbrev Graph := List Connection

/-- Modelled from the spec: `ports_connected` belongs to the port code, which
is not part of the given sources; per the spec (`areConnected`) it tells
whether the edge from `a` to `b` exists. -/
def ports_connected (g : Graph) (a b : Port) : Bool :=
  g.any (fun c => decide (c.src = a ∧ c.dest = b))

/-- Two ports share their owner: same owner kind and same owner position. -/
def same_owner (a b : Port) : Bool :=
  decide (a.id.owner_type = b.id.owner_type ∧ a.id.track_pos = b.id.track_pos ∧
    a.id.plugin_slot = b.id.plugin_slot)

/-- The port `b` is a control input already driven by a source other than
`a`. -/
def driven_by_other (g : Graph) (a b : Port) : Bool :=
  decide (b.id.type = PortType.TYPE_CONTROL ∧ b.id.flow = PortFlow.FLOW_INPUT) &&
    g.any (fun c => decide (c.dest = b ∧ c.src ≠ a))

/-- Modelled from the spec: `port_connect` belongs to the port code, which is
not part of the given sources.  Per the spec, connecting fails (`none`, graph
unchanged) if the two ports share the same owner, if the pair already exists,
or if the destination is a control input already driven by a different source;
otherwise the edge is inserted. -/
def port_connect (g : Graph) (a b : Port) (locked : Bool) : Option Graph :=
  if same_owner a b || ports_connected g a b || driven_by_other g a b then none
  else some (g ++ [{ src := a, dest := b, locked := locked }])

/-- Modelled from the spec: `port_disconnect` belongs to the port code, which
is not part of the given sources.  Per the spec it is a no-op if the edge does
not exist and removes it otherwise. -/
def port_disconnect (g : Graph) (a b : Port) : Graph :=
  g.filter (fun c => !decide (c.src = a ∧ c.dest = b))

/-- The statement `port_connect (out_port, in_port, 1);` of the wiring
routines: the result is discarded, so a refused connection leaves the graph as
it was. -/
def port_connect_stmt (out_port in_port : Port) (g : Graph) : Graph :=
  (port_connect g out_port in_port true).getD g

/-- The statement `port_disconnect (out_port, in_port);`. -/
def port_disconnect_stmt (out_port in_port : Port) (g : Graph) : Graph :=
  port_disconnect g out_port in_port

/-- The query `ports_connected (a, b)` on the port graph. -/
def ports_connected_query (a b : Port) (g : Graph) : Bool :=
  ports_connected g a b

/-- The pairs `plugin_disconnect_from_prefader` walks, in closed form: both
stereo inputs for every audio output on an audio track, the MIDI input of the
prefader for every event output on an event track. -/
def prefader_disconnect_pairs (type : PortType) (ch : Channel)
    (outs : List Port) : List Call :=
  outs.flatMap (fun o =>
    if type = PortType.TYPE_AUDIO ∧ o.id.type = PortType.TYPE_AUDIO then
      [(o, ch.prefader.stereo_in.l), (o, ch.prefader.stereo_in.r)]
    else if type = PortType.TYPE_EVENT ∧ o.id.type = PortType.TYPE_EVENT then
      [(o, ch.prefader.midi_in)]
    else [])

/-- The port belongs to the plugin: its owner fields name the plugin and its
position. -/
def port_owned_by (pl : Plugin) (p : Port) : Prop :=
  p.id.owner_type = PortOwnerType.PORT_OWNER_TYPE_PLUGIN ∧
    p.id.track_pos = pl.id.track_pos ∧ p.id.plugin_slot = pl.id.slot

/-- Well-formed port arrays: every slot of an array holds a different port, and
every port belongs to the plugin. -/
def plugin_ports_wf (pl : Plugin) : Prop :=
  pl.in_ports.Nodup ∧ pl.out_ports.Nodup ∧
    (∀ p ∈ pl.in_ports, port_owned_by pl p) ∧
    (∀ p ∈ pl.out_ports, port_owned_by pl p)

/-- The plugin has no event port, input or output. -/
def has_no_event_ports (pl : Plugin) : Prop :=
  ports_of_type PortType.TYPE_EVENT pl.in_ports = [] ∧
    ports_of_type PortType.TYPE_EVENT pl.out_ports = []

instance (pl : Plugin) (p : Port) : Decidable (port_owned_by pl p) := by
  unfold port_owned_by
  infer_instance

instance (pl : Plugin) : Decidable (plugin_ports_wf pl) := by
  unfold plugin_ports_wf
  infer_instance

instance (pl : Plugin) : Decidable (has_no_event_ports pl) := by
  unfold has_no_event_ports
  infer_instance

/-! ## Plugin lifecycle: externals

The backends (`lv2_plugin_*`, `vst_plugin_*`, `carla_native_plugin_*`), the
build configuration (`HAVE_CARLA`), the test switch (`ZRYTHM_TESTING`), the
settings, the display and the project are not among the sources.  The lifecycle
routines take them as one parameter. -/

/-- What the lifecycle routines of `plugin.c` take from outside the file.  A
backend routine receives the plugin its argument points back to and gives the
plugin as it leaves it; a routine with an `int` result gives the result first
(0 is success).  The serialiser and the identifier cache of the LV2 backend
work on the LV2 state. -/
structure Env where
  /-- Whether `HAVE_CARLA` is defined in `config.h`. -/
  HAVE_CARLA : Bool
  /-- The test switch `ZRYTHM_TESTING`. -/
  ZRYTHM_TESTING : Bool
  /-- The setting `g_settings_get_int (S_PREFERENCES,
  "plugin-ui-refresh-rate")`. -/
  plugin_ui_refresh_rate : Int
  /-- The result of `gdk_monitor_get_refresh_rate`, in milli-Hz. -/
  monitor_refresh_rate : Int
  /-- The flag `PROJECT->loaded`. -/
  project_loaded : Bool
  /-- The directory `plugin_clone` has the LV2 state written to. -/
  state_dir_plugin : String
  lv2_plugin_new_from_uri : Plugin → String → Plugin
  vst_plugin_new_from_descriptor : Plugin → PluginDescriptor → Plugin
  carla_native_plugin_new_from_descriptor : Plugin → Plugin
  lv2_plugin_init_loaded : Plugin → Plugin
  vst_plugin_init_loaded : Plugin → Plugin
  lv2_plugin_instantiate : Plugin → Int × Plugin
  vst_plugin_instantiate : Plugin → Bool → Int × Plugin
  carla_native_plugin_instantiate : Plugin → Plugin
  lv2_plugin_process : Plugin → Int → Nat → Plugin
  vst_plugin_process : Plugin → Int → Nat → Nat → Plugin
  carla_native_plugin_proces : Plugin → Int → Nat → Plugin
  lv2_plugin_save_state_to_file : Lv2Plugin → String → Lv2Plugin
  lv2_plugin_update_port_identifiers : Lv2Plugin → Plugin → Lv2Plugin
  vst_plugin_copy_params : Plugin → Plugin → Plugin
  /-- The latency in samples the LV2 backend reports for `pl->lv2`. -/
  lv2_plugin_get_latency : Option Lv2Plugin → Int

/-- Modelled from the spec: the value of the sanity marker `PLUGIN_MAGIC` is
declared in `plugin.h`, which is not among the sources; a fixed non-zero
number. -/
def PLUGIN_MAGIC : Int := 43198683

/-- Modelled from the spec: `port_new_with_type` belongs to the port code,
which is not among the sources.  It creates a port of the given signal type,
direction and label; the other fields are zero (the owner fields are rewritten
when the port is added to its owner). -/
def port_new_with_type (type : PortType) (flow : PortFlow) (label : String) :
    Port :=
  { id := { owner_type := PortOwnerType.PORT_OWNER_TYPE_CHANNEL_STAGE,
            type := type, flow := flow, track_pos := 0, plugin_slot := 0,
            port_index := 0, label := label } }

/-- Modelled from the spec: `port_set_owner_plugin` belongs to the port code,
which is not among the sources.  It rewrites the owner fields of the port to
the plugin and its position. -/
def port_set_owner_plugin (port : Port) (pl : Plugin) : Port :=
  { port with
    id := { port.id with
      owner_type := PortOwnerType.PORT_OWNER_TYPE_PLUGIN,
      track_pos := pl.id.track_pos,
      plugin_slot := pl.id.slot } }

/-- Modelled from the spec: `plugin_descriptor_clone` is not among the
sources; it makes a deep copy of the descriptor. -/
def plugin_descriptor_clone (descr : PluginDescriptor) : PluginDescriptor :=
  descr

/-- Modelled from the spec: `math_floats_equal` is declared in
`utils/math.h`, which is not among the sources.  The spec speaks of a value
that is non-zero; the comparison is equality. -/
def math_floats_equal (a b : Rat) : Bool := decide (a = b)

/-- Modelled from the spec: `port_set_control_value` belongs to the port code,
which is not among the sources.  With `is_normalized == 0` it stores the value
as the current value of the control port. -/
def port_set_control_value (port : Port) (val : Rat) (_is_normalized : Bool)
    (_forward_event : Bool) : Port :=
  { port with control := val }

/-- Modelled from the spec: `control_port_set_val_from_normalized` belongs to
the control-port code, which is not among the sources.  The spec has it set the
value of the enabled gate to 1 on the call with the normalized value 1; the
normalized and the real value coincide on the range [0, 1] of that port. -/
def control_port_set_val_from_normalized (port : Port) (val : Rat)
    (_automating : Bool) : Port :=
  { port with control := val }

/-- Modelled from the spec: `automation_track_new` is not among the sources;
it creates the automation lane bound to the identifier of the port. -/
def automation_track_new (port : Port) : AutomationTrack :=
  { port_id := port.id }

/-- Modelled from the spec: `automation_tracklist_add_at` is not among the
sources; it appends the lane to the automation-lane list. -/
def automation_tracklist_add_at (atl : AutomationTracklist)
    (at_ : AutomationTrack) : AutomationTracklist :=
  { atl with ats := atl.ats ++ [at_] }

/-- Modelled from the spec: `track_get_automation_tracklist` is not among the
sources; the automation-lane list is a field of the track. -/
def track_get_automation_tracklist (track : Track) : AutomationTracklist :=
  track.automation_tracklist

/-- Modelled from the spec: the tracks of the project (`TRACKLIST->tracks[0 ..
num_tracks-1]`). -/
structure Tracklist where
  tracks : List Track := []
  deriving DecidableEq, Repr

/-- A write through a pointer to the element at index `i` of a port array. -/
def update_port (ports : List Port) (i : Nat) (f : Port → Port) : List Port :=
  List.modify f i ports

/-- The port the pointer `pl->enabled` points to. -/
def plugin_enabled_port (pl : Plugin) : Option Port :=
  match pl.enabled with
  | none => none
  | some i => pl.in_ports[i]?

/-! ## `plugin_add_in_port`, `plugin_add_out_port` -/

/-- The loop `while (num_ports >= (int) size)` of `ADD_PORT`, with a bound on
the number of iterations: a capacity 0 becomes 1, any other capacity is
doubled. -/
def ports_size_grow_loop : Nat → Int → Nat → Nat
  | 0, _, size => size
  | fuel + 1, num_ports, size =>
    if num_ports ≥ (size : Int) then
      ports_size_grow_loop fuel num_ports (if size = 0 then 1 else size * 2)
    else
      size

/-- The capacity after the loop of `ADD_PORT`.  The loop leaves after at most
`num_ports + 2` iterations. -/
def ports_size_grow (num_ports : Int) (size : Nat) : Nat :=
  ports_size_grow_loop (num_ports.toNat + 2) num_ports size

/-- The routine `plugin_add_in_port (pl, port)`, that is `ADD_PORT (in)`: the
capacity is grown, the port gets the index `num_in_ports` and the plugin as
owner, and is appended to `in_ports`. -/
def plugin_add_in_port (pl : Plugin) (port : Port) : Plugin :=
  let size := ports_size_grow pl.in_ports.length pl.in_ports_size
  let port := { port with id := { port.id with port_index := pl.in_ports.length } }
  let port := port_set_owner_plugin port pl
  { pl with in_ports_size := size, in_ports := pl.in_ports ++ [port] }

/-- The routine `plugin_add_out_port (pl, port)`, that is `ADD_PORT (out)`. -/
def plugin_add_out_port (pl : Plugin) (port : Port) : Plugin :=
  let size := ports_size_grow pl.out_ports.length pl.out_ports_size
  let port := { port with id := { port.id with port_index := pl.out_ports.length } }
  let port := port_set_owner_plugin port pl
  { pl with out_ports_size := size, out_ports := pl.out_ports ++ [port] }

/-! ## `plugin_init`, `plugin_new_from_descr`, `plugin_new_dummy` -/

/-- The constant `0.1f`, as the rational one tenth in lowest terms. -/
def one_tenth : Rat :=
  { num := 1, den := 10, den_nz := by decide, reduced := by decide }

/-- The writes `plugin_init` makes through the pointer `port` after the port was
added: the two flags, the range, the zero and default values and the current
value. -/
def plugin_init_enabled_port (port : Port) : Port :=
  let port := { port with
    id := { port.id with flags := { port.id.flags with PORT_FLAG_PLUGIN_ENABLED := true } } }
  let port := { port with
    id := { port.id with flags := { port.id.flags with PORT_FLAG_TOGGLE := true } } }
  { port with minf := 0, maxf := 1, zerof := one_tenth, deff := 1, control := 1 }

/-- The routine `plugin_init (plugin, track_pos, slot)`.  Both callers pass a
plugin fresh from `calloc`, whose port counts are 0; the two arrays are
allocated with capacity 1.  The pointer `port` points to the element
`plugin_add_in_port` appended, at the index the count had before. -/
def plugin_init (plugin : Plugin) (track_pos slot : Int) : Plugin :=
  let plugin := { plugin with in_ports_size := 1, out_ports_size := 1 }
  let plugin := { plugin with id := { plugin.id with track_pos := track_pos } }
  let plugin := { plugin with id := { plugin.id with slot := slot } }
  let plugin := { plugin with magic := PLUGIN_MAGIC }
  let port := port_new_with_type PortType.TYPE_CONTROL PortFlow.FLOW_INPUT "Enabled"
  let index := plugin.in_ports.length
  let plugin := plugin_add_in_port plugin port
  let plugin := { plugin with
    in_ports := update_port plugin.in_ports index plugin_init_enabled_port }
  { plugin with enabled := some index }

/-- The backend dispatch at the end of `plugin_new_from_descr`: Carla when the
build has it and the descriptor asks for it, otherwise by protocol; a protocol
other than LV2 and VST falls through `default: break;`. -/
def plugin_new_from_descr_backend (env : Env) (descr : PluginDescriptor)
    (plugin : Plugin) : Plugin :=
  if env.HAVE_CARLA ∧ descr.open_with_carla then
    env.carla_native_plugin_new_from_descriptor plugin
  else
    match plugin.descr.protocol with
    | PluginProtocol.PROT_LV2 => env.lv2_plugin_new_from_uri plugin descr.uri
    | PluginProtocol.PROT_VST => env.vst_plugin_new_from_descriptor plugin descr
    | _ => plugin

/-- The plugin `plugin_new_from_descr` has right after its call of
`plugin_init`: fresh from `calloc`, with the cloned descriptor. -/
def plugin_new_from_descr_init (descr : PluginDescriptor)
    (track_pos slot : Int) : Plugin :=
  let plugin : Plugin := {}
  let plugin := { plugin with descr := plugin_descriptor_clone descr }
  plugin_init plugin track_pos slot

/-- The routine `plugin_new_from_descr (descr, track_pos, slot)`.  The result
is a pointer; `none` is `NULL`. -/
def plugin_new_from_descr (env : Env) (descr : PluginDescriptor)
    (track_pos slot : Int) : Option Plugin :=
  let plugin := plugin_new_from_descr_init descr track_pos slot
  let plugin := plugin_new_from_descr_backend env descr plugin
  some plugin

/-- The routine `plugin_new_dummy (cat, track_pos, slot)`. -/
def plugin_new_dummy (cat : Int) (track_pos slot : Int) : Option Plugin :=
  let self : Plugin := {}
  let descr : PluginDescriptor := {}
  let descr := { descr with author := "Hoge" }
  let descr := { descr with name := "Dummy Plugin" }
  let descr := { descr with category := cat }
  let descr := { descr with category_str := "Dummy Plugin Category" }
  let self := { self with descr := descr }
  let self := plugin_init self track_pos slot
  some self

/-- The state of a plugin right after `plugin_init (plugin, track_pos, slot)`
as the spec describes it: the position is set, there is no output port, and
the one input port is the enabled gate `plugin->enabled` points to, a control
input at index 0 with the plugin-enabled and toggle flags, range [0, 1],
default 1 and current value 1. -/
def after_plugin_init (p : Plugin) (track_pos slot : Int) : Prop :=
  p.id.track_pos = track_pos ∧ p.id.slot = slot ∧ p.out_ports = [] ∧
    ∃ e, p.in_ports = [e] ∧ plugin_enabled_port p = some e ∧
      e.id.type = PortType.TYPE_CONTROL ∧ e.id.flow = PortFlow.FLOW_INPUT ∧
      e.id.port_index = 0 ∧
      e.id.flags.PORT_FLAG_PLUGIN_ENABLED = true ∧
      e.id.flags.PORT_FLAG_TOGGLE = true ∧
      e.minf = 0 ∧ e.maxf = 1 ∧ e.deff = 1 ∧ e.control = 1

/-! ## `plugin_set_ui_refresh_rate`, `plugin_instantiate` -/

/-- The lower refresh rate limit, `30.f`. -/
def MIN_REFRESH_RATE : Rat := 30

/-- The upper refresh rate limit, `60.f`. -/
def MAX_REFRESH_RATE : Rat := 60

/-- The GLib expression `CLAMP (x, low, high)`, that is
`x > high ? high : (x < low ? low : x)`. -/
def CLAMP (x low high : Rat) : Rat :=
  if x > high then high else if x < low then low else x

/-- The routine `plugin_set_ui_refresh_rate (self)`. -/
def plugin_set_ui_refresh_rate (env : Env) (self : Plugin) : Plugin :=
  if env.ZRYTHM_TESTING then
    { self with ui_update_hz := 30 }
  else
    let self :=
      if env.plugin_ui_refresh_rate = 0 then
        { self with ui_update_hz := (env.monitor_refresh_rate : Rat) / 1000 }
      else
        { self with ui_update_hz := (env.plugin_ui_refresh_rate : Rat) }
    if self.ui_update_hz < MIN_REFRESH_RATE ∨
        self.ui_update_hz > MAX_REFRESH_RATE then
      { self with
        ui_update_hz := CLAMP self.ui_update_hz MIN_REFRESH_RATE MAX_REFRESH_RATE }
    else
      self

/-- The last statement of `plugin_instantiate`,
`control_port_set_val_from_normalized (pl->enabled, 1.f, 0)`, as a write
through the pointer `pl->enabled`, followed by `return 0`. -/
def plugin_instantiate_finish (pl : Plugin) : Int × Plugin :=
  match pl.enabled with
  | none => (0, pl)
  | some i =>
    (0, { pl with
      in_ports := update_port pl.in_ports i
        (fun port => control_port_set_val_from_normalized port 1 false) })

/-- The routine `plugin_instantiate (pl)`: the result code (0, or -1 on
failure) and the plugin afterwards. -/
def plugin_instantiate (env : Env) (pl : Plugin) : Int × Plugin :=
  let pl := plugin_set_ui_refresh_rate env pl
  if env.HAVE_CARLA ∧ pl.descr.open_with_carla then
    plugin_instantiate_finish (env.carla_native_plugin_instantiate pl)
  else
    match pl.descr.protocol with
    | PluginProtocol.PROT_LV2 =>
      let r := env.lv2_plugin_instantiate pl
      if r.1 ≠ 0 then (-1, r.2) else plugin_instantiate_finish r.2
    | PluginProtocol.PROT_VST =>
      let r := env.vst_plugin_instantiate pl (!env.project_loaded)
      if r.1 ≠ 0 then (-1, r.2) else plugin_instantiate_finish r.2
    | _ => (-1, pl)

/-! ## `plugin_process` -/

/-- The loop at the end of `plugin_process` over `plugin->in_ports`: a control
port with the trigger flag whose value is not 0 is set to 0. -/
def process_trigger_loop : List Port → List Port
  | [] => []
  | port :: rest =>
    (if port.id.type = PortType.TYPE_CONTROL ∧
        port.id.flags.PORT_FLAG_TRIGGER = true ∧
        math_floats_equal port.control 0 = false then
      port_set_control_value port 0 false true
    else
      port) :: process_trigger_loop rest

/-- The routine `plugin_process (plugin, g_start_frames, local_offset,
nframes)`: the backend processes the block, then the trigger controls are
turned off.  (The block guarded by `num_midi_ins > 0` is empty.) -/
def plugin_process (env : Env) (plugin : Plugin) (g_start_frames : Int)
    (local_offset nframes : Nat) : Plugin :=
  let plugin :=
    if env.HAVE_CARLA ∧ plugin.descr.open_with_carla then
      env.carla_native_plugin_proces plugin g_start_frames nframes
    else
      match plugin.descr.protocol with
      | PluginProtocol.PROT_LV2 =>
        env.lv2_plugin_process plugin g_start_frames nframes
      | PluginProtocol.PROT_VST =>
        env.vst_plugin_process plugin g_start_frames local_offset nframes
      | _ => plugin
  { plugin with in_ports := process_trigger_loop plugin.in_ports }

/-! ## `plugin_clone` -/

/-- The end of `plugin_clone`, after the branches by protocol: the two checks
`g_return_val_if_fail (pl->num_in_ports || pl->num_out_ports, NULL)` and
`g_return_val_if_fail (clone, NULL)`, then the copy of the position and of the
visible flag. -/
def plugin_clone_finish (pl : Plugin) (clone : Option Plugin) : Option Plugin :=
  if pl.in_ports.length = 0 ∧ pl.out_ports.length = 0 then none
  else
    match clone with
    | none => none
    | some clone =>
      let clone := { clone with id := { clone.id with slot := pl.id.slot } }
      let clone := { clone with id := { clone.id with track_pos := pl.id.track_pos } }
      let clone := { clone with magic := PLUGIN_MAGIC }
      let clone := { clone with visible := pl.visible }
      some clone

/-- The routine `plugin_clone (pl)`: the result (`none` is `NULL`) and the
source plugin afterwards.  A failed `g_return_val_if_fail` returns `NULL`.  The
directory and file operations are outside the model.  Where the C code would
dereference a `NULL` `pl->lv2`, the model returns `NULL`. -/
def plugin_clone (env : Env) (pl : Plugin) : Option Plugin × Plugin :=
  if pl.descr.protocol = PluginProtocol.PROT_LV2 then
    match pl.lv2 with
    | none => (none, pl)
    | some lv2 =>
      let lv2 := env.lv2_plugin_save_state_to_file lv2 env.state_dir_plugin
      let pl := { pl with lv2 := some lv2 }
      match lv2.state_file with
      | none => (none, pl)
      | some state_file =>
        match plugin_new_from_descr env pl.descr pl.id.track_pos pl.id.slot with
        | none => (none, pl)
        | some clone =>
          match clone.lv2 with
          | none => (none, pl)
          | some clone_lv2 =>
            let clone := { clone with
              lv2 := some { clone_lv2 with state_file := some state_file } }
            let r := plugin_instantiate env clone
            if r.1 ≠ 0 then (none, pl)
            else (plugin_clone_finish pl (some r.2), pl)
  else if pl.descr.protocol = PluginProtocol.PROT_VST then
    match plugin_new_from_descr env pl.descr pl.id.track_pos pl.id.slot with
    | none => (none, pl)
    | some clone =>
      match clone.vst with
      | none => (none, pl)
      | some _ =>
        let r := plugin_instantiate env clone
        if r.1 ≠ 0 then (none, pl)
        else
          let clone := env.vst_plugin_copy_params r.2 pl
          (plugin_clone_finish pl (some clone), pl)
  else
    (plugin_clone_finish pl none, pl)

/-- The fresh plugin `plugin_clone` hands to `plugin_instantiate`: the plugin
`plugin_new_from_descr` created from the descriptor and position of the
source, for LV2 with the state file of the source set; `none` when
`plugin_clone` returns before that call. -/
def plugin_clone_fresh (env : Env) (pl : Plugin) : Option Plugin :=
  if pl.descr.protocol = PluginProtocol.PROT_LV2 then
    match pl.lv2 with
    | none => none
    | some lv2 =>
      match (env.lv2_plugin_save_state_to_file lv2 env.state_dir_plugin).state_file with
      | none => none
      | some state_file =>
        match plugin_new_from_descr env pl.descr pl.id.track_pos pl.id.slot with
        | none => none
        | some clone =>
          match clone.lv2 with
          | none => none
          | some clone_lv2 =>
            some { clone with
              lv2 := some { clone_lv2 with state_file := some state_file } }
  else if pl.descr.protocol = PluginProtocol.PROT_VST then
    match plugin_new_from_descr env pl.descr pl.id.track_pos pl.id.slot with
    | none => none
    | some clone =>
      match clone.vst with
      | none => none
      | some _ => some clone
  else
    none

/-- What `plugin_clone` does to the instantiated fresh plugin before its final
checks: nothing for LV2, `vst_plugin_copy_params (clone->vst, pl->vst)` for
VST. -/
def plugin_clone_after (env : Env) (pl : Plugin) (clone : Plugin) : Plugin :=
  if pl.descr.protocol = PluginProtocol.PROT_LV2 then clone
  else env.vst_plugin_copy_params clone pl

/-! ## `plugin_set_channel_and_slot` -/

/-- The loop `port_set_owner_plugin (port, pl)` over a port array. -/
def set_owner_loop (pl : Plugin) : List Port → List Port
  | [] => []
  | port :: rest => port_set_owner_plugin port pl :: set_owner_loop pl rest

/-- The routine `plugin_set_channel_and_slot (pl, ch, slot)`. -/
def plugin_set_channel_and_slot (env : Env) (pl : Plugin) (ch : Channel)
    (slot : Int) : Plugin :=
  let pl := { pl with id := { pl.id with track_pos := ch.track_pos } }
  let pl := { pl with id := { pl.id with slot := slot } }
  let pl := { pl with in_ports := set_owner_loop pl pl.in_ports }
  let pl := { pl with out_ports := set_owner_loop pl pl.out_ports }
  if (¬ (env.HAVE_CARLA ∧ pl.descr.open_with_carla)) ∧
      pl.descr.protocol = PluginProtocol.PROT_LV2 then
    match pl.lv2 with
    | none => pl
    | some lv2 =>
      { pl with lv2 := some (env.lv2_plugin_update_port_identifiers lv2 pl) }
  else
    pl

/-! ## `plugin_generate_automation_tracks`, `plugin_init_loaded` -/

/-- The loop of `plugin_generate_automation_tracks` over `self->in_ports`: a
port that is not a control port is skipped, a control port gets a new
automation lane, added to the list. -/
def generate_automation_tracks_loop :
    List Port → AutomationTracklist → AutomationTracklist
  | [], atl => atl
  | port :: rest, atl =>
    if port.id.type ≠ PortType.TYPE_CONTROL then
      generate_automation_tracks_loop rest atl
    else
      generate_automation_tracks_loop rest
        (automation_tracklist_add_at atl (automation_track_new port))

/-- The routine `plugin_generate_automation_tracks (self, track)`: the track
with its automation-lane list afterwards. -/
def plugin_generate_automation_tracks (self : Plugin) (track : Track) : Track :=
  let atl := track_get_automation_tracklist track
  { track with
    automation_tracklist := generate_automation_tracks_loop self.in_ports atl }

/-- The routine `plugin_get_track (self)`: the track at `self->id.track_pos`,
`NULL` when the position is not below the number of tracks.  (A negative
position is read out of bounds by the C code; the model gives `NULL`.) -/
def plugin_get_track (tracklist : Tracklist) (self : Plugin) : Option Track :=
  if self.id.track_pos < tracklist.tracks.length then
    if 0 ≤ self.id.track_pos then
      tracklist.tracks[self.id.track_pos.toNat]?
    else none
  else none

/-- The end of `plugin_init_loaded`, after the `switch`: `plugin_instantiate`
is called and its result discarded, then the automation lanes are generated on
the track of the plugin.  (With a `NULL` track the C code hands `NULL` on; the
model leaves the tracks as they are.) -/
def plugin_init_loaded_finish (env : Env) (self : Plugin)
    (tracklist : Tracklist) : Plugin × Tracklist :=
  let r := plugin_instantiate env self
  let self := r.2
  match plugin_get_track tracklist self with
  | none => (self, tracklist)
  | some track =>
    let track := plugin_generate_automation_tracks self track
    (self, { tracklist with
      tracks := tracklist.tracks.set self.id.track_pos.toNat track })

/-- The routine `plugin_init_loaded (self)`: the plugin and the tracks of the
project afterwards.  `g_return_if_fail (self->lv2)` returns when the backend
pointer is `NULL`. -/
def plugin_init_loaded (env : Env) (self : Plugin) (tracklist : Tracklist) :
    Plugin × Tracklist :=
  let self := { self with magic := PLUGIN_MAGIC }
  match self.descr.protocol with
  | PluginProtocol.PROT_LV2 =>
    match self.lv2 with
    | none => (self, tracklist)
    | some _ =>
      plugin_init_loaded_finish env (env.lv2_plugin_init_loaded self) tracklist
  | PluginProtocol.PROT_VST =>
    match self.vst with
    | none => (self, tracklist)
    | some _ =>
      plugin_init_loaded_finish env (env.vst_plugin_init_loaded self) tracklist
  | _ => plugin_init_loaded_finish env self tracklist

/-! ## `plugin_update_latency` -/

/-- The routine `plugin_update_latency (pl)`.  With `HAVE_CARLA` the condition
starts with `!pl->descr->open_with_carla &&`. -/
def plugin_update_latency (env : Env) (pl : Plugin) : Plugin :=
  if (¬ (env.HAVE_CARLA ∧ pl.descr.open_with_carla)) ∧
      pl.descr.protocol = PluginProtocol.PROT_LV2 then
    { pl with latency := env.lv2_plugin_get_latency pl.lv2 }
  else
    pl

/-! ## `plugin_remove_ats_from_automation_tracklist` -/

/-- Modelled from the spec: `automation_tracklist_remove_at` is not among the
sources; it removes the lane from the automation-lane list, and the lanes
behind it move up.  The pointer `at` is the position of the lane in the list.
Whether the lane is also freed (`free`) does not change the list. -/
def automation_tracklist_remove_at (atl : AutomationTracklist) (at_ : Nat)
    (_free : Bool) : AutomationTracklist :=
  { atl with ats := atl.ats.eraseIdx at_ }

/-- The test of `plugin_remove_ats_from_automation_tracklist` on a lane: the
identifier is owned by a plugin or flagged as plugin control, and its slot is
the slot of the plugin. -/
def at_is_of_plugin_slot (pl : Plugin) (at_ : AutomationTrack) : Bool :=
  (decide (at_.port_id.owner_type = PortOwnerType.PORT_OWNER_TYPE_PLUGIN) ||
      at_.port_id.flags.PORT_FLAG_PLUGIN_CONTROL) &&
    decide (at_.port_id.plugin_slot = pl.id.slot)

/-- The loop `for (int i = atl->num_ats - 1; i >= 0; i--)` of
`plugin_remove_ats_from_automation_tracklist`; the first argument is `i + 1`.
The lane at index `i` is read from the list as it is at that moment. -/
def remove_ats_loop (pl : Plugin) (free_ats : Bool) :
    Nat → AutomationTracklist → AutomationTracklist
  | 0, atl => atl
  | i + 1, atl =>
    match atl.ats[i]? with
    | none => remove_ats_loop pl free_ats i atl
    | some at_ =>
      if at_.port_id.owner_type = PortOwnerType.PORT_OWNER_TYPE_PLUGIN ∨
          at_.port_id.flags.PORT_FLAG_PLUGIN_CONTROL = true then
        if at_.port_id.plugin_slot = pl.id.slot then
          remove_ats_loop pl free_ats i
            (automation_tracklist_remove_at atl i free_ats)
        else
          remove_ats_loop pl free_ats i atl
      else
        remove_ats_loop pl free_ats i atl

/-- The routine `plugin_remove_ats_from_automation_tracklist (pl, free_ats)`:
the tracks of the project afterwards.  (With a `NULL` track the C code hands
`NULL` on; the model leaves the tracks as they are.) -/
def plugin_remove_ats_from_automation_tracklist (pl : Plugin) (free_ats : Bool)
    (tracklist : Tracklist) : Tracklist :=
  match plugin_get_track tracklist pl with
  | none => tracklist
  | some track =>
    let atl := track_get_automation_tracklist track
    let atl := remove_ats_loop pl free_ats atl.ats.length atl
    { tracklist with
      tracks := tracklist.tracks.set pl.id.track_pos.toNat
        { track with automation_tracklist := atl } }

/-- The automation lanes of the track at position `pos`, none when there is no
such track. -/
def track_lanes (tracklist : Tracklist) (pos : Nat) : List AutomationTrack :=
  match tracklist.tracks[pos]? with
  | none => []
  | some track => track.automation_tracklist.ats

/-! ## `plugin_move_automation` -/

/-- Modelled from the spec: `automation_tracklist_delete_at` is not among the
sources; it takes the lane out of the automation-lane list, and the lanes
behind it move up.  The pointer `at` is the position of the lane in the list;
with `F_NO_FREE` the lane itself stays alive. -/
def automation_tracklist_delete_at (atl : AutomationTracklist) (at_ : Nat)
    (_free : Bool) : AutomationTracklist :=
  { atl with ats := atl.ats.eraseIdx at_ }

/-- Modelled from the spec: `channel_get_track` in a routine that writes to the
track.  A `Track *` is the position of the track among the tracks of the
project; the track of a channel is the one at `ch->track_pos`, `NULL` when
there is no such track. -/
def channel_get_track_pos (tracklist : Tracklist) (ch : Channel) : Option Nat :=
  if ch.track_pos < tracklist.tracks.length then
    if 0 ≤ ch.track_pos then some ch.track_pos.toNat else none
  else none

/-- A write through the pointer to the automation-lane list of the track at
position `pos`. -/
def update_automation_tracklist (tracklist : Tracklist) (pos : Nat)
    (f : AutomationTracklist → AutomationTracklist) : Tracklist :=
  { tracklist with
    tracks := List.modify
      (fun track => { track with automation_tracklist := f track.automation_tracklist })
      pos tracklist.tracks }

/-- The write `at->port_id.plugin_slot = new_slot` on a lane. -/
def at_set_plugin_slot (new_slot : Int) (at_ : AutomationTrack) :
    AutomationTrack :=
  { at_ with port_id := { at_.port_id with plugin_slot := new_slot } }

/-- The write `at->port_id.plugin_slot = new_slot` right after the lane `at`
was added to the list: the pointer designates the last lane of the list. -/
def set_added_at_plugin_slot (new_slot : Int) (atl : AutomationTracklist) :
    AutomationTracklist :=
  { atl with
    ats := List.modify (at_set_plugin_slot new_slot) (atl.ats.length - 1) atl.ats }

/-- The test of `plugin_move_automation` on a lane: the port of the lane
exists, is owned by a plugin, and that plugin is `pl`.  The lookups
`automation_track_get_port` and `port_get_plugin` are not among the sources and
are parameters; a `Plugin *` is compared as a value. -/
def at_is_of_plugin (automation_track_get_port : AutomationTrack → Option Port)
    (port_get_plugin : Port → Option Plugin) (pl : Plugin)
    (at_ : AutomationTrack) : Bool :=
  match automation_track_get_port at_ with
  | none => false
  | some port =>
    decide (port.id.owner_type = PortOwnerType.PORT_OWNER_TYPE_PLUGIN) &&
      decide (port_get_plugin port = some pl)

/-- The loop `for (int i = prev_atl->num_ats - 1; i >= 0; i--)` of
`plugin_move_automation`; the first argument is `i + 1`, `prev_atl` and `atl`
are the positions of the two tracks.  The lane at index `i` is read from the
list of the previous track as it is at that moment. -/
def move_automation_loop
    (automation_track_get_port : AutomationTrack → Option Port)
    (port_get_plugin : Port → Option Plugin) (pl : Plugin)
    (prev_atl atl : Nat) (new_slot : Int) : Nat → Tracklist → Tracklist
  | 0, tracklist => tracklist
  | i + 1, tracklist =>
    match (track_lanes tracklist prev_atl)[i]? with
    | none =>
      move_automation_loop automation_track_get_port port_get_plugin pl
        prev_atl atl new_slot i tracklist
    | some at_ =>
      match automation_track_get_port at_ with
      | none =>
        move_automation_loop automation_track_get_port port_get_plugin pl
          prev_atl atl new_slot i tracklist
      | some port =>
        if port.id.owner_type = PortOwnerType.PORT_OWNER_TYPE_PLUGIN then
          if port_get_plugin port ≠ some pl then
            move_automation_loop automation_track_get_port port_get_plugin pl
              prev_atl atl new_slot i tracklist
          else
            let tracklist := update_automation_tracklist tracklist prev_atl
              (fun prev => automation_tracklist_delete_at prev i false)
            let tracklist := update_automation_tracklist tracklist atl
              (fun a => automation_tracklist_add_at a at_)
            let tracklist := update_automation_tracklist tracklist atl
              (set_added_at_plugin_slot new_slot)
            move_automation_loop automation_track_get_port port_get_plugin pl
              prev_atl atl new_slot i tracklist
        else
          move_automation_loop automation_track_get_port port_get_plugin pl
            prev_atl atl new_slot i tracklist

/-- The routine `plugin_move_automation (pl, prev_ch, ch, new_slot)`: the
tracks of the project afterwards.  (With a `NULL` track the C code hands `NULL`
on; the model leaves the tracks as they are.) -/
def plugin_move_automation
    (automation_track_get_port : AutomationTrack → Option Port)
    (port_get_plugin : Port → Option Plugin) (pl : Plugin)
    (prev_ch ch : Channel) (new_slot : Int) (tracklist : Tracklist) :
    Tracklist :=
  match channel_get_track_pos tracklist prev_ch,
      channel_get_track_pos tracklist ch with
  | some prev_atl, some atl =>
    move_automation_loop automation_track_get_port port_get_plugin pl
      prev_atl atl new_slot (track_lanes tracklist prev_atl).length tracklist
  | _, _ => tracklist

/-! ## `plugin_disconnect`, `plugin_free` -/

/-- The state outside the plugin that the teardown routines work on: the port
graph and the tracks of the project. -/
structure Project where
  graph : Graph := []
  tracklist : Tracklist := {}
  deriving DecidableEq, Repr

/-- An edge touches a port of the list, as source or as destination. -/
def touches_ports (ports : List Port) (c : Connection) : Bool :=
  decide (c.src ∈ ports) || decide (c.dest ∈ ports)

/-- Modelled from the spec: `ports_disconnect` belongs to the port code, which
is not among the sources.  Per the spec (`disconnectAll(portList)`) it removes
every edge touching any port in the list. -/
def ports_disconnect (ports : List Port) (_deleting : Bool)
    (project : Project) : Project :=
  { project with graph := project.graph.filter (fun c => !touches_ports ports c) }

/-- Modelled from the spec: `ports_remove` belongs to the port code, which is
not among the sources.  Per the spec it releases the storage of the ports; the
count it is handed is 0 afterwards. -/
def ports_remove (_ports : List Port) (project : Project) :
    List Port × Project :=
  ([], project)

/-- The routine `plugin_disconnect (plugin)`: the plugin and the project
afterwards. -/
def plugin_disconnect (plugin : Plugin) (project : Project) :
    Plugin × Project :=
  let plugin := { plugin with deleting := true }
  let project := ports_disconnect plugin.in_ports true project
  let project := ports_disconnect plugin.out_ports true project
  (plugin, project)

/-- The routine `plugin_free (plugin)`: the project afterwards.  The two port
arrays are emptied, then the storage of the plugin is released. -/
def plugin_free (plugin : Plugin) (project : Project) : Project :=
  let r := ports_remove plugin.in_ports project
  let plugin := { plugin with in_ports := r.1 }
  let project := r.2
  let r := ports_remove plugin.out_ports project
  r.2

/-! ## Sequences of port additions -/

/-- One call that adds a port to a plugin: `plugin_add_in_port (pl, port)` or
`plugin_add_out_port (pl, port)`. -/
inductive AddPortCall where
  | add_in (port : Port)
  | add_out (port : Port)
  deriving DecidableEq, Repr

/-- Runs one call that adds a port. -/
def run_add_port_call (pl : Plugin) : AddPortCall → Plugin
  | AddPortCall.add_in port => plugin_add_in_port pl port
  | AddPortCall.add_out port => plugin_add_out_port pl port

/-- Runs a sequence of calls that add ports, in order. -/
def run_add_port_calls (pl : Plugin) (calls : List AddPortCall) : Plugin :=
  calls.foldl run_add_port_call pl

/-! ## Concrete plugins and channels used as test inputs -/

/-- A plugin port of track 0 with the given type, flow, slot and index. -/
def example_port (t : PortType) (f : PortFlow) (slot index : Int) : Port :=
  { id := { owner_type := PortOwnerType.PORT_OWNER_TYPE_PLUGIN, type := t,
            flow := f, track_pos := 0, plugin_slot := slot,
            port_index := index } }

/-- Ports of the given types with consecutive indices from `index` on. -/
def example_ports (f : PortFlow) (slot : Int) : Int → List PortType → List Port
  | _, [] => []
  | index, t :: ts =>
    example_port t f slot index :: example_ports f slot (index + 1) ts

/-- A plugin of track 0 at `slot` with the given declared audio counts and
ports of the given types. -/
def example_plugin (slot num_audio_ins num_audio_outs : Int)
    (ins outs : List PortType) : Plugin :=
  { id := { track_pos := 0, slot := slot },
    descr := { num_audio_ins := num_audio_ins,
               num_audio_outs := num_audio_outs },
    in_ports := example_ports PortFlow.FLOW_INPUT slot 0 ins,
    out_ports := example_ports PortFlow.FLOW_OUTPUT slot 0 outs }

/-- Source with three audio outputs and two event outputs (slot 0). -/
def example_src3 : Plugin :=
  example_plugin 0 0 3 [PortType.TYPE_CONTROL]
    [PortType.TYPE_AUDIO, PortType.TYPE_EVENT, PortType.TYPE_AUDIO,
     PortType.TYPE_AUDIO, PortType.TYPE_EVENT]

/-- Destination with two audio inputs and one event input (slot 1). -/
def example_dest2 : Plugin :=
  example_plugin 1 2 2
    [PortType.TYPE_CONTROL, PortType.TYPE_AUDIO, PortType.TYPE_EVENT,
     PortType.TYPE_AUDIO]
    [PortType.TYPE_AUDIO, PortType.TYPE_AUDIO]

/-- Mono source: one audio output, one event output (slot 0). -/
def example_src1 : Plugin :=
  example_plugin 0 0 1 [PortType.TYPE_CONTROL]
    [PortType.TYPE_AUDIO, PortType.TYPE_EVENT]

/-- Mono destination: one audio input (slot 1). -/
def example_dest1 : Plugin :=
  example_plugin 1 1 1 [PortType.TYPE_CONTROL, PortType.TYPE_AUDIO]
    [PortType.TYPE_AUDIO]

/-- Stereo source without event ports (slot 0). -/
def example_stereo_source : Plugin :=
  example_plugin 0 2 2
    [PortType.TYPE_CONTROL, PortType.TYPE_AUDIO, PortType.TYPE_AUDIO]
    [PortType.TYPE_AUDIO, PortType.TYPE_AUDIO]

/-- Mono effect without event ports: one audio input, one audio output
(slot 1). -/
def example_mono_effect : Plugin :=
  example_plugin 1 1 1 [PortType.TYPE_CONTROL, PortType.TYPE_AUDIO]
    [PortType.TYPE_AUDIO]

/-- Stereo destination without event ports (slot 2). -/
def example_stereo_destination : Plugin :=
  example_plugin 2 2 2
    [PortType.TYPE_CONTROL, PortType.TYPE_AUDIO, PortType.TYPE_AUDIO]
    [PortType.TYPE_AUDIO, PortType.TYPE_AUDIO]

/-- A port of the channel stage of track 0 with the given type, flow and
index. -/
def example_channel_port (t : PortType) (f : PortFlow) (index : Int) : Port :=
  { id := { owner_type := PortOwnerType.PORT_OWNER_TYPE_CHANNEL_STAGE,
            type := t, flow := f, track_pos := 0, plugin_slot := 0,
            port_index := index } }

/-- A channel of track 0 whose track has the given output signal type. -/
def example_channel (t : PortType) : Channel :=
  { track := { out_signal_type := t },
    midi_out := example_channel_port PortType.TYPE_EVENT PortFlow.FLOW_OUTPUT 0,
    prefader :=
      { stereo_in :=
          { l := example_channel_port PortType.TYPE_AUDIO PortFlow.FLOW_INPUT 1,
            r := example_channel_port PortType.TYPE_AUDIO PortFlow.FLOW_INPUT 2 },
        midi_in :=
          example_channel_port PortType.TYPE_EVENT PortFlow.FLOW_INPUT 3 } }

/-- Instrument-like plugin with two event outputs and two audio outputs
(slot 0). -/
def example_two_event_outs : Plugin :=
  example_plugin 0 0 2 [PortType.TYPE_CONTROL]
    [PortType.TYPE_EVENT, PortType.TYPE_AUDIO, PortType.TYPE_EVENT,
     PortType.TYPE_AUDIO]

/-- A graph holding one edge that leaves the destination plugin of the test
inputs. -/
def example_graph : Graph :=
  [{ src := example_port PortType.TYPE_AUDIO PortFlow.FLOW_OUTPUT 1 0,
     dest := example_channel_port PortType.TYPE_AUDIO PortFlow.FLOW_INPUT 1,
     locked := true }]

/-- An environment without Carla, in test mode, whose backends attach their
state on creation, instantiate with success and change nothing else. -/
def example_env : Env :=
  { HAVE_CARLA := false,
    ZRYTHM_TESTING := true,
    plugin_ui_refresh_rate := 0,
    monitor_refresh_rate := 60000,
    project_loaded := true,
    state_dir_plugin := "states/tmp_plugin",
    lv2_plugin_new_from_uri := fun pl _ => { pl with lv2 := some {} },
    vst_plugin_new_from_descriptor := fun pl _ => { pl with vst := some {} },
    carla_native_plugin_new_from_descriptor :=
      fun pl => { pl with carla := some {} },
    lv2_plugin_init_loaded := fun pl => pl,
    vst_plugin_init_loaded := fun pl => pl,
    lv2_plugin_instantiate := fun pl => (0, pl),
    vst_plugin_instantiate := fun pl _ => (0, pl),
    carla_native_plugin_instantiate := fun pl => pl,
    lv2_plugin_process := fun pl _ _ => pl,
    vst_plugin_process := fun pl _ _ _ => pl,
    carla_native_plugin_proces := fun pl _ _ => pl,
    lv2_plugin_save_state_to_file :=
      fun lv2 dir => { lv2 with state_file := some dir },
    lv2_plugin_update_port_identifiers := fun lv2 _ => lv2,
    vst_plugin_copy_params := fun clone _ => clone,
    lv2_plugin_get_latency := fun _ => 64 }

/-- The environment `example_env` with backends whose instantiation fails. -/
def example_env_failing : Env :=
  { example_env with
    lv2_plugin_instantiate := fun pl => (1, pl),
    vst_plugin_instantiate := fun pl _ => (1, pl) }

/-- The environment `example_env` in a build with Carla. -/
def example_env_carla : Env :=
  { example_env with HAVE_CARLA := true }

/-- An LV2 descriptor. -/
def example_lv2_descr : PluginDescriptor :=
  { protocol := PluginProtocol.PROT_LV2, name := "Example LV2",
    uri := "urn:example:lv2" }

/-- A descriptor of a protocol without backend. -/
def example_unknown_descr : PluginDescriptor :=
  { protocol := PluginProtocol.PROT_DUMMY, name := "Example" }

/-- The LV2 plugin `plugin_new_from_descr` creates at track 0, slot 0 in
`example_env`, as a value. -/
def example_lv2_plugin : Plugin :=
  plugin_new_from_descr_backend example_env example_lv2_descr
    (plugin_new_from_descr_init example_lv2_descr 0 0)

/-- A trigger control input at index 1 with value 1. -/
def example_trigger_port : Port :=
  { id := { owner_type := PortOwnerType.PORT_OWNER_TYPE_PLUGIN,
            type := PortType.TYPE_CONTROL, flow := PortFlow.FLOW_INPUT,
            track_pos := 0, plugin_slot := 0, port_index := 1,
            flags := { PORT_FLAG_TRIGGER := true }, label := "Trigger" },
    minf := 0, maxf := 1, control := 1 }

/-- The plugin `example_lv2_plugin` with a trigger control and an audio input
added. -/
def example_lv2_with_trigger : Plugin :=
  plugin_add_in_port
    (plugin_add_in_port example_lv2_plugin example_trigger_port)
    (example_port PortType.TYPE_AUDIO PortFlow.FLOW_INPUT 0 2)

/-- A project with one audio track without automation lanes. -/
def example_tracklist : Tracklist :=
  { tracks := [{ out_signal_type := PortType.TYPE_AUDIO, pos := 0 }] }

/-- A source that declares no audio output although two of its output ports are
audio ports (slot 0). -/
def example_undeclared_src : Plugin :=
  example_plugin 0 0 0 [PortType.TYPE_CONTROL]
    [PortType.TYPE_AUDIO, PortType.TYPE_AUDIO]

/-- A destination that declares two audio inputs and has them (slot 1). -/
def example_declared_dest : Plugin :=
  example_plugin 1 2 0
    [PortType.TYPE_CONTROL, PortType.TYPE_AUDIO, PortType.TYPE_AUDIO] []

/-- An LV2 descriptor to be opened with Carla. -/
def example_carla_lv2_descr : PluginDescriptor :=
  { protocol := PluginProtocol.PROT_LV2, open_with_carla := true,
    name := "Example LV2", uri := "urn:example:lv2" }

/-- The plugin `plugin_new_from_descr` creates at track 0, slot 0 from
`example_carla_lv2_descr` in the build with Carla, as a value. -/
def example_carla_lv2_plugin : Plugin :=
  plugin_new_from_descr_backend example_env_carla example_carla_lv2_descr
    (plugin_new_from_descr_init example_carla_lv2_descr 0 0)

/-- The automation lane bound to the control input of track 0 at the given slot
and index. -/
def example_lane (slot index : Int) : AutomationTrack :=
  automation_track_new
    (example_port PortType.TYPE_CONTROL PortFlow.FLOW_INPUT slot index)

/-- An automation lane bound to a control of the channel stage of track 0. -/
def example_channel_lane : AutomationTrack :=
  automation_track_new
    (example_channel_port PortType.TYPE_CONTROL PortFlow.FLOW_INPUT 4)

/-- A plugin of track 0 at slot 0 with three control inputs. -/
def example_controls_plugin : Plugin :=
  example_plugin 0 0 0
    [PortType.TYPE_CONTROL, PortType.TYPE_CONTROL, PortType.TYPE_CONTROL] []

/-- A plugin of track 0 at slot 1 with one control input. -/
def example_other_plugin : Plugin :=
  example_plugin 1 0 0 [PortType.TYPE_CONTROL] []

/-- An audio track at position 0 with two lanes of the plugin at slot 0, then a
lane of the plugin at slot 1, a lane of the channel, and a third lane of the
plugin at slot 0. -/
def example_track_lanes : Track :=
  { out_signal_type := PortType.TYPE_AUDIO, pos := 0,
    automation_tracklist :=
      { ats := [example_lane 0 0, example_lane 0 1, example_lane 1 0,
                example_channel_lane, example_lane 0 2] } }

/-- A project with two audio tracks: `example_track_lanes` and a track with
one lane of the channel. -/
def example_tracklist_lanes : Tracklist :=
  { tracks :=
      [example_track_lanes,
       { out_signal_type := PortType.TYPE_AUDIO, pos := 1,
         automation_tracklist := { ats := [example_channel_lane] } }] }

/-- The channel of track 1. -/
def example_channel_track1 : Channel :=
  { example_channel PortType.TYPE_AUDIO with track_pos := 1 }

/-- A lookup of the port of a lane: the input port of one of the given plugins
that has the identifier of the lane. -/
def example_automation_track_get_port (plugins : List Plugin)
    (at_ : AutomationTrack) : Option Port :=
  (plugins.flatMap (fun pl => pl.in_ports)).find?
    (fun port => decide (port.id = at_.port_id))

/-- A lookup of the plugin of a port: the one of the given plugins that sits at
the track position and slot the port names. -/
def example_port_get_plugin (plugins : List Plugin) (port : Port) :
    Option Plugin :=
  plugins.find? (fun pl =>
    decide (pl.id.track_pos = port.id.track_pos ∧
      pl.id.slot = port.id.plugin_slot))

/-- A project whose tracks are `example_tracklist_lanes` and whose graph joins
the first control input of the plugin at slot 0 to a channel port. -/
def example_project : Project :=
  { graph :=
      [{ src := example_channel_port PortType.TYPE_CONTROL PortFlow.FLOW_OUTPUT 5,
         dest := example_port PortType.TYPE_CONTROL PortFlow.FLOW_INPUT 0 0,
         locked := false }],
    tracklist := example_tracklist_lanes }

/-! ## Lemmas: every loop runs its callee over a closed-form call list -/

section LoopLemmas

variable {σ : Type}

theorem run_calls_nil (f : Port → Port → σ → σ) (s : σ) :
    run_calls f [] s = s := rfl

theorem run_calls_cons (f : Port → Port → σ → σ) (c : Call) (cs : List Call)
    (s : σ) : run_calls f (c :: cs) s = run_calls f cs (f c.1 c.2 s) := rfl

theorem run_calls_append (f : Port → Port → σ → σ) (cs ds : List Call)
    (s : σ) : run_calls f (cs ++ ds) s = run_calls f ds (run_calls f cs s) := by
  simp [run_calls, List.foldl_append]

theorem run_calls_record (cs : List Call) (acc : List Call) :
    run_calls record_call cs acc = acc ++ cs := by
  induction cs generalizing acc with
  | nil => simp [run_calls]
  | cons c cs ih => simp [run_calls_cons, ih, record_call]

theorem ports_of_type_cons_pos {t : PortType} {p : Port} (ps : List Port)
    (h : p.id.type = t) :
    ports_of_type t (p :: ps) = p :: ports_of_type t ps := by
  simp [ports_of_type, h]

theorem ports_of_type_cons_neg {t : PortType} {p : Port} (ps : List Port)
    (h : ¬ p.id.type = t) :
    ports_of_type t (p :: ps) = ports_of_type t ps := by
  simp [ports_of_type, h]

theorem mem_ports_of_type {t : PortType} {p : Port} {ps : List Port} :
    p ∈ ports_of_type t ps ↔ p ∈ ps ∧ p.id.type = t := by
  simp [ports_of_type]

theorem connect_fan_out_inner_eq (conn : Port → Port → σ → σ) (t : PortType)
    (o : Port) (ins : List Port) (s : σ) :
    connect_fan_out_inner conn t o ins s =
      run_calls conn ((ports_of_type t ins).map (fun i => (o, i))) s := by
  induction ins generalizing s with
  | nil => rfl
  | cons i rest ih =>
    by_cases h : i.id.type = t
    · simp [connect_fan_out_inner, h, ih, ports_of_type_cons_pos, run_calls_cons]
    · simp [connect_fan_out_inner, h, ih, ports_of_type_cons_neg]

theorem connect_fan_out_eq (conn : Port → Port → σ → σ) (t : PortType)
    (ins outs : List Port) (s : σ) :
    connect_fan_out conn t ins outs s =
      run_calls conn (fan_out_pairs t outs ins) s := by
  induction outs with
  | nil => rfl
  | cons o rest ih =>
    by_cases h : o.id.type = t
    · simp [connect_fan_out, h, fan_out_pairs, ports_of_type_cons_pos,
        connect_fan_out_inner_eq]
    · simpa [connect_fan_out, h, fan_out_pairs, ports_of_type_cons_neg] using ih

theorem connect_mono_mono_inner_eq (conn : Port → Port → σ → σ) (o : Port)
    (ins : List Port) (s : σ) :
    connect_mono_mono_inner conn o ins s =
      match ports_of_type PortType.TYPE_AUDIO ins with
      | [] => (s, false)
      | i :: _ => (conn o i s, true) := by
  induction ins with
  | nil => rfl
  | cons i rest ih =>
    by_cases h : i.id.type = PortType.TYPE_AUDIO
    · simp [connect_mono_mono_inner, h, ports_of_type_cons_pos]
    · simpa [connect_mono_mono_inner, h, ports_of_type_cons_neg] using ih

theorem first_audio_pair_nil_ins (outs ins : List Port)
    (h : ports_of_type PortType.TYPE_AUDIO ins = []) :
    first_audio_pair outs ins = [] := by
  unfold first_audio_pair
  rw [h]
  cases ports_of_type PortType.TYPE_AUDIO outs <;> rfl

theorem connect_mono_mono_eq (conn : Port → Port → σ → σ)
    (ins outs : List Port) (s : σ) :
    connect_mono_mono conn ins outs s =
      run_calls conn (first_audio_pair outs ins) s := by
  induction outs with
  | nil => simp [connect_mono_mono, first_audio_pair, ports_of_type, run_calls]
  | cons o rest ih =>
    by_cases h : o.id.type = PortType.TYPE_AUDIO
    · rw [connect_mono_mono, if_pos h, connect_mono_mono_inner_eq]
      cases hins : ports_of_type PortType.TYPE_AUDIO ins with
      | nil =>
        simp only [Bool.false_eq_true, if_false]
        rw [ih, first_audio_pair_nil_ins _ _ hins, first_audio_pair_nil_ins _ _ hins]
      | cons i is =>
        simp [first_audio_pair, ports_of_type_cons_pos, h, hins, run_calls]
    · rw [connect_mono_mono, if_neg h, ih]
      simp [first_audio_pair, ports_of_type_cons_neg, h]

theorem connect_multi_mono_inner_eq (conn : Port → Port → σ → σ) (i : Port)
    (outs : List Port) (s : σ) :
    connect_multi_mono_inner conn i outs s =
      match ports_of_type PortType.TYPE_AUDIO outs with
      | [] => s
      | o :: _ => conn o i s := by
  induction outs with
  | nil => rfl
  | cons o rest ih =>
    by_cases h : o.id.type = PortType.TYPE_AUDIO
    · simp [connect_multi_mono_inner, h, ports_of_type_cons_pos]
    · simpa [connect_multi_mono_inner, h, ports_of_type_cons_neg] using ih

theorem connect_multi_mono_eq (conn : Port → Port → σ → σ)
    (outs ins : List Port) (s : σ) :
    connect_multi_mono conn outs ins s =
      run_calls conn (first_audio_pair outs ins) s := by
  induction ins with
  | nil =>
    rw [first_audio_pair_nil_ins _ _ (by simp [ports_of_type])]
    rfl
  | cons i rest ih =>
    by_cases h : i.id.type = PortType.TYPE_AUDIO
    · rw [connect_multi_mono, if_pos h, connect_multi_mono_inner_eq]
      cases houts : ports_of_type PortType.TYPE_AUDIO outs with
      | nil => simp [first_audio_pair, houts, run_calls]
      | cons o os =>
        simp [first_audio_pair, ports_of_type_cons_pos, h, houts, run_calls]
    · rw [connect_multi_mono, if_neg h, ih]
      simp [first_audio_pair, ports_of_type_cons_neg, h]

theorem connect_multi_multi_inner_state (conn : Port → Port → σ → σ)
    (o : Port) (ins : List Port) (s : σ) :
    (connect_multi_multi_inner conn o ins s).1 =
      match ports_of_type PortType.TYPE_AUDIO ins with
      | [] => s
      | i :: _ => conn o i s := by
  induction ins with
  | nil => rfl
  | cons i rest ih =>
    by_cases h : i.id.type = PortType.TYPE_AUDIO
    · simp [connect_multi_multi_inner, h, ports_of_type_cons_pos]
    · simpa [connect_multi_multi_inner, h, ports_of_type_cons_neg] using ih

theorem connect_multi_multi_inner_found (conn : Port → Port → σ → σ)
    (o : Port) (ins : List Port) (s : σ) :
    (connect_multi_multi_inner conn o ins s).2.2 =
      !(ports_of_type PortType.TYPE_AUDIO ins).isEmpty := by
  induction ins with
  | nil => rfl
  | cons i rest ih =>
    by_cases h : i.id.type = PortType.TYPE_AUDIO
    · simp [connect_multi_multi_inner, h, ports_of_type_cons_pos]
    · simpa [connect_multi_multi_inner, h, ports_of_type_cons_neg] using ih

theorem connect_multi_multi_inner_rest (conn : Port → Port → σ → σ)
    (o : Port) (ins : List Port) (s : σ) :
    ports_of_type PortType.TYPE_AUDIO
        (connect_multi_multi_inner conn o ins s).2.1 =
      (ports_of_type PortType.TYPE_AUDIO ins).tail := by
  induction ins with
  | nil => rfl
  | cons i rest ih =>
    by_cases h : i.id.type = PortType.TYPE_AUDIO
    · simp [connect_multi_multi_inner, h, ports_of_type_cons_pos]
    · simpa [connect_multi_multi_inner, h, ports_of_type_cons_neg] using ih

theorem connect_multi_multi_eq (conn : Port → Port → σ → σ) (num : Int)
    (outs ins : List Port) (pc : Int) (s : σ) (hpc : pc < num) :
    connect_multi_multi conn num outs ins pc s =
      run_calls conn (pairwise_audio_pairs (num - pc).toNat outs ins) s := by
  induction outs generalizing ins pc s with
  | nil => simp [connect_multi_multi, pairwise_audio_pairs, ports_of_type, run_calls]
  | cons o rest ih =>
    by_cases h : o.id.type = PortType.TYPE_AUDIO
    · rw [connect_multi_multi, if_pos h]
      simp only [connect_multi_multi_inner_state, connect_multi_multi_inner_found]
      cases hins : ports_of_type PortType.TYPE_AUDIO ins with
      | nil =>
        have hrest := connect_multi_multi_inner_rest conn o ins s
        rw [hins] at hrest
        simp only [List.isEmpty_nil, Bool.not_true, Bool.false_eq_true, if_false,
          if_neg (ne_of_lt hpc)]
        rw [ih _ _ _ hpc]
        simp [pairwise_audio_pairs, hrest, hins]
      | cons i is =>
        have hrest := connect_multi_multi_inner_rest conn o ins s
        rw [hins] at hrest
        simp only [List.isEmpty_cons, Bool.not_false, if_true]
        by_cases hlast : pc + 1 = num
        · rw [if_pos hlast]
          have h1 : (num - pc).toNat = 1 := by omega
          simp [pairwise_audio_pairs, ports_of_type_cons_pos, h, hins, h1, run_calls]
        · rw [if_neg hlast, ih _ _ _ (by omega)]
          have h1 : (num - pc).toNat = (num - (pc + 1)).toNat + 1 := by omega
          simp [pairwise_audio_pairs, ports_of_type_cons_pos, h, hins, h1, hrest,
            run_calls]
    · rw [connect_multi_multi, if_neg h, ih _ _ _ hpc]
      simp [pairwise_audio_pairs, ports_of_type_cons_neg, h]

theorem plugin_connect_to_plugin_audio_eq (conn : Port → Port → σ → σ)
    (src dest : Plugin) (s : σ) :
    plugin_connect_to_plugin_audio conn src dest s =
      run_calls conn (audio_pairs src dest) s := by
  unfold plugin_connect_to_plugin_audio audio_pairs
  split_ifs with h1 h2 h3 h4
  · exact connect_mono_mono_eq conn _ _ s
  · exact connect_fan_out_eq conn _ _ _ s
  · exact connect_multi_mono_eq conn _ _ s
  · have := connect_multi_multi_eq conn
      (min src.descr.num_audio_outs dest.descr.num_audio_ins)
      src.out_ports dest.in_ports 0 s (by omega)
    simpa using this
  · rfl

theorem plugin_connect_to_plugin_eq (conn : Port → Port → σ → σ)
    (src dest : Plugin) (s : σ) :
    plugin_connect_to_plugin conn src dest s =
      run_calls conn
        (audio_pairs src dest ++
          fan_out_pairs PortType.TYPE_EVENT src.out_ports dest.in_ports) s := by
  rw [plugin_connect_to_plugin, connect_fan_out_eq,
    plugin_connect_to_plugin_audio_eq, run_calls_append]

theorem plugin_connect_to_plugin_calls_eq (src dest : Plugin) :
    plugin_connect_to_plugin_calls src dest =
      audio_pairs src dest ++
        fan_out_pairs PortType.TYPE_EVENT src.out_ports dest.in_ports := by
  rw [plugin_connect_to_plugin_calls, plugin_connect_to_plugin_eq,
    run_calls_record, List.nil_append]

end LoopLemmas

/-! ## Lemmas: which ports the issued calls join -/

theorem fan_out_pairs_mem {t : PortType} {outs ins : List Port} {c : Call}
    (hc : c ∈ fan_out_pairs t outs ins) :
    (c.1 ∈ outs ∧ c.1.id.type = t) ∧ (c.2 ∈ ins ∧ c.2.id.type = t) := by
  unfold fan_out_pairs at hc
  cases h : ports_of_type t outs with
  | nil => simp [h] at hc
  | cons o os =>
    simp only [h, List.mem_map] at hc
    obtain ⟨i, hi, rfl⟩ := hc
    have ho : o ∈ ports_of_type t outs := by simp [h]
    exact ⟨mem_ports_of_type.mp ho, mem_ports_of_type.mp hi⟩

theorem first_audio_pair_mem {outs ins : List Port} {c : Call}
    (hc : c ∈ first_audio_pair outs ins) :
    (c.1 ∈ outs ∧ c.1.id.type = PortType.TYPE_AUDIO) ∧
      (c.2 ∈ ins ∧ c.2.id.type = PortType.TYPE_AUDIO) := by
  unfold first_audio_pair at hc
  cases h : ports_of_type PortType.TYPE_AUDIO outs with
  | nil => simp [h] at hc
  | cons o os =>
    cases h2 : ports_of_type PortType.TYPE_AUDIO ins with
    | nil => simp [h, h2] at hc
    | cons i is =>
      simp only [h, h2, List.mem_singleton] at hc
      subst hc
      have ho : o ∈ ports_of_type PortType.TYPE_AUDIO outs := by simp [h]
      have hi : i ∈ ports_of_type PortType.TYPE_AUDIO ins := by simp [h2]
      exact ⟨mem_ports_of_type.mp ho, mem_ports_of_type.mp hi⟩

theorem pairwise_audio_pairs_mem {n : Nat} {outs ins : List Port} {c : Call}
    (hc : c ∈ pairwise_audio_pairs n outs ins) :
    (c.1 ∈ outs ∧ c.1.id.type = PortType.TYPE_AUDIO) ∧
      (c.2 ∈ ins ∧ c.2.id.type = PortType.TYPE_AUDIO) := by
  unfold pairwise_audio_pairs at hc
  have hz := List.mem_of_mem_take hc
  obtain ⟨a, b⟩ := c
  have := List.of_mem_zip hz
  exact ⟨mem_ports_of_type.mp this.1, mem_ports_of_type.mp this.2⟩

theorem audio_pairs_mem {src dest : Plugin} {c : Call}
    (hc : c ∈ audio_pairs src dest) :
    (c.1 ∈ src.out_ports ∧ c.1.id.type = PortType.TYPE_AUDIO) ∧
      (c.2 ∈ dest.in_ports ∧ c.2.id.type = PortType.TYPE_AUDIO) := by
  unfold audio_pairs at hc
  split_ifs at hc
  · exact first_audio_pair_mem hc
  · exact fan_out_pairs_mem hc
  · exact first_audio_pair_mem hc
  · exact pairwise_audio_pairs_mem hc
  · simp at hc

theorem all_event_pairs_mem {outs ins : List Port} {c : Call} :
    c ∈ all_event_pairs outs ins ↔
      (c.1 ∈ outs ∧ c.1.id.type = PortType.TYPE_EVENT) ∧
        (c.2 ∈ ins ∧ c.2.id.type = PortType.TYPE_EVENT) := by
  obtain ⟨a, b⟩ := c
  simp only [all_event_pairs, List.mem_flatMap, List.mem_map, Prod.mk.injEq,
    mem_ports_of_type]
  constructor
  · rintro ⟨o, ho, i, hi, rfl, rfl⟩
    exact ⟨ho, hi⟩
  · rintro ⟨ho, hi⟩
    exact ⟨a, ho, b, hi, rfl, rfl⟩

theorem audio_calls_append_event {A E : List Call}
    (hA : ∀ c ∈ A, c.1.id.type = PortType.TYPE_AUDIO)
    (hE : ∀ c ∈ E, c.1.id.type = PortType.TYPE_EVENT ∧
      c.2.id.type = PortType.TYPE_EVENT) :
    audio_calls (A ++ E) = A := by
  unfold audio_calls
  rw [List.filter_append, List.filter_eq_self.mpr, List.filter_eq_nil_iff.mpr,
    List.append_nil]
  · intro c hc
    have := hE c hc
    simp [call_has_type, this.1, this.2]
  · intro c hc
    simp [call_has_type, hA c hc]

theorem event_calls_append_event {A E : List Call}
    (hA : ∀ c ∈ A, c.1.id.type = PortType.TYPE_AUDIO ∧
      c.2.id.type = PortType.TYPE_AUDIO)
    (hE : ∀ c ∈ E, c.1.id.type = PortType.TYPE_EVENT) :
    event_calls (A ++ E) = E := by
  unfold event_calls
  rw [List.filter_append, List.filter_eq_nil_iff.mpr, List.filter_eq_self.mpr,
    List.nil_append]
  · intro c hc
    simp [call_has_type, hE c hc]
  · intro c hc
    have := hA c hc
    simp [call_has_type, this.1, this.2]

theorem audio_calls_connect (src dest : Plugin) :
    audio_calls (plugin_connect_to_plugin_calls src dest) =
      audio_pairs src dest := by
  rw [plugin_connect_to_plugin_calls_eq]
  exact audio_calls_append_event (fun c hc => (audio_pairs_mem hc).1.2)
    (fun c hc => ⟨(fan_out_pairs_mem hc).1.2, (fan_out_pairs_mem hc).2.2⟩)

theorem event_calls_connect (src dest : Plugin) :
    event_calls (plugin_connect_to_plugin_calls src dest) =
      fan_out_pairs PortType.TYPE_EVENT src.out_ports dest.in_ports := by
  rw [plugin_connect_to_plugin_calls_eq]
  exact event_calls_append_event
    (fun c hc => ⟨(audio_pairs_mem hc).1.2, (audio_pairs_mem hc).2.2⟩)
    (fun c hc => (fan_out_pairs_mem hc).1.2)

/-! ## Lemmas: the disconnection loops -/

section DisconnectLemmas

variable {σ : Type}

theorem disconnect_mono_mono_inner_eq (disc : Port → Port → σ → σ) (o : Port)
    (ins : List Port) (s : σ) :
    disconnect_mono_mono_inner disc o ins s =
      connect_mono_mono_inner disc o ins s := by
  induction ins with
  | nil => rfl
  | cons i rest ih => simp [disconnect_mono_mono_inner, connect_mono_mono_inner, ih]

theorem disconnect_mono_mono_eq (disc : Port → Port → σ → σ)
    (ins outs : List Port) (s : σ) :
    disconnect_mono_mono disc ins outs s =
      run_calls disc (first_audio_pair outs ins) s := by
  rw [← connect_mono_mono_eq]
  induction outs generalizing s with
  | nil => rfl
  | cons o rest ih =>
    simp [disconnect_mono_mono, connect_mono_mono, ih,
      disconnect_mono_mono_inner_eq]

theorem disconnect_all_inner_eq (disc : Port → Port → σ → σ) (t : PortType)
    (o : Port) (ins : List Port) (s : σ) :
    disconnect_all_inner disc t o ins s =
      run_calls disc ((ports_of_type t ins).map (fun i => (o, i))) s := by
  rw [← connect_fan_out_inner_eq]
  induction ins generalizing s with
  | nil => rfl
  | cons i rest ih => simp [disconnect_all_inner, connect_fan_out_inner, ih]

theorem disconnect_mono_multi_eq (disc : Port → Port → σ → σ)
    (ins outs : List Port) (s : σ) :
    disconnect_mono_multi disc ins outs s =
      run_calls disc (fan_out_pairs PortType.TYPE_AUDIO outs ins) s := by
  induction outs with
  | nil => rfl
  | cons o rest ih =>
    by_cases h : o.id.type = PortType.TYPE_AUDIO
    · simp [disconnect_mono_multi, h, fan_out_pairs, ports_of_type_cons_pos,
        disconnect_all_inner_eq]
    · simpa [disconnect_mono_multi, h, fan_out_pairs, ports_of_type_cons_neg]
        using ih

theorem disconnect_multi_mono_inner_eq (disc : Port → Port → σ → σ) (i : Port)
    (outs : List Port) (s : σ) :
    disconnect_multi_mono_inner disc i outs s =
      connect_multi_mono_inner disc i outs s := by
  induction outs with
  | nil => rfl
  | cons o rest ih => simp [disconnect_multi_mono_inner, connect_multi_mono_inner, ih]

theorem disconnect_multi_mono_eq (disc : Port → Port → σ → σ)
    (outs ins : List Port) (s : σ) :
    disconnect_multi_mono disc outs ins s =
      run_calls disc (first_audio_pair outs ins) s := by
  rw [← connect_multi_mono_eq]
  induction ins with
  | nil => rfl
  | cons i rest ih =>
    simp [disconnect_multi_mono, connect_multi_mono, ih,
      disconnect_multi_mono_inner_eq]

theorem disconnect_multi_multi_inner_eq (disc : Port → Port → σ → σ) (o : Port)
    (ins : List Port) (s : σ) :
    disconnect_multi_multi_inner disc o ins s =
      connect_multi_multi_inner disc o ins s := by
  induction ins with
  | nil => rfl
  | cons i rest ih =>
    simp [disconnect_multi_multi_inner, connect_multi_multi_inner, ih]

theorem disconnect_multi_multi_eq (disc : Port → Port → σ → σ) (num : Int)
    (outs ins : List Port) (pc : Int) (s : σ) :
    disconnect_multi_multi disc num outs ins pc s =
      connect_multi_multi disc num outs ins pc s := by
  induction outs generalizing ins pc s with
  | nil => rfl
  | cons o rest ih =>
    simp [disconnect_multi_multi, connect_multi_multi, ih,
      disconnect_multi_multi_inner_eq]

theorem disconnect_midi_eq (disc : Port → Port → σ → σ)
    (ins outs : List Port) (s : σ) :
    disconnect_midi disc ins outs s =
      run_calls disc (all_event_pairs outs ins) s := by
  induction outs generalizing s with
  | nil => rfl
  | cons o rest ih =>
    by_cases h : o.id.type = PortType.TYPE_EVENT
    · simp [disconnect_midi, h, all_event_pairs, ports_of_type_cons_pos,
        disconnect_all_inner_eq, run_calls_append, ih]
    · simpa [disconnect_midi, h, all_event_pairs, ports_of_type_cons_neg]
        using ih s

theorem plugin_disconnect_from_plugin_audio_eq (disc : Port → Port → σ → σ)
    (src dest : Plugin) (s : σ) :
    plugin_disconnect_from_plugin_audio disc src dest s =
      run_calls disc (audio_pairs src dest) s := by
  unfold plugin_disconnect_from_plugin_audio audio_pairs
  split_ifs with h1 h2 h3 h4
  · exact disconnect_mono_mono_eq disc _ _ s
  · exact disconnect_mono_multi_eq disc _ _ s
  · exact disconnect_multi_mono_eq disc _ _ s
  · rw [disconnect_multi_multi_eq]
    have := connect_multi_multi_eq disc
      (min src.descr.num_audio_outs dest.descr.num_audio_ins)
      src.out_ports dest.in_ports 0 s (by omega)
    simpa using this
  · rfl

theorem plugin_disconnect_from_plugin_eq (disc : Port → Port → σ → σ)
    (src dest : Plugin) (s : σ) :
    plugin_disconnect_from_plugin disc src dest s =
      run_calls disc
        (audio_pairs src dest ++ all_event_pairs src.out_ports dest.in_ports)
        s := by
  rw [plugin_disconnect_from_plugin, disconnect_midi_eq,
    plugin_disconnect_from_plugin_audio_eq, run_calls_append]

theorem plugin_disconnect_from_plugin_calls_eq (src dest : Plugin) :
    plugin_disconnect_from_plugin_calls src dest =
      audio_pairs src dest ++ all_event_pairs src.out_ports dest.in_ports := by
  rw [plugin_disconnect_from_plugin_calls, plugin_disconnect_from_plugin_eq,
    run_calls_record, List.nil_append]

end DisconnectLemmas

/-! ## Lemmas: effect of a run of calls on the port graph -/

theorem run_calls_disconnect (ds : List Call) (g : Graph) :
    run_calls port_disconnect_stmt ds g =
      g.filter (fun e => !decide ((e.src, e.dest) ∈ ds)) := by
  induction ds generalizing g with
  | nil => simp [run_calls]
  | cons d ds ih =>
    rw [run_calls_cons, ih, port_disconnect_stmt, port_disconnect,
      List.filter_filter]
    congr 1
    funext e
    obtain ⟨a, b⟩ := d
    by_cases h1 : e.src = a ∧ e.dest = b
    · simp [h1.1, h1.2]
    · have h2 : ¬ (e.src = a ∧ e.dest = b) := h1
      simp only [List.mem_cons, Prod.mk.injEq, h2, false_or, decide_False,
        Bool.not_false, Bool.and_true]

theorem port_connect_stmt_cases (a b : Port) (g : Graph) :
    port_connect_stmt a b g = g ∨
      port_connect_stmt a b g = g ++ [{ src := a, dest := b, locked := true }] := by
  unfold port_connect_stmt port_connect
  split_ifs
  · exact Or.inl rfl
  · exact Or.inr rfl

theorem run_calls_connect_grows (cs : List Call) (g : Graph) :
    ∃ added : Graph, run_calls port_connect_stmt cs g = g ++ added ∧
      ∀ e ∈ added, (e.src, e.dest) ∈ cs := by
  induction cs generalizing g with
  | nil => exact ⟨[], by simp [run_calls], by simp⟩
  | cons c cs ih =>
    rw [run_calls_cons]
    rcases port_connect_stmt_cases c.1 c.2 g with h | h
    · obtain ⟨added, h1, h2⟩ := ih g
      refine ⟨added, by rw [h, h1], ?_⟩
      intro e he
      exact List.mem_cons_of_mem _ (h2 e he)
    · obtain ⟨added, h1, h2⟩ := ih (g ++ [{ src := c.1, dest := c.2, locked := true }])
      refine ⟨{ src := c.1, dest := c.2, locked := true } :: added, ?_, ?_⟩
      · rw [h, h1, List.append_assoc, List.singleton_append]
      · intro e he
        rcases List.mem_cons.mp he with rfl | he
        · exact List.mem_cons_self _ _
        · exact List.mem_cons_of_mem _ (h2 e he)

theorem port_connect_stmt_inserts (a b : Port) (g : Graph)
    (hown : same_owner a b = false) (hctl : b.id.type ≠ PortType.TYPE_CONTROL)
    (hnew : ∀ e ∈ g, ¬ (e.src = a ∧ e.dest = b)) :
    port_connect_stmt a b g = g ++ [{ src := a, dest := b, locked := true }] := by
  have h1 : ports_connected g a b = false := by
    simp only [ports_connected, List.any_eq_false, decide_eq_true_eq]
    exact hnew
  have h2 : driven_by_other g a b = false := by
    simp [driven_by_other, hctl]
  simp [port_connect_stmt, port_connect, hown, h1, h2]

theorem run_calls_connect_exact (cs : List Call) (g : Graph) (hnd : cs.Nodup)
    (hown : ∀ c ∈ cs, same_owner c.1 c.2 = false)
    (hctl : ∀ c ∈ cs, c.2.id.type ≠ PortType.TYPE_CONTROL)
    (hnew : ∀ c ∈ cs, ∀ e ∈ g, ¬ (e.src = c.1 ∧ e.dest = c.2)) :
    run_calls port_connect_stmt cs g =
      g ++ cs.map (fun c => { src := c.1, dest := c.2, locked := true }) := by
  induction cs generalizing g with
  | nil => simp [run_calls]
  | cons c cs ih =>
    have hc := List.nodup_cons.mp hnd
    rw [run_calls_cons,
      port_connect_stmt_inserts c.1 c.2 g (hown c (List.mem_cons_self _ _))
        (hctl c (List.mem_cons_self _ _)) (hnew c (List.mem_cons_self _ _)),
      ih _ hc.2 (fun d hd => hown d (List.mem_cons_of_mem _ hd))
        (fun d hd => hctl d (List.mem_cons_of_mem _ hd))]
    · simp
    · intro d hd e he
      rcases List.mem_append.mp he with he | he
      · exact hnew d (List.mem_cons_of_mem _ hd) e he
      · rw [List.mem_singleton] at he
        subst he
        rintro ⟨h1, h2⟩
        apply hc.1
        have : c = d := Prod.ext h1 h2
        rw [this]
        exact hd

theorem nodup_zip_of_left {l₁ l₂ : List Port} (h : l₁.Nodup) :
    (l₁.zip l₂).Nodup := by
  induction l₁ generalizing l₂ with
  | nil => simp
  | cons a as ih =>
    cases l₂ with
    | nil => simp
    | cons b bs =>
      have ha := List.nodup_cons.mp h
      rw [List.zip_cons_cons, List.nodup_cons]
      exact ⟨fun hm => ha.1 (List.of_mem_zip hm).1, ih ha.2⟩

theorem ports_of_type_nodup {t : PortType} {ps : List Port} (h : ps.Nodup) :
    (ports_of_type t ps).Nodup :=
  List.Nodup.filter _ h

theorem fan_out_pairs_nodup {t : PortType} {outs ins : List Port}
    (h : ins.Nodup) : (fan_out_pairs t outs ins).Nodup := by
  unfold fan_out_pairs
  split
  · exact List.nodup_nil
  · exact List.Nodup.map (fun x y hxy => (Prod.mk.inj hxy).2) (ports_of_type_nodup h)

theorem first_audio_pair_nodup (outs ins : List Port) :
    (first_audio_pair outs ins).Nodup := by
  unfold first_audio_pair
  split <;> simp

theorem audio_pairs_nodup {src dest : Plugin} (hs : src.out_ports.Nodup)
    (hd : dest.in_ports.Nodup) : (audio_pairs src dest).Nodup := by
  unfold audio_pairs
  split_ifs
  · exact first_audio_pair_nodup _ _
  · exact fan_out_pairs_nodup hd
  · exact first_audio_pair_nodup _ _
  · exact List.Nodup.sublist (List.take_sublist _ _)
      (nodup_zip_of_left (ports_of_type_nodup hs))
  · exact List.nodup_nil

theorem connect_calls_nodup {src dest : Plugin} (hs : src.out_ports.Nodup)
    (hd : dest.in_ports.Nodup) :
    (plugin_connect_to_plugin_calls src dest).Nodup := by
  rw [plugin_connect_to_plugin_calls_eq, List.nodup_append]
  refine ⟨audio_pairs_nodup hs hd, fan_out_pairs_nodup hd, ?_⟩
  intro c hc1 hc2
  have h1 := (audio_pairs_mem hc1).1.2
  have h2 := (fan_out_pairs_mem hc2).1.2
  rw [h1] at h2
  exact PortType.noConfusion h2

theorem connect_calls_mem {src dest : Plugin} {c : Call}
    (hc : c ∈ plugin_connect_to_plugin_calls src dest) :
    c.1 ∈ src.out_ports ∧ c.2 ∈ dest.in_ports ∧
      c.2.id.type ≠ PortType.TYPE_CONTROL := by
  rw [plugin_connect_to_plugin_calls_eq] at hc
  rcases List.mem_append.mp hc with h | h
  · have := audio_pairs_mem h
    refine ⟨this.1.1, this.2.1, ?_⟩
    rw [this.2.2]
    decide
  · have := fan_out_pairs_mem h
    refine ⟨this.1.1, this.2.1, ?_⟩
    rw [this.2.2]
    decide

theorem not_same_owner {src dest : Plugin} {a b : Port}
    (ha : port_owned_by src a) (hb : port_owned_by dest b)
    (hne : ¬ (src.id.track_pos = dest.id.track_pos ∧ src.id.slot = dest.id.slot)) :
    same_owner a b = false := by
  unfold same_owner
  rw [decide_eq_false_iff_not]
  rintro ⟨_, h2, h3⟩
  apply hne
  rw [← ha.2.1, ← ha.2.2, ← hb.2.1, ← hb.2.2]
  exact ⟨h2, h3⟩

/-- On well-formed plugins at different positions, and a graph without an edge
from an output of `src` to an input of `dest`, every call of
`plugin_connect_to_plugin` inserts its edge. -/
theorem plugin_connect_to_plugin_graph (src dest : Plugin) (g : Graph)
    (hsrc : plugin_ports_wf src) (hdest : plugin_ports_wf dest)
    (hne : ¬ (src.id.track_pos = dest.id.track_pos ∧ src.id.slot = dest.id.slot))
    (hg : ∀ e ∈ g, ¬ (e.src ∈ src.out_ports ∧ e.dest ∈ dest.in_ports)) :
    plugin_connect_to_plugin port_connect_stmt src dest g =
      g ++ (plugin_connect_to_plugin_calls src dest).map
        (fun c => { src := c.1, dest := c.2, locked := true }) := by
  rw [plugin_connect_to_plugin_eq, ← plugin_connect_to_plugin_calls_eq]
  apply run_calls_connect_exact
  · exact connect_calls_nodup hsrc.2.1 hdest.1
  · intro c hc
    have := connect_calls_mem hc
    exact not_same_owner (hsrc.2.2.2 _ this.1) (hdest.2.2.1 _ this.2.1) hne
  · intro c hc
    exact (connect_calls_mem hc).2.2
  · intro c hc e he h
    have := connect_calls_mem hc
    exact hg e he ⟨h.1 ▸ this.1, h.2 ▸ this.2.1⟩

theorem first_audio_pair_length {outs ins : List Port}
    (ho : 0 < (ports_of_type PortType.TYPE_AUDIO outs).length)
    (hi : 0 < (ports_of_type PortType.TYPE_AUDIO ins).length) :
    (first_audio_pair outs ins).length = 1 := by
  unfold first_audio_pair
  cases h1 : ports_of_type PortType.TYPE_AUDIO outs with
  | nil => simp [h1] at ho
  | cons o os =>
    cases h2 : ports_of_type PortType.TYPE_AUDIO ins with
    | nil => simp [h2] at hi
    | cons i is => rfl

theorem fan_out_pairs_length {t : PortType} {outs ins : List Port}
    (ho : 0 < (ports_of_type t outs).length) :
    (fan_out_pairs t outs ins).length = (ports_of_type t ins).length := by
  unfold fan_out_pairs
  cases h1 : ports_of_type t outs with
  | nil => simp [h1] at ho
  | cons o os => simp

theorem fan_out_pairs_nil {t : PortType} {outs ins : List Port}
    (h : ports_of_type t outs = []) : fan_out_pairs t outs ins = [] := by
  unfold fan_out_pairs
  rw [h]

theorem pairwise_audio_pairs_length (n : Nat) (outs ins : List Port) :
    (pairwise_audio_pairs n outs ins).length =
      min n (min (ports_of_type PortType.TYPE_AUDIO outs).length
        (ports_of_type PortType.TYPE_AUDIO ins).length) := by
  simp [pairwise_audio_pairs, List.length_take, List.length_zip]

/-! ## Lemmas: the prefader loops -/

section PrefaderLemmas

variable {σ : Type}

theorem connect_to_prefader_event_eq (conn : Port → Port → σ → σ)
    (target : Port) (outs : List Port) (s : σ) :
    connect_to_prefader_event conn target outs s =
      run_calls conn
        ((outs.filter (fun p => decide (p.id.type = PortType.TYPE_EVENT ∧
            p.id.flow = PortFlow.FLOW_OUTPUT))).map (fun o => (o, target))) s := by
  induction outs generalizing s with
  | nil => rfl
  | cons o rest ih =>
    by_cases h : o.id.type = PortType.TYPE_EVENT ∧ o.id.flow = PortFlow.FLOW_OUTPUT
    · rw [connect_to_prefader_event, if_pos h, ih, List.filter_cons_of_pos (by simpa using h)]
      rfl
    · rw [connect_to_prefader_event, if_neg h, ih, List.filter_cons_of_neg (by simpa using h)]

theorem connect_to_prefader_mono_eq (conn : Port → Port → σ → σ)
    (stereo_in : StereoPorts) (outs : List Port) (s : σ) :
    connect_to_prefader_mono conn stereo_in outs s =
      run_calls conn
        (match ports_of_type PortType.TYPE_AUDIO outs with
         | [] => []
         | o :: _ => [(o, stereo_in.l), (o, stereo_in.r)]) s := by
  induction outs with
  | nil => rfl
  | cons o rest ih =>
    by_cases h : o.id.type = PortType.TYPE_AUDIO
    · simp [connect_to_prefader_mono, h, ports_of_type_cons_pos, run_calls]
    · simpa [connect_to_prefader_mono, h, ports_of_type_cons_neg] using ih

theorem connect_to_prefader_stereo_one_eq (conn : Port → Port → σ → σ)
    (stereo_in : StereoPorts) (outs : List Port) (s : σ) :
    connect_to_prefader_stereo conn stereo_in outs 1 s =
      run_calls conn
        (match ports_of_type PortType.TYPE_AUDIO outs with
         | [] => []
         | o :: _ => [(o, stereo_in.r)]) s := by
  induction outs with
  | nil => rfl
  | cons o rest ih =>
    by_cases h : o.id.type = PortType.TYPE_AUDIO
    · simp [connect_to_prefader_stereo, h, ports_of_type_cons_pos, run_calls]
    · simpa [connect_to_prefader_stereo, h, ports_of_type_cons_neg] using ih

theorem connect_to_prefader_stereo_eq (conn : Port → Port → σ → σ)
    (stereo_in : StereoPorts) (outs : List Port) (s : σ) :
    connect_to_prefader_stereo conn stereo_in outs 0 s =
      run_calls conn
        (match ports_of_type PortType.TYPE_AUDIO outs with
         | [] => []
         | [a] => [(a, stereo_in.l)]
         | a :: b :: _ => [(a, stereo_in.l), (b, stereo_in.r)]) s := by
  induction outs with
  | nil => rfl
  | cons o rest ih =>
    by_cases h : o.id.type = PortType.TYPE_AUDIO
    · rw [connect_to_prefader_stereo, if_neg (by simp [h]), if_pos rfl,
        ports_of_type_cons_pos _ h]
      have h01 : (0 : Int) + 1 = 1 := rfl
      rw [h01, connect_to_prefader_stereo_one_eq]
      cases ports_of_type PortType.TYPE_AUDIO rest with
      | nil => rfl
      | cons b bs => rfl
    · rw [connect_to_prefader_stereo, if_pos (by simp [h]), ih,
        ports_of_type_cons_neg _ h]

end PrefaderLemmas

theorem audio_pairs_length (src dest : Plugin) (a b : Nat)
    (ha : 1 ≤ a) (hb : 1 ≤ b)
    (hdecl_out : src.descr.num_audio_outs = a)
    (hout : (ports_of_type PortType.TYPE_AUDIO src.out_ports).length = a)
    (hdecl_in : dest.descr.num_audio_ins = b)
    (hin : (ports_of_type PortType.TYPE_AUDIO dest.in_ports).length = b) :
    (audio_pairs src dest).length = if a = 1 then b else min a b := by
  unfold audio_pairs
  split_ifs with h1 h2 h3 h4 h5 h6 h7 h8
  all_goals first
    | (rw [first_audio_pair_length (by omega) (by omega)]; omega)
    | (rw [fan_out_pairs_length (by omega)]; omega)
    | (rw [pairwise_audio_pairs_length]; omega)
    | (exfalso; omega)

theorem connect_calls_subset_disconnect_calls (src dest : Plugin) (c : Call)
    (hc : c ∈ plugin_connect_to_plugin_calls src dest) :
    c ∈ plugin_disconnect_from_plugin_calls src dest := by
  rw [plugin_connect_to_plugin_calls_eq] at hc
  rw [plugin_disconnect_from_plugin_calls_eq]
  rcases List.mem_append.mp hc with h | h
  · exact List.mem_append_left _ h
  · exact List.mem_append_right _ (all_event_pairs_mem.mpr (fan_out_pairs_mem h))

theorem disconnect_calls_mem {src dest : Plugin} {c : Call}
    (hc : c ∈ plugin_disconnect_from_plugin_calls src dest) :
    c.1 ∈ src.out_ports ∧ c.2 ∈ dest.in_ports := by
  rw [plugin_disconnect_from_plugin_calls_eq] at hc
  rcases List.mem_append.mp hc with h | h
  · exact ⟨(audio_pairs_mem h).1.1, (audio_pairs_mem h).2.1⟩
  · exact ⟨(all_event_pairs_mem.mp h).1.1, (all_event_pairs_mem.mp h).2.1⟩

/-! ## Plugin-to-plugin wiring: the four audio policies and the MIDI rule -/

/-- C1: when `src` declares more than one audio output and `dest` declares
more than one audio input, the audio connections issued by
`plugin_connect_to_plugin` are exactly the pairs (k-th audio port of
`src.out_ports`, k-th audio port of `dest.in_ports`) for `k < n`, in order,
where `n` is the minimum of the two declared counts and of the numbers of
audio outputs and audio inputs present.  Their number is `n`, it never exceeds
`min (num_audio_outs, num_audio_ins)`, and no further audio output or input
takes part in a connection. -/
theorem plugin_connect_to_plugin_multi_to_multi (src dest : Plugin)
    (hout : src.descr.num_audio_outs > 1) (hin : dest.descr.num_audio_ins > 1) :
    let outs := ports_of_type PortType.TYPE_AUDIO src.out_ports
    let ins := ports_of_type PortType.TYPE_AUDIO dest.in_ports
    let n := min (min src.descr.num_audio_outs.toNat dest.descr.num_audio_ins.toNat)
      (min outs.length ins.length)
    audio_calls (plugin_connect_to_plugin_calls src dest) =
        (outs.take n).zip (ins.take n) ∧
      (audio_calls (plugin_connect_to_plugin_calls src dest)).length = n ∧
      ((audio_calls (plugin_connect_to_plugin_calls src dest)).length : Int) ≤
        min src.descr.num_audio_outs dest.descr.num_audio_ins := by
  intro outs ins n
  have hcalls : audio_calls (plugin_connect_to_plugin_calls src dest) =
      (outs.take n).zip (ins.take n) := by
    rw [audio_calls_connect, audio_pairs, if_neg (by omega), if_neg (by omega),
      if_neg (by omega), if_pos ⟨hout, hin⟩, pairwise_audio_pairs]
    have hz : (outs.take n).zip (ins.take n) = (outs.zip ins).take n := by
      rw [List.zip_eq_zipWith, List.zip_eq_zipWith, List.take_zipWith]
    rw [hz, List.take_eq_take, List.length_zip]
    show min _ (min outs.length ins.length) = min n (min outs.length ins.length)
    omega
  have hlen : ((outs.take n).zip (ins.take n)).length = n := by
    rw [List.length_zip, List.length_take, List.length_take]
    omega
  refine ⟨hcalls, by rw [hcalls, hlen], ?_⟩
  rw [hcalls, hlen]
  omega

/-- Witness for C1: three declared audio outputs against two declared audio
inputs give the two pairs (first, first) and (second, second). -/
theorem plugin_connect_to_plugin_multi_to_multi_witness :
    audio_calls (plugin_connect_to_plugin_calls example_src3 example_dest2) =
      [(example_port PortType.TYPE_AUDIO PortFlow.FLOW_OUTPUT 0 0,
          example_port PortType.TYPE_AUDIO PortFlow.FLOW_INPUT 1 1),
       (example_port PortType.TYPE_AUDIO PortFlow.FLOW_OUTPUT 0 2,
          example_port PortType.TYPE_AUDIO PortFlow.FLOW_INPUT 1 3)] :=
  (plugin_connect_to_plugin_multi_to_multi example_src3 example_dest2
    (by decide) (by decide)).1.trans (by decide)

/-- C2: when `src` declares exactly one audio output and `dest` declares more
than one audio input, the audio connections issued by
`plugin_connect_to_plugin` are the first audio port of `src.out_ports` paired
with every audio port of `dest.in_ports`, one call per audio input in array
order; no audio connection leaves any other output of `src`. -/
theorem plugin_connect_to_plugin_mono_to_multi (src dest : Plugin)
    (hout : src.descr.num_audio_outs = 1) (hin : dest.descr.num_audio_ins > 1) :
    audio_calls (plugin_connect_to_plugin_calls src dest) =
        (match ports_of_type PortType.TYPE_AUDIO src.out_ports with
         | [] => []
         | o :: _ =>
           (ports_of_type PortType.TYPE_AUDIO dest.in_ports).map (fun i => (o, i))) ∧
      ∀ c ∈ audio_calls (plugin_connect_to_plugin_calls src dest),
        (ports_of_type PortType.TYPE_AUDIO src.out_ports).head? = some c.1 := by
  have hcalls : audio_calls (plugin_connect_to_plugin_calls src dest) =
      fan_out_pairs PortType.TYPE_AUDIO src.out_ports dest.in_ports := by
    rw [audio_calls_connect, audio_pairs, if_neg (by omega), if_pos ⟨hout, hin⟩]
  refine ⟨by rw [hcalls]; rfl, ?_⟩
  rw [hcalls]
  intro c hc
  unfold fan_out_pairs at hc
  cases h : ports_of_type PortType.TYPE_AUDIO src.out_ports with
  | nil => simp [h] at hc
  | cons o os =>
    simp only [h, List.mem_map] at hc
    obtain ⟨i, _, rfl⟩ := hc
    rfl

/-- Witness for C2: the single audio output goes to both audio inputs. -/
theorem plugin_connect_to_plugin_mono_to_multi_witness :
    audio_calls (plugin_connect_to_plugin_calls example_src1 example_dest2) =
      [(example_port PortType.TYPE_AUDIO PortFlow.FLOW_OUTPUT 0 0,
          example_port PortType.TYPE_AUDIO PortFlow.FLOW_INPUT 1 1),
       (example_port PortType.TYPE_AUDIO PortFlow.FLOW_OUTPUT 0 0,
          example_port PortType.TYPE_AUDIO PortFlow.FLOW_INPUT 1 3)] :=
  (plugin_connect_to_plugin_mono_to_multi example_src1 example_dest2
    (by decide) (by decide)).1.trans (by decide)

/-- C3: when `src` declares at least one audio output and `dest` declares
exactly one audio input, `plugin_connect_to_plugin` issues at most one audio
connection; when `src` has an audio output and `dest` has an audio input it is
the pair (first audio port of `src.out_ports`, first audio port of
`dest.in_ports`), and otherwise there is none.  The loop of the mono-to-mono
branch and the loop of the multi-to-mono branch issue the same calls. -/
theorem plugin_connect_to_plugin_to_mono (src dest : Plugin)
    (hout : src.descr.num_audio_outs ≥ 1) (hin : dest.descr.num_audio_ins = 1) :
    audio_calls (plugin_connect_to_plugin_calls src dest) =
        (match ports_of_type PortType.TYPE_AUDIO src.out_ports,
            ports_of_type PortType.TYPE_AUDIO dest.in_ports with
         | o :: _, i :: _ => [(o, i)]
         | _, _ => []) ∧
      (audio_calls (plugin_connect_to_plugin_calls src dest)).length ≤ 1 ∧
      connect_mono_mono record_call dest.in_ports src.out_ports [] =
        connect_multi_mono record_call src.out_ports dest.in_ports [] := by
  have hcalls : audio_calls (plugin_connect_to_plugin_calls src dest) =
      first_audio_pair src.out_ports dest.in_ports := by
    rw [audio_calls_connect, audio_pairs]
    by_cases h1 : src.descr.num_audio_outs = 1
    · rw [if_pos ⟨h1, hin⟩]
    · rw [if_neg (by omega), if_neg (by omega), if_pos ⟨by omega, hin⟩]
  refine ⟨by rw [hcalls]; rfl, ?_, ?_⟩
  · rw [hcalls]
    unfold first_audio_pair
    split <;> simp
  · rw [connect_mono_mono_eq, connect_multi_mono_eq]

/-- Witness for C3: three declared audio outputs against one declared audio
input give the single pair (first audio output, first audio input). -/
theorem plugin_connect_to_plugin_to_mono_witness :
    audio_calls (plugin_connect_to_plugin_calls example_src3 example_dest1) =
      [(example_port PortType.TYPE_AUDIO PortFlow.FLOW_OUTPUT 0 0,
          example_port PortType.TYPE_AUDIO PortFlow.FLOW_INPUT 1 1)] :=
  (plugin_connect_to_plugin_to_mono example_src3 example_dest1
    (by decide) (by decide)).1.trans (by decide)

/-- C4: whatever the declared audio counts, the event connections issued by
`plugin_connect_to_plugin` are the first event port of `src.out_ports` paired
with every event port of `dest.in_ports`, in array order; no event connection
leaves a later event output of `src`. -/
theorem plugin_connect_to_plugin_event_fan_out (src dest : Plugin) :
    event_calls (plugin_connect_to_plugin_calls src dest) =
        (match ports_of_type PortType.TYPE_EVENT src.out_ports with
         | [] => []
         | o :: _ =>
           (ports_of_type PortType.TYPE_EVENT dest.in_ports).map (fun i => (o, i))) ∧
      ∀ c ∈ event_calls (plugin_connect_to_plugin_calls src dest),
        (ports_of_type PortType.TYPE_EVENT src.out_ports).head? = some c.1 := by
  rw [event_calls_connect]
  refine ⟨rfl, ?_⟩
  intro c hc
  unfold fan_out_pairs at hc
  cases h : ports_of_type PortType.TYPE_EVENT src.out_ports with
  | nil => simp [h] at hc
  | cons o os =>
    simp only [h, List.mem_map] at hc
    obtain ⟨i, _, rfl⟩ := hc
    rfl

/-- C5: for declared and present audio counts `(a, b)` among (1,1), (1,2),
(2,1), (2,2), (3,2), on two well-formed plugins at different positions without
event ports and on the empty graph, `plugin_connect_to_plugin (src, dest)`
adds exactly 1, 2, 1, 2 and 2 edges respectively. -/
theorem plugin_connect_to_plugin_edge_counts (src dest : Plugin) (a b : Nat)
    (hab : (a, b) ∈ [(1, 1), (1, 2), (2, 1), (2, 2), (3, 2)])
    (hsrc : plugin_ports_wf src) (hdest : plugin_ports_wf dest)
    (hne : ¬ (src.id.track_pos = dest.id.track_pos ∧ src.id.slot = dest.id.slot))
    (hdecl_out : src.descr.num_audio_outs = a)
    (hout : (ports_of_type PortType.TYPE_AUDIO src.out_ports).length = a)
    (hdecl_in : dest.descr.num_audio_ins = b)
    (hin : (ports_of_type PortType.TYPE_AUDIO dest.in_ports).length = b)
    (hev_src : has_no_event_ports src) (_hev_dest : has_no_event_ports dest) :
    (a, b, (plugin_connect_to_plugin port_connect_stmt src dest []).length) ∈
      [(1, 1, 1), (1, 2, 2), (2, 1, 1), (2, 2, 2), (3, 2, 2)] := by
  have hgraph := plugin_connect_to_plugin_graph src dest [] hsrc hdest hne
    (by simp)
  have hlen : (plugin_connect_to_plugin port_connect_stmt src dest []).length =
      (audio_pairs src dest).length := by
    rw [hgraph, plugin_connect_to_plugin_calls_eq, fan_out_pairs_nil hev_src.2]
    simp
  simp only [List.mem_cons, Prod.mk.injEq, List.mem_singleton, List.not_mem_nil,
    or_false] at hab
  rcases hab with ⟨rfl, rfl⟩ | ⟨rfl, rfl⟩ | ⟨rfl, rfl⟩ | ⟨rfl, rfl⟩ | ⟨rfl, rfl⟩
  all_goals
    rw [hlen, audio_pairs_length src dest _ _ (by decide) (by decide) hdecl_out
      hout hdecl_in hin]
    decide

/-- Witness for C5: a stereo source wired to a stereo destination adds 2
edges. -/
theorem plugin_connect_to_plugin_edge_counts_witness :
    (2, 2, (plugin_connect_to_plugin port_connect_stmt example_stereo_source
        example_stereo_destination []).length) ∈
        [(1, 1, 1), (1, 2, 2), (2, 1, 1), (2, 2, 2), (3, 2, 2)] ∧
      (plugin_connect_to_plugin port_connect_stmt example_stereo_source
        example_stereo_destination []).length = 2 :=
  ⟨plugin_connect_to_plugin_edge_counts example_stereo_source
      example_stereo_destination 2 2 (by decide) (by decide) (by decide)
      (by decide) (by decide) (by decide) (by decide) (by decide) (by decide)
      (by decide),
    by decide⟩

/-! ## Disconnection against connection -/

/-- C6, counterexample: for a source with two event outputs,
`plugin_disconnect_from_plugin` issues `port_disconnect` on the pair (second
event output, event input of the destination), on which
`plugin_connect_to_plugin` issues no `port_connect`. -/
theorem disconnect_pairs_exceed_connect_pairs :
    (example_port PortType.TYPE_EVENT PortFlow.FLOW_OUTPUT 0 2,
        example_port PortType.TYPE_EVENT PortFlow.FLOW_INPUT 1 2) ∈
        plugin_disconnect_from_plugin_calls example_two_event_outs example_dest2 ∧
      (example_port PortType.TYPE_EVENT PortFlow.FLOW_OUTPUT 0 2,
        example_port PortType.TYPE_EVENT PortFlow.FLOW_INPUT 1 2) ∉
        plugin_connect_to_plugin_calls example_two_event_outs example_dest2 := by
  decide

/-- C6, as amended: `plugin_disconnect_from_plugin (src, dest)` issues
`port_disconnect` on every pair on which `plugin_connect_to_plugin (src, dest)`
issues `port_connect`; the audio pairs of the two routines are the same, in the
same order; the event pairs of the disconnection are all the pairs (event port
of `src.out_ports`, event port of `dest.in_ports`). -/
theorem plugin_disconnect_from_plugin_pairs (src dest : Plugin) :
    (∀ c, c ∈ plugin_connect_to_plugin_calls src dest →
        c ∈ plugin_disconnect_from_plugin_calls src dest) ∧
      audio_calls (plugin_disconnect_from_plugin_calls src dest) =
        audio_calls (plugin_connect_to_plugin_calls src dest) ∧
      event_calls (plugin_disconnect_from_plugin_calls src dest) =
        (ports_of_type PortType.TYPE_EVENT src.out_ports).flatMap
          (fun o => (ports_of_type PortType.TYPE_EVENT dest.in_ports).map
            (fun i => (o, i))) := by
  refine ⟨connect_calls_subset_disconnect_calls src dest, ?_, ?_⟩
  · rw [audio_calls_connect, plugin_disconnect_from_plugin_calls_eq]
    exact audio_calls_append_event (fun c hc => (audio_pairs_mem hc).1.2)
      (fun c hc => ⟨(all_event_pairs_mem.mp hc).1.2, (all_event_pairs_mem.mp hc).2.2⟩)
  · rw [plugin_disconnect_from_plugin_calls_eq]
    exact event_calls_append_event
      (fun c hc => ⟨(audio_pairs_mem hc).1.2, (audio_pairs_mem hc).2.2⟩)
      (fun c hc => (all_event_pairs_mem.mp hc).1.2)

/-- C7: on a graph without an edge from an output port of `src` to an input
port of `dest`, `plugin_connect_to_plugin (src, dest)` followed by
`plugin_disconnect_from_plugin (src, dest)` gives back the graph. -/
theorem connect_then_disconnect_plugin (g : Graph) (src dest : Plugin)
    (hg : ∀ e ∈ g, ¬ (e.src ∈ src.out_ports ∧ e.dest ∈ dest.in_ports)) :
    plugin_disconnect_from_plugin port_disconnect_stmt src dest
      (plugin_connect_to_plugin port_connect_stmt src dest g) = g := by
  rw [plugin_connect_to_plugin_eq, ← plugin_connect_to_plugin_calls_eq,
    plugin_disconnect_from_plugin_eq, ← plugin_disconnect_from_plugin_calls_eq,
    run_calls_disconnect]
  obtain ⟨added, h1, h2⟩ :=
    run_calls_connect_grows (plugin_connect_to_plugin_calls src dest) g
  rw [h1, List.filter_append, List.filter_eq_self.mpr, List.filter_eq_nil_iff.mpr,
    List.append_nil]
  · intro e he
    have := connect_calls_subset_disconnect_calls src dest _ (h2 e he)
    simp [this]
  · intro e he
    have hnot : (e.src, e.dest) ∉ plugin_disconnect_from_plugin_calls src dest :=
      fun hm => hg e he (disconnect_calls_mem hm)
    simp [hnot]

/-- Witness for C7: on a graph with one unrelated edge the connection changes
the graph and the disconnection gives it back. -/
theorem connect_then_disconnect_plugin_witness :
    plugin_connect_to_plugin port_connect_stmt example_src3 example_dest2
        example_graph ≠ example_graph ∧
      plugin_disconnect_from_plugin port_disconnect_stmt example_src3 example_dest2
        (plugin_connect_to_plugin port_connect_stmt example_src3 example_dest2
          example_graph) = example_graph :=
  ⟨by decide,
    connect_then_disconnect_plugin example_graph example_src3 example_dest2
      (by decide)⟩

/-! ## A mono effect between two stereo stages -/

/-- C8, counterexample: with a stereo source, a mono effect and a stereo
destination, none with event ports, wiring source to effect and then effect to
destination from the empty graph leaves 3 edges, not 2. -/
theorem mono_effect_edges_not_two :
    (plugin_connect_to_plugin port_connect_stmt example_mono_effect
        example_stereo_destination
        (plugin_connect_to_plugin port_connect_stmt example_stereo_source
          example_mono_effect [])).length = 3 ∧
      (plugin_connect_to_plugin port_connect_stmt example_mono_effect
        example_stereo_destination
        (plugin_connect_to_plugin port_connect_stmt example_stereo_source
          example_mono_effect [])).length ≠ 2 := by
  decide

/-- C8, as amended: for a well-formed source with 2 audio outputs
(`num_audio_outs = 2`), a well-formed mono effect with 1 audio input and 1
audio output, and a well-formed destination with 2 audio inputs
(`num_audio_ins = 2`), at different positions and none with event ports,
`plugin_connect_to_plugin (source, effect)` followed by
`plugin_connect_to_plugin (effect, destination)` from the empty graph produces
exactly 3 edges: one into the effect and two out of it. -/
theorem mono_effect_edges (source effect destination : Plugin)
    (hs : plugin_ports_wf source) (he : plugin_ports_wf effect)
    (hd : plugin_ports_wf destination)
    (hse : ¬ (source.id.track_pos = effect.id.track_pos ∧
      source.id.slot = effect.id.slot))
    (hed : ¬ (effect.id.track_pos = destination.id.track_pos ∧
      effect.id.slot = destination.id.slot))
    (hs_decl : source.descr.num_audio_outs = 2)
    (hs_outs : (ports_of_type PortType.TYPE_AUDIO source.out_ports).length = 2)
    (he_decl_in : effect.descr.num_audio_ins = 1)
    (he_ins : (ports_of_type PortType.TYPE_AUDIO effect.in_ports).length = 1)
    (he_decl_out : effect.descr.num_audio_outs = 1)
    (he_outs : (ports_of_type PortType.TYPE_AUDIO effect.out_ports).length = 1)
    (hd_decl : destination.descr.num_audio_ins = 2)
    (hd_ins : (ports_of_type PortType.TYPE_AUDIO destination.in_ports).length = 2)
    (hs_ev : has_no_event_ports source) (he_ev : has_no_event_ports effect)
    (_hd_ev : has_no_event_ports destination) :
    (plugin_connect_to_plugin port_connect_stmt source effect []).length = 1 ∧
      (plugin_connect_to_plugin port_connect_stmt effect destination
        (plugin_connect_to_plugin port_connect_stmt source effect [])).length = 3 := by
  have h1 := plugin_connect_to_plugin_graph source effect [] hs he hse (by simp)
  have hlen1 : (plugin_connect_to_plugin_calls source effect).length = 1 := by
    rw [plugin_connect_to_plugin_calls_eq, fan_out_pairs_nil hs_ev.2,
      List.append_nil,
      audio_pairs_length source effect 2 1 (by decide) (by decide) hs_decl hs_outs
        he_decl_in he_ins]
    decide
  have hlen2 : (plugin_connect_to_plugin_calls effect destination).length = 2 := by
    rw [plugin_connect_to_plugin_calls_eq, fan_out_pairs_nil he_ev.2,
      List.append_nil,
      audio_pairs_length effect destination 1 2 (by decide) (by decide)
        he_decl_out he_outs hd_decl hd_ins]
    decide
  have h2 := plugin_connect_to_plugin_graph effect destination
    (plugin_connect_to_plugin port_connect_stmt source effect []) he hd hed (by
      rw [h1]
      intro e hmem hboth
      simp only [List.nil_append, List.mem_map] at hmem
      obtain ⟨c, hc, rfl⟩ := hmem
      have hsrc_port := hs.2.2.2 _ (connect_calls_mem hc).1
      have heff_port := he.2.2.2 _ hboth.1
      exact hse ⟨hsrc_port.2.1.symm.trans heff_port.2.1,
        hsrc_port.2.2.symm.trans heff_port.2.2⟩)
  constructor
  · rw [h1]
    simp [hlen1]
  · rw [h2, h1]
    simp [hlen1, hlen2]

/-- Witness for C8 as amended, on the concrete stereo source, mono effect and
stereo destination. -/
theorem mono_effect_edges_witness :
    (plugin_connect_to_plugin port_connect_stmt example_stereo_source
        example_mono_effect []).length = 1 ∧
      (plugin_connect_to_plugin port_connect_stmt example_mono_effect
        example_stereo_destination
        (plugin_connect_to_plugin port_connect_stmt example_stereo_source
          example_mono_effect [])).length = 3 :=
  mono_effect_edges example_stereo_source example_mono_effect
    example_stereo_destination (by decide) (by decide) (by decide) (by decide)
    (by decide) (by decide) (by decide) (by decide) (by decide) (by decide)
    (by decide) (by decide) (by decide) (by decide) (by decide) (by decide)

/-! ## Wiring a plugin to the prefader of its channel -/

/-- C9: on a channel whose track outputs audio, with `num_audio_outs == 1`
`plugin_connect_to_prefader` connects the first audio output of the plugin to
`stereo_in.l` and then to `stereo_in.r`; with `num_audio_outs > 1` it connects
the first audio output to `stereo_in.l` and the second audio output to
`stereo_in.r`; nothing else is connected, and at most 2 connections are
issued. -/
theorem plugin_connect_to_prefader_audio (pl : Plugin) (ch : Channel)
    (htrack : (channel_get_track ch).out_signal_type = PortType.TYPE_AUDIO) :
    (pl.descr.num_audio_outs = 1 →
        plugin_connect_to_prefader_calls pl ch =
          match ports_of_type PortType.TYPE_AUDIO pl.out_ports with
          | [] => []
          | o :: _ =>
            [(o, ch.prefader.stereo_in.l), (o, ch.prefader.stereo_in.r)]) ∧
      (pl.descr.num_audio_outs > 1 →
        plugin_connect_to_prefader_calls pl ch =
          match ports_of_type PortType.TYPE_AUDIO pl.out_ports with
          | [] => []
          | [a] => [(a, ch.prefader.stereo_in.l)]
          | a :: b :: _ =>
            [(a, ch.prefader.stereo_in.l), (b, ch.prefader.stereo_in.r)]) ∧
      (plugin_connect_to_prefader_calls pl ch).length ≤ 2 := by
  have hne : ¬ (channel_get_track ch).out_signal_type = PortType.TYPE_EVENT := by
    rw [htrack]
    decide
  have hmono : pl.descr.num_audio_outs = 1 →
      plugin_connect_to_prefader_calls pl ch =
        match ports_of_type PortType.TYPE_AUDIO pl.out_ports with
        | [] => []
        | o :: _ =>
          [(o, ch.prefader.stereo_in.l), (o, ch.prefader.stereo_in.r)] := by
    intro h
    simp only [plugin_connect_to_prefader_calls, plugin_connect_to_prefader,
      if_neg hne, if_pos htrack, if_pos h]
    rw [connect_to_prefader_mono_eq, run_calls_record, List.nil_append]
  have hstereo : pl.descr.num_audio_outs > 1 →
      plugin_connect_to_prefader_calls pl ch =
        match ports_of_type PortType.TYPE_AUDIO pl.out_ports with
        | [] => []
        | [a] => [(a, ch.prefader.stereo_in.l)]
        | a :: b :: _ =>
          [(a, ch.prefader.stereo_in.l), (b, ch.prefader.stereo_in.r)] := by
    intro h
    have h1 : ¬ pl.descr.num_audio_outs = 1 := by omega
    simp only [plugin_connect_to_prefader_calls, plugin_connect_to_prefader,
      if_neg hne, if_pos htrack, if_neg h1, if_pos h]
    rw [connect_to_prefader_stereo_eq, run_calls_record, List.nil_append]
  refine ⟨hmono, hstereo, ?_⟩
  by_cases h1 : pl.descr.num_audio_outs = 1
  · rw [hmono h1]
    split <;> simp
  · by_cases h2 : pl.descr.num_audio_outs > 1
    · rw [hstereo h2]
      split <;> simp
    · simp [plugin_connect_to_prefader_calls, plugin_connect_to_prefader,
        if_neg hne, if_pos htrack, if_neg h1, if_neg h2]

/-- Witness for C9: a mono plugin feeds both sides of the stereo input from
its one audio output; a plugin declaring three audio outputs feeds the left
side from its first and the right side from its second audio output. -/
theorem plugin_connect_to_prefader_audio_witness :
    plugin_connect_to_prefader_calls example_src1
        (example_channel PortType.TYPE_AUDIO) =
        [(example_port PortType.TYPE_AUDIO PortFlow.FLOW_OUTPUT 0 0,
            example_channel_port PortType.TYPE_AUDIO PortFlow.FLOW_INPUT 1),
         (example_port PortType.TYPE_AUDIO PortFlow.FLOW_OUTPUT 0 0,
            example_channel_port PortType.TYPE_AUDIO PortFlow.FLOW_INPUT 2)] ∧
      plugin_connect_to_prefader_calls example_src3
        (example_channel PortType.TYPE_AUDIO) =
        [(example_port PortType.TYPE_AUDIO PortFlow.FLOW_OUTPUT 0 0,
            example_channel_port PortType.TYPE_AUDIO PortFlow.FLOW_INPUT 1),
         (example_port PortType.TYPE_AUDIO PortFlow.FLOW_OUTPUT 0 2,
            example_channel_port PortType.TYPE_AUDIO PortFlow.FLOW_INPUT 2)] :=
  ⟨((plugin_connect_to_prefader_audio example_src1
      (example_channel PortType.TYPE_AUDIO) (by decide)).1 (by decide)).trans
      (by decide),
    ((plugin_connect_to_prefader_audio example_src3
      (example_channel PortType.TYPE_AUDIO) (by decide)).2.1 (by decide)).trans
      (by decide)⟩

/-- C10, counterexample: on an event track, a plugin with two event outputs
gets a connection from its second event output as well, so the connections are
not the single one from the first event output to `ch.prefader.midi_in`. -/
theorem connect_to_prefader_second_event_output :
    (plugin_connect_to_prefader_calls example_two_event_outs
        (example_channel PortType.TYPE_EVENT)).map Prod.fst =
        [example_port PortType.TYPE_EVENT PortFlow.FLOW_OUTPUT 0 0,
         example_port PortType.TYPE_EVENT PortFlow.FLOW_OUTPUT 0 2] ∧
      plugin_connect_to_prefader_calls example_two_event_outs
        (example_channel PortType.TYPE_EVENT) ≠
        [(example_port PortType.TYPE_EVENT PortFlow.FLOW_OUTPUT 0 0,
          (example_channel PortType.TYPE_EVENT).prefader.midi_in)] := by
  decide

/-- C10, as amended: on a channel whose track outputs events,
`plugin_connect_to_prefader` issues one connection from every port of
`pl.out_ports` that is event-typed with output flow, in array order, all of
them to one and the same port; no other connection is issued. -/
theorem plugin_connect_to_prefader_event (pl : Plugin) (ch : Channel)
    (htrack : (channel_get_track ch).out_signal_type = PortType.TYPE_EVENT) :
    (plugin_connect_to_prefader_calls pl ch).map Prod.fst =
        pl.out_ports.filter (fun p => decide (p.id.type = PortType.TYPE_EVENT ∧
          p.id.flow = PortFlow.FLOW_OUTPUT)) ∧
      ∀ c ∈ plugin_connect_to_prefader_calls pl ch,
        ∀ d ∈ plugin_connect_to_prefader_calls pl ch, c.2 = d.2 := by
  have hcalls : plugin_connect_to_prefader_calls pl ch =
      (pl.out_ports.filter (fun p => decide (p.id.type = PortType.TYPE_EVENT ∧
        p.id.flow = PortFlow.FLOW_OUTPUT))).map (fun o => (o, ch.midi_out)) := by
    simp only [plugin_connect_to_prefader_calls, plugin_connect_to_prefader,
      if_pos htrack]
    rw [connect_to_prefader_event_eq, run_calls_record, List.nil_append]
  rw [hcalls]
  constructor
  · rw [List.map_map]
    exact List.map_id _
  · intro c hc d hd
    obtain ⟨_, _, rfl⟩ := List.mem_map.mp hc
    obtain ⟨_, _, rfl⟩ := List.mem_map.mp hd
    rfl

/-- Witness for C10 as amended: both event outputs of the plugin are
connected. -/
theorem plugin_connect_to_prefader_event_witness :
    (plugin_connect_to_prefader_calls example_src3
        (example_channel PortType.TYPE_EVENT)).map Prod.fst =
      [example_port PortType.TYPE_EVENT PortFlow.FLOW_OUTPUT 0 1,
       example_port PortType.TYPE_EVENT PortFlow.FLOW_OUTPUT 0 4] :=
  (plugin_connect_to_prefader_event example_src3
    (example_channel PortType.TYPE_EVENT) (by decide)).1.trans (by decide)

/-! ## Prefader: connection followed by disconnection -/

theorem disconnect_if_connected_graph (a b : Port) (g : Graph) :
    disconnect_if_connected ports_connected_query port_disconnect_stmt a b g =
      port_disconnect_stmt a b g := by
  unfold disconnect_if_connected
  split_ifs with h
  · rfl
  · unfold port_disconnect_stmt port_disconnect
    symm
    rw [List.filter_eq_self]
    intro e he
    simp only [ports_connected_query, ports_connected, Bool.not_eq_true,
      List.any_eq_false, decide_eq_true_eq] at h
    have hne := h e he
    simp only [Bool.not_eq_eq_eq_not, Bool.not_true, decide_eq_false_iff_not,
      decide_eq_true_eq]
    exact hne

theorem disconnect_from_prefader_loop_graph (type : PortType) (ch : Channel)
    (outs : List Port) (g : Graph) :
    disconnect_from_prefader_loop ports_connected_query port_disconnect_stmt
        type ch outs g =
      run_calls port_disconnect_stmt (prefader_disconnect_pairs type ch outs) g := by
  induction outs generalizing g with
  | nil => rfl
  | cons o rest ih =>
    unfold disconnect_from_prefader_loop prefader_disconnect_pairs
    rw [List.flatMap_cons, run_calls_append]
    split_ifs with h1 h2
    · rw [ih, disconnect_if_connected_graph, disconnect_if_connected_graph]
      rfl
    · rw [ih, disconnect_if_connected_graph]
      rfl
    · rw [ih]
      rfl

theorem plugin_connect_to_prefader_eq {σ : Type} (conn : Port → Port → σ → σ)
    (pl : Plugin) (ch : Channel) (s : σ) :
    plugin_connect_to_prefader conn pl ch s =
      run_calls conn (plugin_connect_to_prefader_calls pl ch) s := by
  unfold plugin_connect_to_prefader_calls plugin_connect_to_prefader
  simp only
  split_ifs
  · rw [connect_to_prefader_event_eq, connect_to_prefader_event_eq,
      run_calls_record, List.nil_append]
  · rw [connect_to_prefader_mono_eq, connect_to_prefader_mono_eq,
      run_calls_record, List.nil_append]
  · rw [connect_to_prefader_stereo_eq, connect_to_prefader_stereo_eq,
      run_calls_record, List.nil_append]
  · rfl
  · rfl

theorem prefader_calls_mem_of_not_event {pl : Plugin} {ch : Channel} {c : Call}
    (htrack : (channel_get_track ch).out_signal_type ≠ PortType.TYPE_EVENT)
    (hc : c ∈ plugin_connect_to_prefader_calls pl ch) :
    (channel_get_track ch).out_signal_type = PortType.TYPE_AUDIO ∧
      (c.1 ∈ pl.out_ports ∧ c.1.id.type = PortType.TYPE_AUDIO) ∧
      (c.2 = ch.prefader.stereo_in.l ∨ c.2 = ch.prefader.stereo_in.r) := by
  unfold plugin_connect_to_prefader_calls plugin_connect_to_prefader at hc
  simp only [if_neg htrack] at hc
  split_ifs at hc with h1 h2 h3
  · refine ⟨h1, ?_⟩
    rw [connect_to_prefader_mono_eq, run_calls_record, List.nil_append] at hc
    cases h : ports_of_type PortType.TYPE_AUDIO pl.out_ports with
    | nil => simp [h] at hc
    | cons o os =>
      have ho : o ∈ ports_of_type PortType.TYPE_AUDIO pl.out_ports := by simp [h]
      simp only [h, List.mem_cons, List.mem_singleton, List.not_mem_nil, or_false] at hc
      rcases hc with rfl | rfl
      · exact ⟨mem_ports_of_type.mp ho, Or.inl rfl⟩
      · exact ⟨mem_ports_of_type.mp ho, Or.inr rfl⟩
  · refine ⟨h1, ?_⟩
    rw [connect_to_prefader_stereo_eq, run_calls_record, List.nil_append] at hc
    cases h : ports_of_type PortType.TYPE_AUDIO pl.out_ports with
    | nil => simp [h] at hc
    | cons a as =>
      have ha : a ∈ ports_of_type PortType.TYPE_AUDIO pl.out_ports := by simp [h]
      cases as with
      | nil =>
        simp only [h, List.mem_singleton] at hc
        subst hc
        exact ⟨mem_ports_of_type.mp ha, Or.inl rfl⟩
      | cons b bs =>
        have hb : b ∈ ports_of_type PortType.TYPE_AUDIO pl.out_ports := by simp [h]
        simp only [h, List.mem_cons, List.mem_singleton, List.not_mem_nil, or_false] at hc
        rcases hc with rfl | rfl
        · exact ⟨mem_ports_of_type.mp ha, Or.inl rfl⟩
        · exact ⟨mem_ports_of_type.mp hb, Or.inr rfl⟩
  · simp at hc
  · simp at hc

theorem prefader_disconnect_pairs_src {type : PortType} {ch : Channel}
    {outs : List Port} {c : Call}
    (hc : c ∈ prefader_disconnect_pairs type ch outs) : c.1 ∈ outs := by
  unfold prefader_disconnect_pairs at hc
  rw [List.mem_flatMap] at hc
  obtain ⟨o, ho, hco⟩ := hc
  split_ifs at hco
  · simp only [List.mem_cons, List.mem_singleton, List.not_mem_nil, or_false] at hco
    rcases hco with rfl | rfl <;> exact ho
  · simp only [List.mem_singleton] at hco
    subst hco
    exact ho
  · simp at hco

theorem prefader_disconnect_pairs_audio {ch : Channel} {outs : List Port}
    {c : Call} (h1 : c.1 ∈ outs) (h2 : c.1.id.type = PortType.TYPE_AUDIO)
    (h3 : c.2 = ch.prefader.stereo_in.l ∨ c.2 = ch.prefader.stereo_in.r) :
    c ∈ prefader_disconnect_pairs PortType.TYPE_AUDIO ch outs := by
  unfold prefader_disconnect_pairs
  rw [List.mem_flatMap]
  refine ⟨c.1, h1, ?_⟩
  rw [if_pos ⟨rfl, h2⟩]
  obtain ⟨a, b⟩ := c
  rcases h3 with h | h
  · simp only at h
    simp [h]
  · simp only at h
    simp [h]

/-- On a track that does not output events, and on a graph without an edge
leaving an output port of the plugin, `plugin_connect_to_prefader` followed by
`plugin_disconnect_from_prefader` gives back the graph. -/
theorem connect_then_disconnect_prefader_not_event (g : Graph) (pl : Plugin)
    (ch : Channel)
    (htrack : (channel_get_track ch).out_signal_type ≠ PortType.TYPE_EVENT)
    (hg : ∀ e ∈ g, e.src ∉ pl.out_ports) :
    plugin_disconnect_from_prefader ports_connected_query port_disconnect_stmt
      pl ch (plugin_connect_to_prefader port_connect_stmt pl ch g) = g := by
  rw [plugin_connect_to_prefader_eq]
  unfold plugin_disconnect_from_prefader
  simp only
  rw [disconnect_from_prefader_loop_graph, run_calls_disconnect]
  obtain ⟨added, h1, h2⟩ :=
    run_calls_connect_grows (plugin_connect_to_prefader_calls pl ch) g
  rw [h1, List.filter_append, List.filter_eq_self.mpr, List.filter_eq_nil_iff.mpr,
    List.append_nil]
  · intro e he
    have hm := prefader_calls_mem_of_not_event htrack (h2 e he)
    have := @prefader_disconnect_pairs_audio ch pl.out_ports (e.src, e.dest)
      hm.2.1.1 hm.2.1.2 hm.2.2
    rw [hm.1]
    simp [this]
  · intro e he
    have hnot : (e.src, e.dest) ∉ prefader_disconnect_pairs
        (channel_get_track ch).out_signal_type ch pl.out_ports :=
      fun hm => hg e he (prefader_disconnect_pairs_src hm)
    simp [hnot]

/-- C11, evaluation at the failing input: for a plugin with one event output
on an event track and the empty graph, `plugin_connect_to_prefader` followed
by `plugin_disconnect_from_prefader` leaves the edge from the event output to
`ch->midi_out` in the graph; the graph is not empty again. -/
theorem connect_then_disconnect_prefader_event_leaves_edge :
    plugin_disconnect_from_prefader ports_connected_query port_disconnect_stmt
        example_src1 (example_channel PortType.TYPE_EVENT)
        (plugin_connect_to_prefader port_connect_stmt example_src1
          (example_channel PortType.TYPE_EVENT) []) =
        [{ src := example_port PortType.TYPE_EVENT PortFlow.FLOW_OUTPUT 0 1,
           dest := (example_channel PortType.TYPE_EVENT).midi_out,
           locked := true }] ∧
      plugin_disconnect_from_prefader ports_connected_query port_disconnect_stmt
        example_src1 (example_channel PortType.TYPE_EVENT)
        (plugin_connect_to_prefader port_connect_stmt example_src1
          (example_channel PortType.TYPE_EVENT) []) ≠ [] := by
  decide

/-! ## Growth of the port arrays -/

theorem after_plugin_init_of_calloc (descr : PluginDescriptor)
    (track_pos slot : Int) :
    after_plugin_init (plugin_init { descr := descr } track_pos slot)
      track_pos slot :=
  ⟨rfl, rfl, rfl, _, rfl, rfl, rfl, rfl, rfl, rfl, rfl, rfl, rfl, rfl, rfl⟩

/-- C12: the plugin `plugin_new_dummy (cat, track_pos, slot)` returns, and the
plugin `plugin_new_from_descr (descr, track_pos, slot)` has right after its
call of `plugin_init` (the plugin it then hands to the backend), has
`id.track_pos = track_pos`, `id.slot = slot`, no output port and exactly one
input port, the enabled gate: a control input at `port_index` 0 with the
plugin-enabled and toggle flags set, minimum 0, maximum 1, default 1 and
current value 1. -/
theorem plugin_new_has_enabled_gate (env : Env) (descr : PluginDescriptor)
    (cat track_pos slot : Int) :
    (∃ p, plugin_new_dummy cat track_pos slot = some p ∧
        after_plugin_init p track_pos slot) ∧
      after_plugin_init (plugin_new_from_descr_init descr track_pos slot)
        track_pos slot ∧
      plugin_new_from_descr env descr track_pos slot =
        some (plugin_new_from_descr_backend env descr
          (plugin_new_from_descr_init descr track_pos slot)) :=
  ⟨⟨_, rfl, after_plugin_init_of_calloc _ track_pos slot⟩,
    after_plugin_init_of_calloc _ track_pos slot, rfl⟩

/-- C13, counterexample: for a descriptor whose protocol is neither LV2 nor
VST, `plugin_new_from_descr` returns an instance. -/
theorem plugin_new_from_descr_unrecognized_returns :
    example_unknown_descr.protocol ≠ PluginProtocol.PROT_LV2 ∧
      example_unknown_descr.protocol ≠ PluginProtocol.PROT_VST ∧
      plugin_new_from_descr example_env example_unknown_descr 0 0 ≠ none := by
  decide

/-- C13, as amended: `plugin_new_from_descr` does not fail on a protocol that
is neither LV2 nor VST: it returns an instance, and (when the plugin is not
opened with Carla) the instance is the plugin as `plugin_init` left it, with
the enabled gate as its one port and no backend state attached. -/
theorem plugin_new_from_descr_unrecognized (env : Env)
    (descr : PluginDescriptor) (track_pos slot : Int)
    (hlv2 : descr.protocol ≠ PluginProtocol.PROT_LV2)
    (hvst : descr.protocol ≠ PluginProtocol.PROT_VST) :
    (∃ p, plugin_new_from_descr env descr track_pos slot = some p) ∧
      (¬ (env.HAVE_CARLA = true ∧ descr.open_with_carla = true) →
        plugin_new_from_descr env descr track_pos slot =
            some (plugin_new_from_descr_init descr track_pos slot) ∧
          after_plugin_init (plugin_new_from_descr_init descr track_pos slot)
            track_pos slot ∧
          (plugin_new_from_descr_init descr track_pos slot).lv2 = none ∧
          (plugin_new_from_descr_init descr track_pos slot).vst = none ∧
          (plugin_new_from_descr_init descr track_pos slot).carla = none) := by
  refine ⟨⟨_, rfl⟩, fun hcarla => ⟨?_, after_plugin_init_of_calloc _ _ _, rfl, rfl, rfl⟩⟩
  have hd : (plugin_new_from_descr_init descr track_pos slot).descr.protocol =
      descr.protocol := rfl
  have hdummy : descr.protocol = PluginProtocol.PROT_DUMMY := by
    cases hp : descr.protocol with
    | PROT_DUMMY => rfl
    | PROT_LV2 => exact absurd hp hlv2
    | PROT_VST => exact absurd hp hvst
  unfold plugin_new_from_descr plugin_new_from_descr_backend
  simp only [hd, hdummy, if_neg hcarla]

/-- Witness for C13 as amended, on a descriptor without backend. -/
theorem plugin_new_from_descr_unrecognized_witness :
    plugin_new_from_descr example_env example_unknown_descr 0 0 =
      some (plugin_new_from_descr_init example_unknown_descr 0 0) :=
  ((plugin_new_from_descr_unrecognized example_env example_unknown_descr 0 0
    (by decide) (by decide)).2 (by decide)).1

/-! ## Instantiation -/

theorem plugin_instantiate_finish_in_ports (pl : Plugin) :
    (plugin_instantiate_finish pl).2.in_ports =
      match pl.enabled with
      | none => pl.in_ports
      | some i => update_port pl.in_ports i
          (fun port => control_port_set_val_from_normalized port 1 false) := by
  unfold plugin_instantiate_finish
  split <;> rfl

theorem plugin_instantiate_finish_other_ports (pl : Plugin) (i : Nat)
    (hi : pl.enabled ≠ some i) :
    (plugin_instantiate_finish pl).2.in_ports[i]? = pl.in_ports[i]? := by
  rw [plugin_instantiate_finish_in_ports]
  cases he : pl.enabled with
  | none => rfl
  | some j =>
    have hji : j ≠ i := fun h => hi (by rw [he, h])
    simp only [update_port]
    exact List.getElem?_modify_ne _ _ hji

theorem process_trigger_loop_mem (ports : List Port) (p : Port)
    (hp : p ∈ process_trigger_loop ports)
    (htype : p.id.type = PortType.TYPE_CONTROL)
    (htrig : p.id.flags.PORT_FLAG_TRIGGER = true) : p.control = 0 := by
  induction ports with
  | nil => simp [process_trigger_loop] at hp
  | cons q rest ih =>
    rw [process_trigger_loop, List.mem_cons] at hp
    rcases hp with hp | hp
    · by_cases hq : q.id.type = PortType.TYPE_CONTROL ∧
          q.id.flags.PORT_FLAG_TRIGGER = true ∧
          math_floats_equal q.control 0 = false
      · rw [if_pos hq] at hp
        rw [hp]
        rfl
      · rw [if_neg hq] at hp
        subst hp
        have heq : math_floats_equal p.control 0 = true := by
          cases h : math_floats_equal p.control 0 with
          | true => rfl
          | false => exact absurd ⟨htype, htrig, h⟩ hq
        simpa [math_floats_equal] using heq
    · exact ih hp

/-- C15: after `plugin_process`, whatever the backend did during the block,
every input port of the plugin that is a control port with the trigger flag
holds the value 0. -/
theorem plugin_process_resets_triggers (env : Env) (plugin : Plugin)
    (g_start_frames : Int) (local_offset nframes : Nat) (p : Port)
    (hp : p ∈ (plugin_process env plugin g_start_frames local_offset
      nframes).in_ports)
    (htype : p.id.type = PortType.TYPE_CONTROL)
    (htrig : p.id.flags.PORT_FLAG_TRIGGER = true) : p.control = 0 :=
  process_trigger_loop_mem _ p hp htype htrig

/-- Witness for C15: a trigger control that holds 1 when the block starts holds
0 after `plugin_process`. -/
theorem plugin_process_resets_triggers_witness :
    example_trigger_port ∈ example_lv2_with_trigger.in_ports ∧
      example_trigger_port.control = 1 ∧
      ({ example_trigger_port with control := 0 } : Port) ∈
        (plugin_process example_env example_lv2_with_trigger 0 0 64).in_ports ∧
      ({ example_trigger_port with control := 0 } : Port).control = 0 :=
  ⟨by decide, by decide, by decide,
    plugin_process_resets_triggers example_env example_lv2_with_trigger 0 0 64
      { example_trigger_port with control := 0 } (by decide) (by decide)
      (by decide)⟩

/-! ## Cloning -/

theorem plugin_clone_eq (env : Env) (pl : Plugin) :
    (plugin_clone env pl).1 =
      match plugin_clone_fresh env pl with
      | none => none
      | some fresh =>
        if (plugin_instantiate env fresh).1 ≠ 0 then none
        else plugin_clone_finish pl
          (some (plugin_clone_after env pl (plugin_instantiate env fresh).2)) := by
  unfold plugin_clone plugin_clone_fresh plugin_clone_after
  by_cases h1 : pl.descr.protocol = PluginProtocol.PROT_LV2
  · simp only [if_pos h1]
    cases hl : pl.lv2 with
    | none => rfl
    | some lv2 =>
      dsimp only
      cases hs : (env.lv2_plugin_save_state_to_file lv2
          env.state_dir_plugin).state_file with
      | none => rfl
      | some state_file =>
        dsimp only
        cases hn : plugin_new_from_descr env pl.descr pl.id.track_pos pl.id.slot with
        | none => rfl
        | some clone =>
          dsimp only
          cases hc : clone.lv2 with
          | none => rfl
          | some clone_lv2 =>
            dsimp only
            split_ifs <;> rfl
  · simp only [if_neg h1]
    by_cases h2 : pl.descr.protocol = PluginProtocol.PROT_VST
    · simp only [if_pos h2]
      cases hn : plugin_new_from_descr env pl.descr pl.id.track_pos pl.id.slot with
      | none => rfl
      | some clone =>
        dsimp only
        cases hc : clone.vst with
        | none => rfl
        | some v =>
          dsimp only
          split_ifs <;> rfl
    · simp only [if_neg h2]
      unfold plugin_clone_finish
      split_ifs <;> rfl

theorem plugin_clone_source (env : Env) (pl : Plugin) :
    (plugin_clone env pl).2.id = pl.id ∧
      (plugin_clone env pl).2.in_ports = pl.in_ports ∧
      (plugin_clone env pl).2.out_ports = pl.out_ports := by
  unfold plugin_clone
  split_ifs with h1 h2
  · cases pl.lv2 with
    | none => exact ⟨rfl, rfl, rfl⟩
    | some lv2 =>
      dsimp only
      split
      · exact ⟨rfl, rfl, rfl⟩
      · split
        · exact ⟨rfl, rfl, rfl⟩
        · split
          · exact ⟨rfl, rfl, rfl⟩
          · split_ifs <;> exact ⟨rfl, rfl, rfl⟩
  · split
    · exact ⟨rfl, rfl, rfl⟩
    · split
      · exact ⟨rfl, rfl, rfl⟩
      · dsimp only
        split_ifs <;> exact ⟨rfl, rfl, rfl⟩
  · exact ⟨rfl, rfl, rfl⟩

theorem plugin_clone_finish_some (pl x clone : Plugin)
    (h : plugin_clone_finish pl (some x) = some clone) :
    clone.id.track_pos = pl.id.track_pos ∧ clone.id.slot = pl.id.slot ∧
      clone.visible = pl.visible ∧ clone.in_ports = x.in_ports ∧
      clone.out_ports = x.out_ports ∧ clone.enabled = x.enabled := by
  unfold plugin_clone_finish at h
  split_ifs at h
  simp only [Option.some.injEq] at h
  subst h
  exact ⟨rfl, rfl, rfl, rfl, rfl, rfl⟩

/-- A successful `plugin_clone`: the fresh plugin was instantiated with result
0, and the clone is that plugin after `plugin_clone_after` and the final copy
of position and visible flag. -/
theorem plugin_clone_some (env : Env) (pl clone : Plugin)
    (h : (plugin_clone env pl).1 = some clone) :
    ∃ fresh, plugin_clone_fresh env pl = some fresh ∧
      (plugin_instantiate env fresh).1 = 0 ∧
      plugin_clone_finish pl
        (some (plugin_clone_after env pl (plugin_instantiate env fresh).2)) =
          some clone := by
  rw [plugin_clone_eq] at h
  cases hf : plugin_clone_fresh env pl with
  | none => simp [hf] at h
  | some fresh =>
    simp only [hf] at h
    by_cases hr : (plugin_instantiate env fresh).1 ≠ 0
    · simp [hr] at h
    · rw [if_neg hr] at h
      exact ⟨fresh, rfl, not_not.mp hr, h⟩

/-- C17: `plugin_clone` returns an instance only when `plugin_instantiate` of
the fresh plugin returned 0, and then `id.track_pos`, `id.slot` and the visible
flag of the clone equal those of the source.  When `plugin_instantiate` of the
fresh plugin fails, or the protocol of the source is neither LV2 nor VST,
`plugin_clone` returns no instance.  The identifier and the port lists of the
source are unchanged in every case. -/
theorem plugin_clone_result (env : Env) (pl : Plugin) :
    (∀ clone, (plugin_clone env pl).1 = some clone →
        (∃ fresh, plugin_clone_fresh env pl = some fresh ∧
          (plugin_instantiate env fresh).1 = 0) ∧
        clone.id.track_pos = pl.id.track_pos ∧ clone.id.slot = pl.id.slot ∧
        clone.visible = pl.visible) ∧
      (∀ fresh, plugin_clone_fresh env pl = some fresh →
        (plugin_instantiate env fresh).1 ≠ 0 → (plugin_clone env pl).1 = none) ∧
      (pl.descr.protocol ≠ PluginProtocol.PROT_LV2 ∧
          pl.descr.protocol ≠ PluginProtocol.PROT_VST →
        (plugin_clone env pl).1 = none) ∧
      (plugin_clone env pl).2.id = pl.id ∧
      (plugin_clone env pl).2.in_ports = pl.in_ports ∧
      (plugin_clone env pl).2.out_ports = pl.out_ports := by
  refine ⟨?_, ?_, ?_, plugin_clone_source env pl⟩
  · intro clone hclone
    obtain ⟨fresh, hf, h0, hfin⟩ := plugin_clone_some env pl clone hclone
    have hc := plugin_clone_finish_some pl _ clone hfin
    exact ⟨⟨fresh, hf, h0⟩, hc.1, hc.2.1, hc.2.2.1⟩
  · intro fresh hf hfail
    rw [plugin_clone_eq, hf]
    simp only [if_pos hfail]
  · intro hproto
    rw [plugin_clone_eq]
    have hnone : plugin_clone_fresh env pl = none := by
      unfold plugin_clone_fresh
      rw [if_neg hproto.1, if_neg hproto.2]
    rw [hnone]

/-! ## Moving a plugin -/

theorem set_owner_loop_eq_map (pl : Plugin) (ports : List Port) :
    set_owner_loop pl ports = ports.map (fun p => port_set_owner_plugin p pl) := by
  induction ports with
  | nil => rfl
  | cons p rest ih => rw [set_owner_loop, ih, List.map_cons]

/-- C18: after `plugin_set_channel_and_slot (pl, ch, slot)` the plugin has
`id.track_pos = ch.track_pos` and `id.slot = slot`; each port array holds the
same ports in the same order, every port with its owner fields rewritten to
the plugin at the new position and nothing else changed, so their number and
their `port_index` are as before. -/
theorem plugin_set_channel_and_slot_rewrites (env : Env) (pl : Plugin)
    (ch : Channel) (slot : Int) :
    (plugin_set_channel_and_slot env pl ch slot).id.track_pos = ch.track_pos ∧
      (plugin_set_channel_and_slot env pl ch slot).id.slot = slot ∧
      (plugin_set_channel_and_slot env pl ch slot).in_ports =
        pl.in_ports.map (fun p => { p with id := { p.id with
          owner_type := PortOwnerType.PORT_OWNER_TYPE_PLUGIN,
          track_pos := ch.track_pos, plugin_slot := slot } }) ∧
      (plugin_set_channel_and_slot env pl ch slot).out_ports =
        pl.out_ports.map (fun p => { p with id := { p.id with
          owner_type := PortOwnerType.PORT_OWNER_TYPE_PLUGIN,
          track_pos := ch.track_pos, plugin_slot := slot } }) ∧
      (plugin_set_channel_and_slot env pl ch slot).in_ports.length =
        pl.in_ports.length ∧
      (plugin_set_channel_and_slot env pl ch slot).out_ports.length =
        pl.out_ports.length ∧
      (plugin_set_channel_and_slot env pl ch slot).in_ports.map
          (fun p => p.id.port_index) =
        pl.in_ports.map (fun p => p.id.port_index) ∧
      (plugin_set_channel_and_slot env pl ch slot).out_ports.map
          (fun p => p.id.port_index) =
        pl.out_ports.map (fun p => p.id.port_index) := by
  have hin : (plugin_set_channel_and_slot env pl ch slot).in_ports =
      pl.in_ports.map (fun p => { p with id := { p.id with
        owner_type := PortOwnerType.PORT_OWNER_TYPE_PLUGIN,
        track_pos := ch.track_pos, plugin_slot := slot } }) := by
    unfold plugin_set_channel_and_slot
    dsimp only
    split_ifs
    · split <;> simp only [set_owner_loop_eq_map] <;> rfl
    · simp only [set_owner_loop_eq_map]
      rfl
  have hout : (plugin_set_channel_and_slot env pl ch slot).out_ports =
      pl.out_ports.map (fun p => { p with id := { p.id with
        owner_type := PortOwnerType.PORT_OWNER_TYPE_PLUGIN,
        track_pos := ch.track_pos, plugin_slot := slot } }) := by
    unfold plugin_set_channel_and_slot
    dsimp only
    split_ifs
    · split <;> simp only [set_owner_loop_eq_map] <;> rfl
    · simp only [set_owner_loop_eq_map]
      rfl
  have hid : (plugin_set_channel_and_slot env pl ch slot).id.track_pos =
      ch.track_pos ∧ (plugin_set_channel_and_slot env pl ch slot).id.slot = slot := by
    unfold plugin_set_channel_and_slot
    dsimp only
    split_ifs
    · split <;> exact ⟨rfl, rfl⟩
    · exact ⟨rfl, rfl⟩
  refine ⟨hid.1, hid.2, hin, hout, ?_, ?_, ?_, ?_⟩
  · rw [hin, List.length_map]
  · rw [hout, List.length_map]
  · rw [hin, List.map_map]
    rfl
  · rw [hout, List.map_map]
    rfl

/-! ## Automation lanes -/

theorem generate_automation_tracks_loop_eq (ports : List Port)
    (atl : AutomationTracklist) :
    generate_automation_tracks_loop ports atl =
      { atl with ats := atl.ats ++
          (ports_of_type PortType.TYPE_CONTROL ports).map automation_track_new } := by
  induction ports generalizing atl with
  | nil => simp [generate_automation_tracks_loop, ports_of_type]
  | cons p rest ih =>
    by_cases h : p.id.type = PortType.TYPE_CONTROL
    · rw [generate_automation_tracks_loop, if_neg (not_not.mpr h), ih,
        ports_of_type_cons_pos _ h]
      simp [automation_tracklist_add_at]
    · rw [generate_automation_tracks_loop, if_pos h, ih,
        ports_of_type_cons_neg _ h]

/-- C19: `plugin_generate_automation_tracks` appends to the automation-lane
list of the track one lane per control-typed input port of the plugin, bound to
the identifier of that port, in input-port order, and nothing else: the
existing lanes stay in front, the number of lanes grows by the number of
control input ports, which is at least 1 when the plugin has its enabled
gate. -/
theorem plugin_generate_automation_tracks_appends (self : Plugin)
    (track : Track) :
    (plugin_generate_automation_tracks self track).automation_tracklist.ats =
        track.automation_tracklist.ats ++
          (ports_of_type PortType.TYPE_CONTROL self.in_ports).map
            (fun port => ({ port_id := port.id } : AutomationTrack)) ∧
      (plugin_generate_automation_tracks self track).automation_tracklist.ats.length =
        track.automation_tracklist.ats.length +
          (ports_of_type PortType.TYPE_CONTROL self.in_ports).length ∧
      ((∃ p, plugin_enabled_port self = some p ∧
          p.id.type = PortType.TYPE_CONTROL) →
        1 ≤ (ports_of_type PortType.TYPE_CONTROL self.in_ports).length) ∧
      (plugin_generate_automation_tracks self track).out_signal_type =
        track.out_signal_type ∧
      (plugin_generate_automation_tracks self track).pos = track.pos := by
  have hats :
      (plugin_generate_automation_tracks self track).automation_tracklist.ats =
        track.automation_tracklist.ats ++
          (ports_of_type PortType.TYPE_CONTROL self.in_ports).map
            (fun port => ({ port_id := port.id } : AutomationTrack)) := by
    unfold plugin_generate_automation_tracks track_get_automation_tracklist
    dsimp only
    rw [generate_automation_tracks_loop_eq]
    rfl
  refine ⟨hats, ?_, ?_, rfl, rfl⟩
  · rw [hats, List.length_append, List.length_map]
  · rintro ⟨p, hp, htype⟩
    unfold plugin_enabled_port at hp
    cases he : self.enabled with
    | none => simp [he] at hp
    | some i =>
      simp only [he] at hp
      have hmem : p ∈ self.in_ports := List.getElem?_mem hp
      have : p ∈ ports_of_type PortType.TYPE_CONTROL self.in_ports :=
        mem_ports_of_type.mpr ⟨hmem, htype⟩
      exact List.length_pos_of_mem this

/-- C20, evaluation at the failing input: for an LV2 plugin whose backend
fails to instantiate, `plugin_instantiate` returns -1, and `plugin_init_loaded`
still adds an automation lane (for the enabled gate) to the track, which had
none. -/
theorem plugin_init_loaded_adds_lane_after_failure :
    (plugin_instantiate example_env_failing example_lv2_plugin).1 = -1 ∧
      example_tracklist.tracks.map
        (fun t => t.automation_tracklist.ats.length) = [0] ∧
      (plugin_init_loaded example_env_failing example_lv2_plugin
        example_tracklist).2.tracks.map
          (fun t => t.automation_tracklist.ats.length) = [1] := by
  decide

/-- Whatever `plugin_instantiate` returns inside `plugin_init_loaded`, the
automation lanes are generated on the track of the plugin. -/
theorem plugin_init_loaded_finish_lanes (env : Env) (self : Plugin)
    (tracklist : Tracklist) (track : Track)
    (ht : plugin_get_track tracklist (plugin_instantiate env self).2 = some track) :
    (plugin_init_loaded_finish env self tracklist).2.tracks =
      tracklist.tracks.set (plugin_instantiate env self).2.id.track_pos.toNat
        (plugin_generate_automation_tracks (plugin_instantiate env self).2 track) := by
  unfold plugin_init_loaded_finish
  simp only [ht]

/-! ## Plugin-to-plugin wiring: what a connection can join -/

/-- C29: every connection `plugin_connect_to_plugin (src, dest)` issues goes
from a port of `src.out_ports` to a port of `dest.in_ports` and joins two ports
of the same signal type, audio to audio or event to event; neither end is a
control port or a control-voltage port, so neither end is the enabled gate of
any plugin whose gate is a control port.  The same holds for every edge the
routine adds to the port graph. -/
theorem plugin_connect_to_plugin_joins_same_type (src dest : Plugin) (c : Call)
    (hc : c ∈ plugin_connect_to_plugin_calls src dest) :
    c.1 ∈ src.out_ports ∧ c.2 ∈ dest.in_ports ∧
      ((c.1.id.type = PortType.TYPE_AUDIO ∧ c.2.id.type = PortType.TYPE_AUDIO) ∨
        (c.1.id.type = PortType.TYPE_EVENT ∧ c.2.id.type = PortType.TYPE_EVENT)) ∧
      c.1.id.type ≠ PortType.TYPE_CONTROL ∧ c.2.id.type ≠ PortType.TYPE_CONTROL ∧
      c.1.id.type ≠ PortType.TYPE_CV ∧ c.2.id.type ≠ PortType.TYPE_CV ∧
      (∀ (pl : Plugin) (e : Port), plugin_enabled_port pl = some e →
        e.id.type = PortType.TYPE_CONTROL → c.1 ≠ e ∧ c.2 ≠ e) ∧
      (∀ (g : Graph) (e : Connection),
        e ∈ plugin_connect_to_plugin port_connect_stmt src dest g → e ∈ g ∨
          (e.src, e.dest) ∈ plugin_connect_to_plugin_calls src dest) := by
  have hmem :
      (c.1 ∈ src.out_ports ∧ c.2 ∈ dest.in_ports) ∧
        ((c.1.id.type = PortType.TYPE_AUDIO ∧
            c.2.id.type = PortType.TYPE_AUDIO) ∨
          (c.1.id.type = PortType.TYPE_EVENT ∧
            c.2.id.type = PortType.TYPE_EVENT)) := by
    rw [plugin_connect_to_plugin_calls_eq] at hc
    rcases List.mem_append.mp hc with h | h
    · have := audio_pairs_mem h
      exact ⟨⟨this.1.1, this.2.1⟩, Or.inl ⟨this.1.2, this.2.2⟩⟩
    · have := fan_out_pairs_mem h
      exact ⟨⟨this.1.1, this.2.1⟩, Or.inr ⟨this.1.2, this.2.2⟩⟩
  obtain ⟨⟨h1, h2⟩, ht⟩ := hmem
  have hctl : c.1.id.type ≠ PortType.TYPE_CONTROL ∧
      c.2.id.type ≠ PortType.TYPE_CONTROL := by
    rcases ht with ⟨a, b⟩ | ⟨a, b⟩ <;> rw [a, b] <;> exact ⟨by decide, by decide⟩
  have hcv : c.1.id.type ≠ PortType.TYPE_CV ∧
      c.2.id.type ≠ PortType.TYPE_CV := by
    rcases ht with ⟨a, b⟩ | ⟨a, b⟩ <;> rw [a, b] <;> exact ⟨by decide, by decide⟩
  refine ⟨h1, h2, ht, hctl.1, hctl.2, hcv.1, hcv.2, ?_, ?_⟩
  · intro pl e _ he
    constructor
    · intro h
      exact hctl.1 (h ▸ he)
    · intro h
      exact hctl.2 (h ▸ he)
  · intro g e he
    rw [plugin_connect_to_plugin_eq, ← plugin_connect_to_plugin_calls_eq] at he
    obtain ⟨added, hadd, hin⟩ :=
      run_calls_connect_grows (plugin_connect_to_plugin_calls src dest) g
    rw [hadd] at he
    rcases List.mem_append.mp he with h | h
    · exact Or.inl h
    · exact Or.inr (hin e h)

/-- Witness for C29: the connection of the first audio output of a source with
three audio outputs to the first audio input of a destination with two. -/
theorem plugin_connect_to_plugin_joins_same_type_witness :
    (example_port PortType.TYPE_AUDIO PortFlow.FLOW_OUTPUT 0 0,
        example_port PortType.TYPE_AUDIO PortFlow.FLOW_INPUT 1 1) ∈
      plugin_connect_to_plugin_calls example_src3 example_dest2 ∧
    example_port PortType.TYPE_AUDIO PortFlow.FLOW_OUTPUT 0 0 ∈
      example_src3.out_ports ∧
    example_port PortType.TYPE_AUDIO PortFlow.FLOW_INPUT 1 1 ∈
      example_dest2.in_ports :=
  ⟨by decide,
    (plugin_connect_to_plugin_joins_same_type example_src3 example_dest2
      (example_port PortType.TYPE_AUDIO PortFlow.FLOW_OUTPUT 0 0,
        example_port PortType.TYPE_AUDIO PortFlow.FLOW_INPUT 1 1)
      (by decide)).1,
    (plugin_connect_to_plugin_joins_same_type example_src3 example_dest2
      (example_port PortType.TYPE_AUDIO PortFlow.FLOW_OUTPUT 0 0,
        example_port PortType.TYPE_AUDIO PortFlow.FLOW_INPUT 1 1)
      (by decide)).2.1⟩

/-- C30: whenever `src` declares fewer than one audio output or `dest` declares
fewer than one audio input, `plugin_connect_to_plugin (src, dest)` issues no
audio connection, whatever audio ports the two plugins have: every connection
it issues then joins two event ports, and every edge it adds to the port graph
joins two event ports. -/
theorem plugin_connect_to_plugin_audio_needs_declared_counts (src dest : Plugin)
    (h : src.descr.num_audio_outs < 1 ∨ dest.descr.num_audio_ins < 1) :
    audio_calls (plugin_connect_to_plugin_calls src dest) = [] ∧
      (∀ c ∈ plugin_connect_to_plugin_calls src dest,
        c.1.id.type = PortType.TYPE_EVENT ∧ c.2.id.type = PortType.TYPE_EVENT) ∧
      (∀ (g : Graph) (e : Connection),
        e ∈ plugin_connect_to_plugin port_connect_stmt src dest g → e ∈ g ∨
          (e.src.id.type = PortType.TYPE_EVENT ∧
            e.dest.id.type = PortType.TYPE_EVENT)) := by
  have hnil : audio_pairs src dest = [] := by
    unfold audio_pairs
    rw [if_neg (by omega), if_neg (by omega), if_neg (by omega),
      if_neg (by omega)]
  have hev : ∀ c ∈ plugin_connect_to_plugin_calls src dest,
      c.1.id.type = PortType.TYPE_EVENT ∧ c.2.id.type = PortType.TYPE_EVENT := by
    intro c hc
    rw [plugin_connect_to_plugin_calls_eq, hnil, List.nil_append] at hc
    exact ⟨(fan_out_pairs_mem hc).1.2, (fan_out_pairs_mem hc).2.2⟩
  refine ⟨by rw [audio_calls_connect, hnil], hev, ?_⟩
  intro g e he
  rw [plugin_connect_to_plugin_eq, ← plugin_connect_to_plugin_calls_eq] at he
  obtain ⟨added, hadd, hin⟩ :=
    run_calls_connect_grows (plugin_connect_to_plugin_calls src dest) g
  rw [hadd] at he
  rcases List.mem_append.mp he with h1 | h1
  · exact Or.inl h1
  · exact Or.inr (hev _ (hin e h1))

/-- Witness for C30: a source with two audio output ports that declares no
audio output, in front of a destination with two declared audio inputs, gets no
audio connection. -/
theorem plugin_connect_to_plugin_audio_needs_declared_counts_witness :
    (ports_of_type PortType.TYPE_AUDIO example_undeclared_src.out_ports).length = 2 ∧
      (ports_of_type PortType.TYPE_AUDIO example_declared_dest.in_ports).length = 2 ∧
      audio_calls
        (plugin_connect_to_plugin_calls example_undeclared_src
          example_declared_dest) = [] :=
  ⟨by decide, by decide,
    (plugin_connect_to_plugin_audio_needs_declared_counts example_undeclared_src
      example_declared_dest (Or.inl (by decide))).1⟩

/-! ## Latency and UI refresh rate -/

/-- C23, counterexample: in a build with Carla, an LV2 plugin that is opened
with Carla keeps its stored latency 0 although the LV2 backend reports 64. -/
theorem plugin_update_latency_carla_lv2_unchanged :
    example_carla_lv2_plugin.descr.protocol = PluginProtocol.PROT_LV2 ∧
      example_carla_lv2_plugin.latency = 0 ∧
      example_env_carla.lv2_plugin_get_latency example_carla_lv2_plugin.lv2 = 64 ∧
      (plugin_update_latency example_env_carla example_carla_lv2_plugin).latency
        = 0 := by
  decide

/-- C23, amended: `plugin_update_latency` leaves every field of the plugin,
the stored latency included, unchanged when the protocol is not LV2 and when
the plugin is opened with Carla (build with `HAVE_CARLA`, descriptor flag
`open_with_carla`); for an LV2 plugin that is not opened with Carla it stores
the latency the LV2 backend reports and changes no other field. -/
theorem plugin_update_latency_effect (env : Env) (pl : Plugin) :
    (pl.descr.protocol ≠ PluginProtocol.PROT_LV2 →
        plugin_update_latency env pl = pl) ∧
      (env.HAVE_CARLA = true → pl.descr.open_with_carla = true →
        plugin_update_latency env pl = pl) ∧
      (pl.descr.protocol = PluginProtocol.PROT_LV2 →
        ¬ (env.HAVE_CARLA = true ∧ pl.descr.open_with_carla = true) →
        plugin_update_latency env pl =
          { pl with latency := env.lv2_plugin_get_latency pl.lv2 }) := by
  refine ⟨?_, ?_, ?_⟩
  · intro h
    unfold plugin_update_latency
    rw [if_neg (fun hc => h hc.2)]
  · intro h1 h2
    unfold plugin_update_latency
    rw [if_neg (fun hc => hc.1 ⟨h1, h2⟩)]
  · intro h1 h2
    unfold plugin_update_latency
    rw [if_pos ⟨h2, h1⟩]

theorem ports_size_grow_of_lt (n size : Nat) (h : n < size) :
    ports_size_grow (n : Int) size = size := by
  unfold ports_size_grow
  rw [ports_size_grow_loop, if_neg (by omega)]

theorem ports_size_grow_of_eq (n : Nat) (h : 0 < n) :
    ports_size_grow (n : Int) n = n * 2 := by
  unfold ports_size_grow
  rw [ports_size_grow_loop, if_pos (by omega), if_neg (by omega),
    ports_size_grow_loop, if_neg (by omega)]

/-- The capacity fits the count: the count is at most the capacity, and the
capacity is the smallest power of two that is at least the count. -/
theorem capacity_fits_step (n cap : Nat)
    (h : n ≤ cap ∧ ∃ k, cap = 2 ^ k ∧ ∀ j, n ≤ 2 ^ j → 2 ^ k ≤ 2 ^ j) :
    n + 1 ≤ ports_size_grow (n : Int) cap ∧
      ∃ k, ports_size_grow (n : Int) cap = 2 ^ k ∧
        ∀ j, n + 1 ≤ 2 ^ j → 2 ^ k ≤ 2 ^ j := by
  obtain ⟨hle, k, hk, hmin⟩ := h
  by_cases hlt : n < cap
  · rw [ports_size_grow_of_lt n cap hlt]
    exact ⟨hlt, k, hk, fun j hj => hmin j (by omega)⟩
  · have hn : n = cap := by omega
    subst hn
    have hpos : 0 < n := by rw [hk]; exact Nat.two_pow_pos k
    rw [ports_size_grow_of_eq n hpos]
    refine ⟨by omega, k + 1, by rw [hk, pow_succ], ?_⟩
    intro j hj
    have hlt2 : 2 ^ k < 2 ^ j := by omega
    have hkj : k < j := (Nat.pow_lt_pow_iff_right (by decide)).mp hlt2
    exact Nat.pow_le_pow_right (by decide) hkj

theorem ports_indexed_append {ports : List Port} {q : Port}
    (h : ∀ (i : Nat) (p : Port), ports[i]? = some p → p.id.port_index = (i : Int))
    (hq : q.id.port_index = (ports.length : Int)) :
    ∀ (i : Nat) (p : Port), (ports ++ [q])[i]? = some p →
      p.id.port_index = (i : Int) := by
  intro i p hp
  by_cases hi : i < ports.length
  · rw [List.getElem?_append_left hi] at hp
    exact h i p hp
  · rw [List.getElem?_append_right (by omega)] at hp
    by_cases hi2 : i = ports.length
    · subst hi2
      simp at hp
      rw [← hp, hq]
    · have : i - ports.length ≥ 1 := by omega
      obtain ⟨m, hm⟩ : ∃ m, i - ports.length = m + 1 := ⟨i - ports.length - 1, by omega⟩
      rw [hm] at hp
      simp at hp

/-- What every sequence of port additions keeps: both arrays are indexed by
position, and both capacities fit their counts. -/
theorem run_add_port_calls_keeps (calls : List AddPortCall) (pl : Plugin)
    (hin : ∀ (i : Nat) (p : Port), pl.in_ports[i]? = some p →
      p.id.port_index = (i : Int))
    (hout : ∀ (i : Nat) (p : Port), pl.out_ports[i]? = some p →
      p.id.port_index = (i : Int))
    (hcin : pl.in_ports.length ≤ pl.in_ports_size ∧
      ∃ k, pl.in_ports_size = 2 ^ k ∧
        ∀ j, pl.in_ports.length ≤ 2 ^ j → 2 ^ k ≤ 2 ^ j)
    (hcout : pl.out_ports.length ≤ pl.out_ports_size ∧
      ∃ k, pl.out_ports_size = 2 ^ k ∧
        ∀ j, pl.out_ports.length ≤ 2 ^ j → 2 ^ k ≤ 2 ^ j) :
    ((∀ (i : Nat) (p : Port), (run_add_port_calls pl calls).in_ports[i]? = some p →
        p.id.port_index = (i : Int)) ∧
      (∀ (i : Nat) (p : Port), (run_add_port_calls pl calls).out_ports[i]? = some p →
        p.id.port_index = (i : Int))) ∧
    ((run_add_port_calls pl calls).in_ports.length ≤
        (run_add_port_calls pl calls).in_ports_size ∧
      ∃ k, (run_add_port_calls pl calls).in_ports_size = 2 ^ k ∧
        ∀ j, (run_add_port_calls pl calls).in_ports.length ≤ 2 ^ j →
          2 ^ k ≤ 2 ^ j) ∧
    ((run_add_port_calls pl calls).out_ports.length ≤
        (run_add_port_calls pl calls).out_ports_size ∧
      ∃ k, (run_add_port_calls pl calls).out_ports_size = 2 ^ k ∧
        ∀ j, (run_add_port_calls pl calls).out_ports.length ≤ 2 ^ j →
          2 ^ k ≤ 2 ^ j) := by
  induction calls generalizing pl with
  | nil => exact ⟨⟨hin, hout⟩, hcin, hcout⟩
  | cons c cs ih =>
    have hstep : run_add_port_calls pl (c :: cs) =
        run_add_port_calls (run_add_port_call pl c) cs := rfl
    rw [hstep]
    cases c with
    | add_in port =>
      apply ih
      · exact ports_indexed_append hin rfl
      · exact hout
      · have := capacity_fits_step _ _ hcin
        simpa [run_add_port_call, plugin_add_in_port] using this
      · exact hcout
    | add_out port =>
      apply ih
      · exact hin
      · exact ports_indexed_append hout rfl
      · exact hcin
      · have := capacity_fits_step _ _ hcout
        simpa [run_add_port_call, plugin_add_out_port] using this

theorem plugin_init_keeps (descr : PluginDescriptor) (track_pos slot : Int) :
    (∀ (i : Nat) (p : Port),
        (plugin_init { descr := descr } track_pos slot).in_ports[i]? = some p →
        p.id.port_index = (i : Int)) ∧
      (plugin_init { descr := descr } track_pos slot).out_ports = [] ∧
      (plugin_init { descr := descr } track_pos slot).in_ports.length = 1 ∧
      (plugin_init { descr := descr } track_pos slot).in_ports_size = 1 ∧
      (plugin_init { descr := descr } track_pos slot).out_ports_size = 1 := by
  refine ⟨?_, rfl, rfl, rfl, rfl⟩
  intro i p hp
  cases i with
  | zero =>
    have h0 : (plugin_init { descr := descr } track_pos slot).in_ports[0]? =
        some (plugin_init_enabled_port (port_set_owner_plugin
          (port_new_with_type PortType.TYPE_CONTROL PortFlow.FLOW_INPUT "Enabled")
          { descr := descr, in_ports_size := 1, out_ports_size := 1,
            id := { track_pos := track_pos, slot := slot },
            magic := PLUGIN_MAGIC })) := rfl
    rw [h0] at hp
    rw [← Option.some.inj hp]
    rfl
  | succ i =>
    have h1 : (plugin_init { descr := descr } track_pos slot).in_ports[i + 1]? =
        none := rfl
    rw [h1] at hp
    cases hp
/-- C25: in every plugin obtained from `plugin_init` (on a plugin fresh from
`calloc`) by any sequence of `plugin_add_in_port` and `plugin_add_out_port`
calls, the port at position `i` of `in_ports` has `port_index` `i` and the port
at position `j` of `out_ports` has `port_index` `j`.  On any plugin, each add
appends the new port (with `port_index` equal to the previous count and the
plugin as owner) at the end of its own list, which raises that count by 1 and
leaves the earlier ports of that list and the whole other list as they were. -/
theorem plugin_add_port_indices (descr : PluginDescriptor)
    (track_pos slot : Int) (calls : List AddPortCall) (pl : Plugin)
    (port : Port) :
    (∀ (i : Nat) (p : Port),
        (run_add_port_calls (plugin_init { descr := descr } track_pos slot)
          calls).in_ports[i]? = some p → p.id.port_index = (i : Int)) ∧
      (∀ (j : Nat) (p : Port),
        (run_add_port_calls (plugin_init { descr := descr } track_pos slot)
          calls).out_ports[j]? = some p → p.id.port_index = (j : Int)) ∧
      (plugin_add_in_port pl port).in_ports =
        pl.in_ports ++
          [{ port with
             id := { port.id with
               port_index := (pl.in_ports.length : Int),
               owner_type := PortOwnerType.PORT_OWNER_TYPE_PLUGIN,
               track_pos := pl.id.track_pos,
               plugin_slot := pl.id.slot } }] ∧
      (plugin_add_in_port pl port).in_ports.length = pl.in_ports.length + 1 ∧
      (plugin_add_in_port pl port).out_ports = pl.out_ports ∧
      (plugin_add_out_port pl port).out_ports =
        pl.out_ports ++
          [{ port with
             id := { port.id with
               port_index := (pl.out_ports.length : Int),
               owner_type := PortOwnerType.PORT_OWNER_TYPE_PLUGIN,
               track_pos := pl.id.track_pos,
               plugin_slot := pl.id.slot } }] ∧
      (plugin_add_out_port pl port).out_ports.length = pl.out_ports.length + 1 ∧
      (plugin_add_out_port pl port).in_ports = pl.in_ports := by
  have hinit := plugin_init_keeps descr track_pos slot
  have hkeep := run_add_port_calls_keeps calls
    (plugin_init { descr := descr } track_pos slot) hinit.1
    (by rw [hinit.2.1]; intro i p hp; simp at hp)
    (by
      rw [hinit.2.2.1, hinit.2.2.2.1]
      exact ⟨le_refl _, 0, rfl, fun j _ => Nat.pow_le_pow_right (by decide) (Nat.zero_le j)⟩)
    (by
      rw [hinit.2.1, hinit.2.2.2.2]
      exact ⟨by simp, 0, rfl, fun j _ => Nat.pow_le_pow_right (by decide) (Nat.zero_le j)⟩)
  refine ⟨hkeep.1.1, hkeep.1.2, rfl, ?_, rfl, rfl, ?_, rfl⟩
  · simp [plugin_add_in_port]
  · simp [plugin_add_out_port]

theorem take_eraseIdx_self {α : Type} (l : List α) (i : Nat)
    (h : i ≤ l.length) : (l.eraseIdx i).take i = l.take i := by
  rw [List.eraseIdx_eq_take_drop_succ]
  exact List.take_left' (by rw [List.length_take]; omega)

theorem drop_eraseIdx_self {α : Type} (l : List α) (i : Nat)
    (h : i ≤ l.length) : (l.eraseIdx i).drop i = l.drop (i + 1) := by
  rw [List.eraseIdx_eq_take_drop_succ]
  exact List.drop_left' (by rw [List.length_take]; omega)

theorem take_succ_of_getElem? {α : Type} {l : List α} {i : Nat} {a : α}
    (h : l[i]? = some a) : l.take (i + 1) = l.take i ++ [a] := by
  rw [List.take_succ, h]
  rfl

theorem drop_of_getElem? {α : Type} {l : List α} {i : Nat} {a : α}
    (h : l[i]? = some a) : l.drop i = a :: l.drop (i + 1) := by
  obtain ⟨hi, rfl⟩ := List.getElem?_eq_some.mp h
  exact List.drop_eq_getElem_cons hi

theorem remove_ats_loop_eq (pl : Plugin) (free_ats : Bool) (i : Nat)
    (atl : AutomationTracklist) (hi : i ≤ atl.ats.length) :
    (remove_ats_loop pl free_ats i atl).ats =
      (atl.ats.take i).filter (fun a => !at_is_of_plugin_slot pl a) ++
        atl.ats.drop i := by
  induction i generalizing atl with
  | zero => simp [remove_ats_loop]
  | succ i ih =>
    have hget : atl.ats[i]? = some atl.ats[i] :=
      List.getElem?_eq_getElem (by omega)
    rw [remove_ats_loop, hget]
    dsimp only
    rw [take_succ_of_getElem? hget, List.filter_append]
    by_cases h1 : (atl.ats[i]).port_id.owner_type =
        PortOwnerType.PORT_OWNER_TYPE_PLUGIN ∨
        (atl.ats[i]).port_id.flags.PORT_FLAG_PLUGIN_CONTROL = true
    · rw [if_pos h1]
      by_cases h2 : (atl.ats[i]).port_id.plugin_slot = pl.id.slot
      · rw [if_pos h2, ih _ (by
          simp only [automation_tracklist_remove_at, List.length_eraseIdx]
          split_ifs <;> omega)]
        have hm : at_is_of_plugin_slot pl atl.ats[i] = true := by
          unfold at_is_of_plugin_slot
          rcases h1 with h1 | h1 <;> simp [h1, h2]
        simp only [automation_tracklist_remove_at]
        rw [take_eraseIdx_self _ _ (by omega), drop_eraseIdx_self _ _ (by omega)]
        simp [hm]
      · rw [if_neg h2, ih _ (by omega), drop_of_getElem? hget]
        have hm : at_is_of_plugin_slot pl atl.ats[i] = false := by
          unfold at_is_of_plugin_slot
          simp [h2]
        simp [hm]
    · rw [if_neg h1, ih _ (by omega), drop_of_getElem? hget]
      have hm : at_is_of_plugin_slot pl atl.ats[i] = false := by
        unfold at_is_of_plugin_slot
        have h3 := not_or.mp h1
        simp [h3.1, h3.2]
      simp [hm]

theorem plugin_get_track_some {tracklist : Tracklist} {pl : Plugin}
    {track : Track} (h : plugin_get_track tracklist pl = some track) :
    pl.id.track_pos.toNat < tracklist.tracks.length ∧
      tracklist.tracks[pl.id.track_pos.toNat]? = some track := by
  unfold plugin_get_track at h
  split_ifs at h with h1 h2
  exact ⟨by omega, h⟩

theorem track_lanes_set (tracklist : Tracklist) (pos : Nat) (track : Track)
    (h : pos < tracklist.tracks.length) :
    track_lanes { tracklist with tracks := tracklist.tracks.set pos track } pos =
      track.automation_tracklist.ats := by
  unfold track_lanes
  simp only [List.getElem?_set_self h]

theorem track_lanes_set_ne (tracklist : Tracklist) (pos r : Nat) (track : Track)
    (h : pos ≠ r) :
    track_lanes { tracklist with tracks := tracklist.tracks.set pos track } r =
      track_lanes tracklist r := by
  unfold track_lanes
  simp only [List.getElem?_set_ne h]

/-- C27: when the plugin has a track, after
`plugin_remove_ats_from_automation_tracklist (pl, free_ats)` the lane list of
that track is the old list without the lanes whose port identifier is
plugin-owned or flagged plugin-control and has `plugin_slot` equal to
`pl.id.slot`: no such lane is left, every other lane is still there, and the
lanes left are in the order they had (no lane is skipped by the loop running
backwards).  The lanes of the other tracks are as before. -/
theorem plugin_remove_ats_from_automation_tracklist_filters (pl : Plugin)
    (free_ats : Bool) (tracklist : Tracklist) (track : Track)
    (h : plugin_get_track tracklist pl = some track) :
    track_lanes
        (plugin_remove_ats_from_automation_tracklist pl free_ats tracklist)
        pl.id.track_pos.toNat =
      track.automation_tracklist.ats.filter
        (fun a => !at_is_of_plugin_slot pl a) ∧
    (∀ a ∈ track_lanes
        (plugin_remove_ats_from_automation_tracklist pl free_ats tracklist)
        pl.id.track_pos.toNat,
      ¬ ((a.port_id.owner_type = PortOwnerType.PORT_OWNER_TYPE_PLUGIN ∨
          a.port_id.flags.PORT_FLAG_PLUGIN_CONTROL = true) ∧
        a.port_id.plugin_slot = pl.id.slot)) ∧
    (∀ a ∈ track.automation_tracklist.ats,
      ¬ ((a.port_id.owner_type = PortOwnerType.PORT_OWNER_TYPE_PLUGIN ∨
          a.port_id.flags.PORT_FLAG_PLUGIN_CONTROL = true) ∧
        a.port_id.plugin_slot = pl.id.slot) →
      a ∈ track_lanes
        (plugin_remove_ats_from_automation_tracklist pl free_ats tracklist)
        pl.id.track_pos.toNat) ∧
    List.Sublist
      (track_lanes
        (plugin_remove_ats_from_automation_tracklist pl free_ats tracklist)
        pl.id.track_pos.toNat)
      track.automation_tracklist.ats ∧
    (∀ r, r ≠ pl.id.track_pos.toNat →
      track_lanes
        (plugin_remove_ats_from_automation_tracklist pl free_ats tracklist) r =
      track_lanes tracklist r) := by
  have hpos := plugin_get_track_some h
  have hspec : ∀ a : AutomationTrack,
      at_is_of_plugin_slot pl a = true ↔
        ((a.port_id.owner_type = PortOwnerType.PORT_OWNER_TYPE_PLUGIN ∨
            a.port_id.flags.PORT_FLAG_PLUGIN_CONTROL = true) ∧
          a.port_id.plugin_slot = pl.id.slot) := by
    intro a
    simp [at_is_of_plugin_slot]
  have hrun :
      plugin_remove_ats_from_automation_tracklist pl free_ats tracklist =
        { tracklist with
          tracks := tracklist.tracks.set pl.id.track_pos.toNat
            { track with
              automation_tracklist :=
                remove_ats_loop pl free_ats
                  track.automation_tracklist.ats.length
                  track.automation_tracklist } } := by
    unfold plugin_remove_ats_from_automation_tracklist
    rw [h]
    rfl
  have hl : track_lanes
      (plugin_remove_ats_from_automation_tracklist pl free_ats tracklist)
      pl.id.track_pos.toNat =
        track.automation_tracklist.ats.filter
          (fun a => !at_is_of_plugin_slot pl a) := by
    rw [hrun, track_lanes_set _ _ _ hpos.1]
    dsimp only
    rw [remove_ats_loop_eq _ _ _ _ (le_refl _), List.take_length,
      List.drop_length, List.append_nil]
  refine ⟨hl, ?_, ?_, ?_, ?_⟩
  · intro a ha hc
    rw [hl, List.mem_filter] at ha
    have := (hspec a).mpr hc
    simp [this] at ha
  · intro a ha hc
    rw [hl, List.mem_filter]
    refine ⟨ha, ?_⟩
    have : at_is_of_plugin_slot pl a = false := by
      rw [← Bool.not_eq_true]
      exact fun ht => hc ((hspec a).mp ht)
    simp [this]
  · rw [hl]
    exact List.filter_sublist _
  · intro r hr
    rw [hrun]
    exact track_lanes_set_ne _ _ _ _ (Ne.symm hr)
/-! ## Moving the automation lanes of a plugin -/

theorem update_automation_tracklist_length (tracklist : Tracklist) (pos : Nat)
    (f : AutomationTracklist → AutomationTracklist) :
    (update_automation_tracklist tracklist pos f).tracks.length =
      tracklist.tracks.length := by
  unfold update_automation_tracklist
  exact List.length_modify _ _ _

theorem track_lanes_update_ne (tracklist : Tracklist) (pos r : Nat)
    (f : AutomationTracklist → AutomationTracklist) (h : pos ≠ r) :
    track_lanes (update_automation_tracklist tracklist pos f) r =
      track_lanes tracklist r := by
  unfold track_lanes update_automation_tracklist
  simp only [List.getElem?_modify_ne _ _ h]

theorem track_lanes_update (tracklist : Tracklist) (pos : Nat)
    (f : AutomationTracklist → AutomationTracklist)
    (h : pos < tracklist.tracks.length) :
    track_lanes (update_automation_tracklist tracklist pos f) pos =
      (f { ats := track_lanes tracklist pos }).ats := by
  unfold track_lanes update_automation_tracklist
  simp only [List.getElem?_modify_eq, List.getElem?_eq_getElem h]
  rfl

theorem modify_last_append {α : Type} (f : α → α) (l : List α) (a : α) :
    List.modify f ((l ++ [a]).length - 1) (l ++ [a]) = l ++ [f a] := by
  have hlen : (l ++ [a]).length - 1 = l.length := by simp
  rw [hlen]
  induction l with
  | nil => rfl
  | cons b l ih => simpa [List.modify] using ih

theorem move_automation_loop_succ
    (automation_track_get_port : AutomationTrack → Option Port)
    (port_get_plugin : Port → Option Plugin) (pl : Plugin)
    (prev_atl atl : Nat) (new_slot : Int) (i : Nat) (tracklist : Tracklist)
    (at_ : AutomationTrack)
    (h : (track_lanes tracklist prev_atl)[i]? = some at_) :
    move_automation_loop automation_track_get_port port_get_plugin pl
        prev_atl atl new_slot (i + 1) tracklist =
      if at_is_of_plugin automation_track_get_port port_get_plugin pl at_ = true
      then
        move_automation_loop automation_track_get_port port_get_plugin pl
          prev_atl atl new_slot i
          (update_automation_tracklist
            (update_automation_tracklist
              (update_automation_tracklist tracklist prev_atl
                (fun prev => automation_tracklist_delete_at prev i false))
              atl (fun a => automation_tracklist_add_at a at_))
            atl (set_added_at_plugin_slot new_slot))
      else
        move_automation_loop automation_track_get_port port_get_plugin pl
          prev_atl atl new_slot i tracklist := by
  rw [move_automation_loop, h]
  dsimp only
  unfold at_is_of_plugin
  cases hp : automation_track_get_port at_ with
  | none => simp
  | some port =>
    dsimp only
    by_cases h1 : port.id.owner_type = PortOwnerType.PORT_OWNER_TYPE_PLUGIN
    · by_cases h2 : port_get_plugin port = some pl
      · simp [h1, h2]
      · simp [h1, h2]
    · simp [h1]

/-- The three statements of the loop body on two different tracks. -/
theorem move_step_lanes_ne (tracklist : Tracklist) (prev_atl atl : Nat)
    (new_slot : Int) (i : Nat) (at_ : AutomationTrack) (hne : prev_atl ≠ atl)
    (hp : prev_atl < tracklist.tracks.length)
    (hq : atl < tracklist.tracks.length) :
    track_lanes
        (update_automation_tracklist
          (update_automation_tracklist
            (update_automation_tracklist tracklist prev_atl
              (fun prev => automation_tracklist_delete_at prev i false))
            atl (fun a => automation_tracklist_add_at a at_))
          atl (set_added_at_plugin_slot new_slot)) prev_atl =
        (track_lanes tracklist prev_atl).eraseIdx i ∧
      track_lanes
        (update_automation_tracklist
          (update_automation_tracklist
            (update_automation_tracklist tracklist prev_atl
              (fun prev => automation_tracklist_delete_at prev i false))
            atl (fun a => automation_tracklist_add_at a at_))
          atl (set_added_at_plugin_slot new_slot)) atl =
        track_lanes tracklist atl ++ [at_set_plugin_slot new_slot at_] := by
  constructor
  · rw [track_lanes_update_ne _ _ _ _ (Ne.symm hne),
      track_lanes_update_ne _ _ _ _ (Ne.symm hne),
      track_lanes_update _ _ _ hp]
    rfl
  · rw [track_lanes_update _ _ _ (by
        rw [update_automation_tracklist_length,
          update_automation_tracklist_length]; exact hq),
      track_lanes_update _ _ _ (by
        rw [update_automation_tracklist_length]; exact hq),
      track_lanes_update_ne _ _ _ _ hne]
    simp only [set_added_at_plugin_slot, automation_tracklist_add_at]
    exact modify_last_append _ _ _

/-- The three statements of the loop body on one and the same track. -/
theorem move_step_lanes_eq (tracklist : Tracklist) (atl : Nat)
    (new_slot : Int) (i : Nat) (at_ : AutomationTrack)
    (hq : atl < tracklist.tracks.length) :
    track_lanes
        (update_automation_tracklist
          (update_automation_tracklist
            (update_automation_tracklist tracklist atl
              (fun prev => automation_tracklist_delete_at prev i false))
            atl (fun a => automation_tracklist_add_at a at_))
          atl (set_added_at_plugin_slot new_slot)) atl =
        (track_lanes tracklist atl).eraseIdx i ++
          [at_set_plugin_slot new_slot at_] := by
  rw [track_lanes_update _ _ _ (by
      rw [update_automation_tracklist_length,
        update_automation_tracklist_length]; exact hq),
    track_lanes_update _ _ _ (by
      rw [update_automation_tracklist_length]; exact hq),
    track_lanes_update _ _ _ hq]
  simp only [set_added_at_plugin_slot, automation_tracklist_add_at,
    automation_tracklist_delete_at]
  exact modify_last_append _ _ _

theorem move_step_lanes_other (tracklist : Tracklist) (prev_atl atl r : Nat)
    (new_slot : Int) (i : Nat) (at_ : AutomationTrack) (h1 : r ≠ prev_atl)
    (h2 : r ≠ atl) :
    track_lanes
        (update_automation_tracklist
          (update_automation_tracklist
            (update_automation_tracklist tracklist prev_atl
              (fun prev => automation_tracklist_delete_at prev i false))
            atl (fun a => automation_tracklist_add_at a at_))
          atl (set_added_at_plugin_slot new_slot)) r =
      track_lanes tracklist r := by
  rw [track_lanes_update_ne _ _ _ _ (Ne.symm h2),
    track_lanes_update_ne _ _ _ _ (Ne.symm h2),
    track_lanes_update_ne _ _ _ _ (Ne.symm h1)]

theorem move_step_length (tracklist : Tracklist) (prev_atl atl : Nat)
    (new_slot : Int) (i : Nat) (at_ : AutomationTrack) :
    (update_automation_tracklist
        (update_automation_tracklist
          (update_automation_tracklist tracklist prev_atl
            (fun prev => automation_tracklist_delete_at prev i false))
          atl (fun a => automation_tracklist_add_at a at_))
        atl (set_added_at_plugin_slot new_slot)).tracks.length =
      tracklist.tracks.length := by
  rw [update_automation_tracklist_length, update_automation_tracklist_length,
    update_automation_tracklist_length]
theorem move_automation_loop_ne
    (get_port : AutomationTrack → Option Port)
    (get_plugin : Port → Option Plugin) (pl : Plugin)
    (prev_atl atl : Nat) (new_slot : Int) (hne : prev_atl ≠ atl) (i : Nat)
    (tracklist : Tracklist) (hp : prev_atl < tracklist.tracks.length)
    (hq : atl < tracklist.tracks.length)
    (hi : i ≤ (track_lanes tracklist prev_atl).length) :
    track_lanes (move_automation_loop get_port get_plugin pl prev_atl atl
          new_slot i tracklist) prev_atl =
        ((track_lanes tracklist prev_atl).take i).filter
            (fun a => !at_is_of_plugin get_port get_plugin pl a) ++
          (track_lanes tracklist prev_atl).drop i ∧
      track_lanes (move_automation_loop get_port get_plugin pl prev_atl atl
          new_slot i tracklist) atl =
        track_lanes tracklist atl ++
          ((((track_lanes tracklist prev_atl).take i).filter
            (at_is_of_plugin get_port get_plugin pl)).reverse).map
              (at_set_plugin_slot new_slot) ∧
      (∀ r, r ≠ prev_atl → r ≠ atl →
        track_lanes (move_automation_loop get_port get_plugin pl prev_atl atl
          new_slot i tracklist) r = track_lanes tracklist r) ∧
      (move_automation_loop get_port get_plugin pl prev_atl atl new_slot i
        tracklist).tracks.length = tracklist.tracks.length := by
  induction i generalizing tracklist with
  | zero => simp [move_automation_loop]
  | succ i ih =>
    have hget : (track_lanes tracklist prev_atl)[i]? =
        some (track_lanes tracklist prev_atl)[i] :=
      List.getElem?_eq_getElem (by omega)
    rw [move_automation_loop_succ _ _ _ _ _ _ _ _ _ hget,
      take_succ_of_getElem? hget, List.filter_append, List.filter_append]
    by_cases hm : at_is_of_plugin get_port get_plugin pl
        (track_lanes tracklist prev_atl)[i] = true
    · rw [if_pos hm]
      have hs := move_step_lanes_ne tracklist prev_atl atl new_slot i
        (track_lanes tracklist prev_atl)[i] hne hp hq
      have hlen := move_step_length tracklist prev_atl atl new_slot i
        (track_lanes tracklist prev_atl)[i]
      have hother := fun r h1 h2 => move_step_lanes_other tracklist prev_atl
        atl r new_slot i (track_lanes tracklist prev_atl)[i] h1 h2
      obtain ⟨a1, a2, a3, a4⟩ := ih _ (by rw [hlen]; exact hp)
        (by rw [hlen]; exact hq)
        (by rw [hs.1, List.length_eraseIdx]; split_ifs <;> omega)
      refine ⟨?_, ?_, ?_, ?_⟩
      · rw [a1, hs.1, take_eraseIdx_self _ _ (by omega),
          drop_eraseIdx_self _ _ (by omega)]
        simp [hm]
      · rw [a2, hs.1, hs.2, take_eraseIdx_self _ _ (by omega)]
        simp [hm]
      · intro r h1 h2
        rw [a3 r h1 h2, hother r h1 h2]
      · rw [a4, hlen]
    · rw [if_neg hm]
      have hm2 : at_is_of_plugin get_port get_plugin pl
          (track_lanes tracklist prev_atl)[i] = false := by
        simpa using hm
      obtain ⟨a1, a2, a3, a4⟩ := ih tracklist hp hq (by omega)
      refine ⟨?_, ?_, a3, a4⟩
      · rw [a1, drop_of_getElem? hget]
        simp [hm2]
      · rw [a2]
        simp [hm2]

theorem move_automation_loop_same
    (get_port : AutomationTrack → Option Port)
    (get_plugin : Port → Option Plugin) (pl : Plugin)
    (atl : Nat) (new_slot : Int) (i : Nat)
    (tracklist : Tracklist) (hq : atl < tracklist.tracks.length)
    (hi : i ≤ (track_lanes tracklist atl).length) :
    track_lanes (move_automation_loop get_port get_plugin pl atl atl
          new_slot i tracklist) atl =
        ((track_lanes tracklist atl).take i).filter
            (fun a => !at_is_of_plugin get_port get_plugin pl a) ++
          (track_lanes tracklist atl).drop i ++
          ((((track_lanes tracklist atl).take i).filter
            (at_is_of_plugin get_port get_plugin pl)).reverse).map
              (at_set_plugin_slot new_slot) ∧
      (∀ r, r ≠ atl →
        track_lanes (move_automation_loop get_port get_plugin pl atl atl
          new_slot i tracklist) r = track_lanes tracklist r) ∧
      (move_automation_loop get_port get_plugin pl atl atl new_slot i
        tracklist).tracks.length = tracklist.tracks.length := by
  induction i generalizing tracklist with
  | zero => simp [move_automation_loop]
  | succ i ih =>
    have hget : (track_lanes tracklist atl)[i]? =
        some (track_lanes tracklist atl)[i] :=
      List.getElem?_eq_getElem (by omega)
    rw [move_automation_loop_succ _ _ _ _ _ _ _ _ _ hget,
      take_succ_of_getElem? hget, List.filter_append, List.filter_append]
    by_cases hm : at_is_of_plugin get_port get_plugin pl
        (track_lanes tracklist atl)[i] = true
    · rw [if_pos hm]
      have hs := move_step_lanes_eq tracklist atl new_slot i
        (track_lanes tracklist atl)[i] hq
      have hlen := move_step_length tracklist atl atl new_slot i
        (track_lanes tracklist atl)[i]
      have hother := fun r h1 => move_step_lanes_other tracklist atl
        atl r new_slot i (track_lanes tracklist atl)[i] h1 h1
      have hle : i ≤ ((track_lanes tracklist atl).eraseIdx i).length := by
        rw [List.length_eraseIdx]; split_ifs <;> omega
      obtain ⟨a1, a2, a3⟩ := ih _ (by rw [hlen]; exact hq)
        (by rw [hs, List.length_append]; omega)
      refine ⟨?_, ?_, ?_⟩
      · rw [a1, hs, List.take_append_of_le_length hle,
          List.drop_append_of_le_length hle,
          take_eraseIdx_self _ _ (by omega), drop_eraseIdx_self _ _ (by omega)]
        simp [hm]
      · intro r h1
        rw [a2 r h1, hother r h1]
      · rw [a3, hlen]
    · rw [if_neg hm]
      have hm2 : at_is_of_plugin get_port get_plugin pl
          (track_lanes tracklist atl)[i] = false := by
        simpa using hm
      obtain ⟨a1, a2, a3⟩ := ih tracklist hq (by omega)
      refine ⟨?_, a2, a3⟩
      rw [a1, drop_of_getElem? hget]
      simp [hm2]

theorem channel_get_track_pos_some {tracklist : Tracklist} {ch : Channel}
    {pos : Nat} (h : channel_get_track_pos tracklist ch = some pos) :
    pos < tracklist.tracks.length ∧ pos = ch.track_pos.toNat := by
  unfold channel_get_track_pos at h
  split_ifs at h with h1 h2
  have := Option.some.inj h
  exact ⟨by omega, this.symm⟩
/-- Witness for C27: of the lanes of track 0, the three of the plugin at slot 0
(two of them next to each other) go, the lane of the plugin at slot 1 and the
lane of the channel stay, in their order. -/
theorem plugin_remove_ats_from_automation_tracklist_filters_witness :
    track_lanes
        (plugin_remove_ats_from_automation_tracklist example_controls_plugin
          true example_tracklist_lanes) 0 =
      [example_lane 1 0, example_channel_lane] :=
  (plugin_remove_ats_from_automation_tracklist_filters example_controls_plugin
    true example_tracklist_lanes example_track_lanes (by decide)).1.trans
    (by decide)

theorem length_filter_add_length_filter_not {α : Type} (p : α → Bool)
    (l : List α) :
    (l.filter p).length + (l.filter (fun a => !p a)).length = l.length := by
  induction l with
  | nil => rfl
  | cons a l ih =>
    by_cases h : p a = true
    · simp [h]; omega
    · simp [h]; omega

/-- C28, counterexample: with `prev_ch` and `ch` the same channel (a move to
another slot of one channel), the lanes of the plugin are still in the lane
list of the track of `prev_ch` afterwards: moved to the end, in reverse order,
with the new slot.  When the new slot is the slot the plugin has, that list
still holds lanes the test of the routine attributes to the plugin. -/
theorem plugin_move_automation_same_channel_keeps_lanes :
    track_lanes
        (plugin_move_automation
          (example_automation_track_get_port
            [example_controls_plugin, example_other_plugin])
          (example_port_get_plugin
            [example_controls_plugin, example_other_plugin])
          example_controls_plugin (example_channel PortType.TYPE_AUDIO)
          (example_channel PortType.TYPE_AUDIO) 2 example_tracklist_lanes) 0 =
        [example_lane 1 0, example_channel_lane, example_lane 2 2,
          example_lane 2 1, example_lane 2 0] ∧
      (∃ a ∈ track_lanes
          (plugin_move_automation
            (example_automation_track_get_port
              [example_controls_plugin, example_other_plugin])
            (example_port_get_plugin
              [example_controls_plugin, example_other_plugin])
            example_controls_plugin (example_channel PortType.TYPE_AUDIO)
            (example_channel PortType.TYPE_AUDIO) 0 example_tracklist_lanes) 0,
        at_is_of_plugin
          (example_automation_track_get_port
            [example_controls_plugin, example_other_plugin])
          (example_port_get_plugin
            [example_controls_plugin, example_other_plugin])
          example_controls_plugin a = true) := by
  decide

/-- C28, amended: with `prev_ch` and `ch` on two different tracks,
`plugin_move_automation (pl, prev_ch, ch, new_slot)` takes exactly the lanes
the routine attributes to `pl` (the port of the lane exists, is plugin-owned
and its plugin is `pl`) out of the lane list of the track of `prev_ch`, where
the other lanes stay in their order, and appends them, last one first and each
with `port_id.plugin_slot` set to `new_slot`, to the lane list of the track of
`ch`; the number of lanes over both lists is unchanged.  With both channels on
one track, the lanes of `pl` are moved to the end of that list in the same way
and the number of lanes of the list is unchanged.  In both cases the lanes of
every other track are as before. -/
theorem plugin_move_automation_effect
    (automation_track_get_port : AutomationTrack → Option Port)
    (port_get_plugin : Port → Option Plugin) (pl : Plugin)
    (prev_ch ch : Channel) (new_slot : Int) (tracklist : Tracklist)
    (prev_atl atl : Nat)
    (hprev : channel_get_track_pos tracklist prev_ch = some prev_atl)
    (hch : channel_get_track_pos tracklist ch = some atl) :
    (prev_atl ≠ atl →
      track_lanes
          (plugin_move_automation automation_track_get_port port_get_plugin pl
            prev_ch ch new_slot tracklist) prev_atl =
        (track_lanes tracklist prev_atl).filter
          (fun a => !at_is_of_plugin automation_track_get_port port_get_plugin
            pl a) ∧
      track_lanes
          (plugin_move_automation automation_track_get_port port_get_plugin pl
            prev_ch ch new_slot tracklist) atl =
        track_lanes tracklist atl ++
          (((track_lanes tracklist prev_atl).filter
            (at_is_of_plugin automation_track_get_port port_get_plugin
              pl)).reverse).map (at_set_plugin_slot new_slot) ∧
      (track_lanes
          (plugin_move_automation automation_track_get_port port_get_plugin pl
            prev_ch ch new_slot tracklist) prev_atl).length +
        (track_lanes
          (plugin_move_automation automation_track_get_port port_get_plugin pl
            prev_ch ch new_slot tracklist) atl).length =
        (track_lanes tracklist prev_atl).length +
          (track_lanes tracklist atl).length) ∧
    (prev_atl = atl →
      track_lanes
          (plugin_move_automation automation_track_get_port port_get_plugin pl
            prev_ch ch new_slot tracklist) atl =
        (track_lanes tracklist atl).filter
            (fun a => !at_is_of_plugin automation_track_get_port
              port_get_plugin pl a) ++
          (((track_lanes tracklist atl).filter
            (at_is_of_plugin automation_track_get_port port_get_plugin
              pl)).reverse).map (at_set_plugin_slot new_slot) ∧
      (track_lanes
          (plugin_move_automation automation_track_get_port port_get_plugin pl
            prev_ch ch new_slot tracklist) atl).length =
        (track_lanes tracklist atl).length) ∧
    (∀ r, r ≠ prev_atl → r ≠ atl →
      track_lanes
          (plugin_move_automation automation_track_get_port port_get_plugin pl
            prev_ch ch new_slot tracklist) r =
        track_lanes tracklist r) := by
  have hp := (channel_get_track_pos_some hprev).1
  have hq := (channel_get_track_pos_some hch).1
  have hrun :
      plugin_move_automation automation_track_get_port port_get_plugin pl
          prev_ch ch new_slot tracklist =
        move_automation_loop automation_track_get_port port_get_plugin pl
          prev_atl atl new_slot (track_lanes tracklist prev_atl).length
          tracklist := by
    unfold plugin_move_automation
    rw [hprev, hch]
  rw [hrun]
  refine ⟨?_, ?_, ?_⟩
  · intro hne
    obtain ⟨a1, a2, _, _⟩ := move_automation_loop_ne automation_track_get_port
      port_get_plugin pl prev_atl atl new_slot hne _ tracklist hp hq (le_refl _)
    rw [List.take_length, List.drop_length, List.append_nil] at a1
    rw [List.take_length] at a2
    refine ⟨a1, a2, ?_⟩
    rw [a1, a2, List.length_append, List.length_map, List.length_reverse]
    have := length_filter_add_length_filter_not
      (at_is_of_plugin automation_track_get_port port_get_plugin pl)
      (track_lanes tracklist prev_atl)
    omega
  · intro heq
    subst heq
    obtain ⟨a1, _, _⟩ := move_automation_loop_same automation_track_get_port
      port_get_plugin pl prev_atl new_slot _ tracklist hp (le_refl _)
    rw [List.take_length, List.drop_length, List.append_nil] at a1
    refine ⟨a1, ?_⟩
    rw [a1, List.length_append, List.length_map, List.length_reverse]
    have := length_filter_add_length_filter_not
      (at_is_of_plugin automation_track_get_port port_get_plugin pl)
      (track_lanes tracklist prev_atl)
    omega
  · intro r h1 h2
    by_cases hne : prev_atl = atl
    · subst hne
      exact (move_automation_loop_same automation_track_get_port
        port_get_plugin pl prev_atl new_slot _ tracklist hp (le_refl _)).2.1 r h1
    · exact (move_automation_loop_ne automation_track_get_port
        port_get_plugin pl prev_atl atl new_slot hne _ tracklist hp hq
        (le_refl _)).2.2.1 r h1 h2

/-- Witness for C28: a move from the channel of track 0 to the channel of
track 1, to slot 2: the three lanes of the plugin leave track 0 and arrive on
track 1 behind the lane that was there, last one first, with slot 2. -/
theorem plugin_move_automation_effect_witness :
    track_lanes
        (plugin_move_automation
          (example_automation_track_get_port
            [example_controls_plugin, example_other_plugin])
          (example_port_get_plugin
            [example_controls_plugin, example_other_plugin])
          example_controls_plugin (example_channel PortType.TYPE_AUDIO)
          example_channel_track1 2 example_tracklist_lanes) 0 =
        [example_lane 1 0, example_channel_lane] ∧
      track_lanes
        (plugin_move_automation
          (example_automation_track_get_port
            [example_controls_plugin, example_other_plugin])
          (example_port_get_plugin
            [example_controls_plugin, example_other_plugin])
          example_controls_plugin (example_channel PortType.TYPE_AUDIO)
          example_channel_track1 2 example_tracklist_lanes) 1 =
        [example_channel_lane, example_lane 2 2, example_lane 2 1,
          example_lane 2 0] :=
  ⟨((plugin_move_automation_effect
      (example_automation_track_get_port
        [example_controls_plugin, example_other_plugin])
      (example_port_get_plugin
        [example_controls_plugin, example_other_plugin])
      example_controls_plugin (example_channel PortType.TYPE_AUDIO)
      example_channel_track1 2 example_tracklist_lanes 0 1 (by decide)
      (by decide)).1 (by decide)).1.trans (by decide),
    ((plugin_move_automation_effect
      (example_automation_track_get_port
        [example_controls_plugin, example_other_plugin])
      (example_port_get_plugin
        [example_controls_plugin, example_other_plugin])
      example_controls_plugin (example_channel PortType.TYPE_AUDIO)
      example_channel_track1 2 example_tracklist_lanes 0 1 (by decide)
      (by decide)).1 (by decide)).2.1.trans (by decide)⟩

/-! ## Teardown of a plugin -/

theorem plugin_disconnect_graph (plugin : Plugin) (project : Project) :
    (plugin_disconnect plugin project).2.graph =
      project.graph.filter (fun c =>
        !touches_ports plugin.in_ports c && !touches_ports plugin.out_ports c) := by
  simp only [plugin_disconnect, ports_disconnect, List.filter_filter]
  congr 1
  funext c
  exact Bool.and_comm _ _

theorem plugin_free_tracklist (plugin : Plugin) (project : Project) :
    (plugin_free plugin project).tracklist = project.tracklist := rfl

theorem plugin_disconnect_tracklist (plugin : Plugin) (project : Project) :
    (plugin_disconnect plugin project).2.tracklist = project.tracklist := rfl

/-- C21: after `plugin_disconnect (plugin)` the plugin is the old one with the
deleting flag set, so its port lists and their counts are unchanged; the port
graph holds no edge whose source or destination is one of the input or output
ports of the plugin; and every edge that touches none of these ports is still
there, the edges left being in the order they had.  The automation lanes are
not touched. -/
theorem plugin_disconnect_effect (plugin : Plugin) (project : Project) :
    (plugin_disconnect plugin project).1 = { plugin with deleting := true } ∧
      (plugin_disconnect plugin project).1.deleting = true ∧
      (∀ e ∈ (plugin_disconnect plugin project).2.graph,
        e.src ∉ plugin.in_ports ∧ e.src ∉ plugin.out_ports ∧
          e.dest ∉ plugin.in_ports ∧ e.dest ∉ plugin.out_ports) ∧
      (∀ e ∈ project.graph,
        e.src ∉ plugin.in_ports → e.src ∉ plugin.out_ports →
        e.dest ∉ plugin.in_ports → e.dest ∉ plugin.out_ports →
        e ∈ (plugin_disconnect plugin project).2.graph) ∧
      List.Sublist (plugin_disconnect plugin project).2.graph project.graph ∧
      (plugin_disconnect plugin project).1.in_ports = plugin.in_ports ∧
      (plugin_disconnect plugin project).1.out_ports = plugin.out_ports ∧
      (plugin_disconnect plugin project).1.in_ports.length =
        plugin.in_ports.length ∧
      (plugin_disconnect plugin project).1.out_ports.length =
        plugin.out_ports.length ∧
      (plugin_disconnect plugin project).2.tracklist = project.tracklist := by
  refine ⟨rfl, rfl, ?_, ?_, ?_, rfl, rfl, rfl, rfl, rfl⟩
  · intro e he
    rw [plugin_disconnect_graph, List.mem_filter] at he
    have h := he.2
    simp only [touches_ports, Bool.and_eq_true, Bool.not_eq_true',
      Bool.or_eq_false_iff, decide_eq_false_iff_not] at h
    exact ⟨h.1.1, h.2.1, h.1.2, h.2.2⟩
  · intro e he h1 h2 h3 h4
    rw [plugin_disconnect_graph, List.mem_filter]
    refine ⟨he, ?_⟩
    simp only [touches_ports, Bool.and_eq_true, Bool.not_eq_true',
      Bool.or_eq_false_iff, decide_eq_false_iff_not]
    exact ⟨⟨h1, h3⟩, ⟨h2, h4⟩⟩
  · rw [plugin_disconnect_graph]
    exact List.filter_sublist _

/-- C22, counterexample: the plugin at slot 0 of track 0 has three control
inputs, and track 0 has a lane bound to each of them; after `plugin_disconnect`
followed by `plugin_free` the lane bound to the first of these ports is still
in the lane list of track 0, and so are the other lanes. -/
theorem plugin_disconnect_free_keeps_lanes :
    example_port PortType.TYPE_CONTROL PortFlow.FLOW_INPUT 0 0 ∈
        example_controls_plugin.in_ports ∧
      (example_lane 0 0).port_id =
        (example_port PortType.TYPE_CONTROL PortFlow.FLOW_INPUT 0 0).id ∧
      example_lane 0 0 ∈
        track_lanes
          (plugin_free (plugin_disconnect example_controls_plugin example_project).1
            (plugin_disconnect example_controls_plugin example_project).2).tracklist
          0 ∧
      track_lanes
          (plugin_free (plugin_disconnect example_controls_plugin example_project).1
            (plugin_disconnect example_controls_plugin example_project).2).tracklist
          0 =
        track_lanes example_project.tracklist 0 := by
  decide

/-- C22, amended: `plugin_disconnect` followed by `plugin_free` leaves the
automation-lane lists of all tracks as they were.  The lanes of an instance are
removed by `plugin_remove_ats_from_automation_tracklist`: when the ports of
the instance carry it as owner (plugin-owned, with the slot of the instance)
and that routine is run before `plugin_disconnect` and `plugin_free`, no lane
bound to the identifier of one of the ports of the instance is left in the lane
list of the track of the instance. -/
theorem plugin_teardown_lanes (pl : Plugin) (free_ats : Bool)
    (project : Project) (track : Track)
    (h : plugin_get_track project.tracklist pl = some track)
    (hown : ∀ p ∈ pl.in_ports ++ pl.out_ports,
      p.id.owner_type = PortOwnerType.PORT_OWNER_TYPE_PLUGIN ∧
        p.id.plugin_slot = pl.id.slot) :
    (plugin_free (plugin_disconnect pl project).1
        (plugin_disconnect pl project).2).tracklist = project.tracklist ∧
      (∀ a ∈ track_lanes
          (plugin_free
            (plugin_disconnect pl
              { project with
                tracklist := plugin_remove_ats_from_automation_tracklist pl
                  free_ats project.tracklist }).1
            (plugin_disconnect pl
              { project with
                tracklist := plugin_remove_ats_from_automation_tracklist pl
                  free_ats project.tracklist }).2).tracklist
          pl.id.track_pos.toNat,
        ∀ p ∈ pl.in_ports ++ pl.out_ports, a.port_id ≠ p.id) := by
  refine ⟨rfl, ?_⟩
  intro a ha p hp hid
  rw [plugin_free_tracklist, plugin_disconnect_tracklist] at ha
  have hl : track_lanes
      (plugin_remove_ats_from_automation_tracklist pl free_ats project.tracklist)
      pl.id.track_pos.toNat =
        track.automation_tracklist.ats.filter
          (fun a => !at_is_of_plugin_slot pl a) := by
    have hpos := plugin_get_track_some h
    unfold plugin_remove_ats_from_automation_tracklist
    rw [h]
    dsimp only
    rw [track_lanes_set _ _ _ hpos.1]
    dsimp only
    rw [remove_ats_loop_eq _ _ _ _ (le_refl _), List.take_length,
      List.drop_length, List.append_nil]
    rfl
  change a ∈ track_lanes
    (plugin_remove_ats_from_automation_tracklist pl free_ats project.tracklist)
    pl.id.track_pos.toNat at ha
  rw [hl, List.mem_filter] at ha
  have hm : at_is_of_plugin_slot pl a = true := by
    unfold at_is_of_plugin_slot
    rw [hid, (hown p hp).1, (hown p hp).2]
    simp
  simp [hm] at ha

/-- Witness for C22: after the full teardown of the plugin at slot 0 of track 0
(lanes removed, then `plugin_disconnect`, then `plugin_free`), track 0 has no
lane bound to the first control input of the plugin. -/
theorem plugin_teardown_lanes_witness :
    (track_lanes
        (plugin_free
          (plugin_disconnect example_controls_plugin
            { example_project with
              tracklist := plugin_remove_ats_from_automation_tracklist
                example_controls_plugin true example_project.tracklist }).1
          (plugin_disconnect example_controls_plugin
            { example_project with
              tracklist := plugin_remove_ats_from_automation_tracklist
                example_controls_plugin true example_project.tracklist }).2).tracklist
        0).filter
      (fun a => decide (a.port_id =
        (example_port PortType.TYPE_CONTROL PortFlow.FLOW_INPUT 0 0).id)) = [] :=
  List.filter_eq_nil_iff.mpr (fun a ha hd =>
    (plugin_teardown_lanes example_controls_plugin true example_project
      example_track_lanes (by decide) (by decide)).2 a ha
      (example_port PortType.TYPE_CONTROL PortFlow.FLOW_INPUT 0 0) (by decide)
      (of_decide_eq_true hd))

end Zrythm
